import Mathlib

/-!
# Parameter-update rules of `cnn/training.cc`

A shallow embedding of the trainers of `cnn/training.cc` (CPU code path, the
`#else` branches of `HAVE_CUDA`).

* Scalars (`real`, `float`) are elements of a linearly ordered field `R`, so
  arithmetic is exact; every definition is computable once `R` is (for
  instance at `ℚ`).
* The one place where the code inspects a non-finite `float`, the gradient
  norm read by `Trainer::clip_gradients`, uses `FloatVal R`, which adds the
  IEEE special values to `R`.
* A `Tensor` is the list of its coefficients (`Tensor::vec()`); coefficient-wise
  Eigen expressions become `List.map` / `List.zipWith`.
* Mutation through pointers becomes explicit state passing; `abort()` becomes
  `Except.error` carrying the state at the point of termination.
* The step counter `static unsigned t` of `AdamTrainer::update_impl` and the
  global `global_weight_decay` are fields of the state that is threaded.
* Division is the total division of `R` and `sqrt` is a total function, so the
  embedding gives the value of the code only where the code divides by
  something other than zero and takes the square root of something that is not
  negative. `step_operands` lists the operands of these operations.
-/

namespace cnn

variable {R : Type}

/-! ## Data model -/

/-- A `float` as seen by `isnan` / `isinf`: an element of `R` or an IEEE special value. -/
inductive FloatVal (R : Type) where
  | finite (x : R)
  | posInf
  | negInf
  | nan
  deriving DecidableEq, Repr

/-- The predicate `isnan` of `<cmath>`. -/
def FloatVal.isnan : FloatVal R → Bool
  | .nan => true
  | _ => false

/-- The predicate `isinf` of `<cmath>`. -/
def FloatVal.isinf : FloatVal R → Bool
  | .posInf => true
  | .negInf => true
  | _ => false

/-- The numeric value of a float that is neither NaN nor infinite. -/
def FloatVal.val [Zero R] : FloatVal R → R
  | .finite x => x
  | _ => 0

/-- A tensor, viewed through `Tensor::vec()` as the vector of its coefficients. -/
abbrev Tensor (R : Type) := List R

/-- The result of `TensorTools::Zero`: same shape, every coefficient zero. -/
def Tensor.Zero [Zero R] (t : Tensor R) : Tensor R := t.map (fun _ => 0)

/-- Dense parameter: `values` and the gradient accumulator `g`. -/
structure ParameterStorage (R : Type) where
  values : Tensor R
  g : Tensor R
  deriving DecidableEq, Repr

/-- Lookup parameter: rows `values[i]`, row gradients `grads[i]` and the
indices touched since the last `clear()`, in iteration order. -/
structure LookupParameterStorage (R : Type) where
  values : List (Tensor R)
  grads : List (Tensor R)
  non_zero_grads : List Nat
  deriving DecidableEq, Repr

/-- Modelled from the spec: `ParameterStorage::clear()` is not among the sources;
the spec says it zeroes the gradient. -/
def ParameterStorage.clear [Zero R] (p : ParameterStorage R) : ParameterStorage R :=
  { p with g := p.g.Zero }

/-- Modelled from the spec: `ParameterStorage::scale_parameters(a)` is not among
the sources; the spec says it multiplies the value in place by `a`. -/
def ParameterStorage.scale_parameters [Mul R] (p : ParameterStorage R) (a : R) :
    ParameterStorage R :=
  { p with values := p.values.map (fun x => x * a) }

/-- Modelled from the spec: `LookupParameterStorage::clear()` is not among the
sources; the spec says it clears the per-row gradients and empties the set of
touched rows. -/
def LookupParameterStorage.clear [Zero R] (p : LookupParameterStorage R) :
    LookupParameterStorage R :=
  { p with grads := p.grads.map Tensor.Zero, non_zero_grads := [] }

/-- The model: `parameters_list()` and `lookup_parameters_list()`. -/
structure Model (R : Type) where
  parameters_list : List (ParameterStorage R)
  lookup_parameters_list : List (LookupParameterStorage R)
  deriving DecidableEq, Repr

/-- The state of `global_weight_decay` (class `L2WeightDecay` of
`cnn/weight-decay.h`, which is not among the sources): the current scale. -/
structure L2WeightDecay (R : Type) where
  weight_decay : R
  deriving DecidableEq, Repr

/-- Modelled from the spec: `L2WeightDecay::CurrentWeightDecay()` returns the
current scale. -/
def L2WeightDecay.CurrentWeightDecay (w : L2WeightDecay R) : R := w.weight_decay

/-- Modelled from the spec: `L2WeightDecay::ResetWeightDecay()` resets the
current scale to 1. -/
def L2WeightDecay.ResetWeightDecay [One R] (_w : L2WeightDecay R) : L2WeightDecay R :=
  { weight_decay := 1 }

/-- The members of `Trainer` that `training.cc` uses, together with the global
`global_weight_decay`. The counters `clips` and `updates` are declared in
`cnn/training.h`, which is not among the sources; they count events. -/
structure Trainer (R : Type) where
  eta : R
  clipping_enabled : Bool
  clip_threshold : R
  clips : Nat
  updates : Nat
  model : Model R
  global_weight_decay : L2WeightDecay R
  deriving DecidableEq, Repr

/-! ## `Trainer` -/

section Code

variable [LinearOrderedField R]

/-- `Trainer::rescale_and_reset_weight_decay` (training.cc:18-23). -/
def Trainer.rescale_and_reset_weight_decay (tr : Trainer R) : Trainer R :=
  let weight_decay := tr.global_weight_decay.CurrentWeightDecay
  { tr with
    model := { tr.model with
      parameters_list := tr.model.parameters_list.map (fun p => p.scale_parameters weight_decay) }
    global_weight_decay := tr.global_weight_decay.ResetWeightDecay }

/-- `Trainer::clip_gradients` (training.cc:25-39). `gradient_l2_norm` is
`Model::gradient_l2_norm`, which is not among the sources. `Except.error` is
`abort()`. -/
def Trainer.clip_gradients (gradient_l2_norm : Model R → FloatVal R) (tr : Trainer R) :
    Except (Trainer R) (R × Trainer R) :=
  if tr.clipping_enabled then
    let gg := gradient_l2_norm tr.model
    if gg.isnan || gg.isinf then
      .error tr
    else if gg.val > tr.clip_threshold then
      .ok (tr.clip_threshold / gg.val, { tr with clips := tr.clips + 1 })
    else
      .ok (1, tr)
  else
    .ok (1, tr)

/-- The number that `Trainer::clip_gradients` divides by: the gradient norm
`gg`, when it clips (training.cc:35). -/
def Trainer.clip_operands (gradient_l2_norm : Model R → FloatVal R) (tr : Trainer R) : List R :=
  if tr.clipping_enabled then
    let gg := gradient_l2_norm tr.model
    if gg.isnan || gg.isinf then
      []
    else if gg.val > tr.clip_threshold then
      [gg.val]
    else
      []
  else
    []

/-! ## Loops and shadow storage -/

/-- The loop `for (auto p : params) { body }` with the running index `pi`
(`vp[pi++]`, or `pi++` at the end of the body): `body pi s p` gives the state
owned by the trainer and the parameter after one iteration. -/
def forParams {S : Type} (body : Nat → S → ParameterStorage R → S × ParameterStorage R) :
    Nat → S → List (ParameterStorage R) → S × List (ParameterStorage R)
  | _, s, [] => (s, [])
  | pi, s, p :: ps =>
    let r := body pi s p
    let rs := forParams body (pi + 1) r.1 ps
    (rs.1, r.2 :: rs.2)

/-- The loop
`for (auto p : lookup_params) { for (auto i : p->non_zero_grads) { row }  p->clear(); }`
with the running index `pi`: `row pi i s p` is one iteration of the inner loop. -/
def forLookupParams {S : Type}
    (row : Nat → Nat → S → LookupParameterStorage R → S × LookupParameterStorage R) :
    Nat → S → List (LookupParameterStorage R) → S × List (LookupParameterStorage R)
  | _, s, [] => (s, [])
  | pi, s, p :: ps =>
    let r := p.non_zero_grads.foldl (fun sp i => row pi i sp.1 sp.2) (s, p)
    let rs := forLookupParams row (pi + 1) r.1 ps
    (rs.1, r.2.clear :: rs.2)

/-- Read `h[pi][i]` of a vector of vectors (`d` outside the bounds). -/
def rowAt {α : Type} (h : List (List α)) (pi i : Nat) (d : α) : α :=
  (h.getD pi []).getD i d

/-- Write `h[pi][i] = x` in a vector of vectors. -/
def setRowAt {α : Type} (h : List (List α)) (pi i : Nat) (x : α) : List (List α) :=
  h.set pi ((h.getD pi []).set i x)

/-- The call `std::vector::resize(n)`: truncate, or pad with value-initialised elements. -/
def resize {α : Type} (d : α) (xs : List α) (n : Nat) : List α :=
  xs.take n ++ List.replicate (n - xs.length) d

/-- Modelled from the spec: `AllocateShadowParameters` is not among the sources;
the spec says it makes one all-zero tensor per dense parameter, of that
parameter's shape. -/
def AllocateShadowParameters (m : Model R) : List (Tensor R) :=
  m.parameters_list.map (fun p => p.values.Zero)

/-- Modelled from the spec: `AllocateShadowLookupParameters` is not among the
sources; the spec says it makes one all-zero tensor per row of every lookup
parameter, of that row's shape. -/
def AllocateShadowLookupParameters (m : Model R) : List (List (Tensor R)) :=
  m.lookup_parameters_list.map (fun p => p.values.map Tensor.Zero)

/-! ## `SimpleSGDTrainer` -/

/-- `SimpleSGDTrainer` has no members of its own. -/
structure SimpleSGDTrainer (R : Type) extends Trainer R
  deriving DecidableEq, Repr

/-- Body of the loop over `params` in `update_params` (training.cc:59-61). -/
def SimpleSGDTrainer.dense_body (eta scale gscale wd : R) (_pi : Nat) (s : Unit)
    (p : ParameterStorage R) : Unit × ParameterStorage R :=
  let x1 := List.zipWith (fun x g => x - (eta * scale * gscale) * g / wd) p.values p.g
  (s, ({ p with values := x1 }).clear)

/-- Body of the loop over `p->non_zero_grads` in `update_params` (training.cc:68). -/
def SimpleSGDTrainer.row_body (eta scale gscale wd : R) (_pi i : Nat) (s : Unit)
    (p : LookupParameterStorage R) : Unit × LookupParameterStorage R :=
  let x1 := List.zipWith (fun x g => x - g * (eta * scale * gscale) / wd)
    (p.values.getD i []) (p.grads.getD i [])
  (s, { p with values := p.values.set i x1 })

/-- `SimpleSGDTrainer::update_params` (training.cc:53-74): the trainer, the
lookup parameters and the dense parameters after the call. -/
def SimpleSGDTrainer.update_params (gradient_l2_norm : Model R → FloatVal R)
    (tr : SimpleSGDTrainer R) (lookup_params : List (LookupParameterStorage R))
    (params : List (ParameterStorage R)) (scale : R) :
    Except (SimpleSGDTrainer R)
      (SimpleSGDTrainer R × List (LookupParameterStorage R) × List (ParameterStorage R)) :=
  match tr.toTrainer.clip_gradients gradient_l2_norm with
  | .error b => .error { tr with toTrainer := b }
  | .ok (gscale, b) =>
    let wd := b.global_weight_decay.CurrentWeightDecay
    let ps := forParams (SimpleSGDTrainer.dense_body b.eta scale gscale wd) 0 () params
    let ls := forLookupParams (SimpleSGDTrainer.row_body b.eta scale gscale wd) 0 () lookup_params
    .ok ({ tr with toTrainer := { b with updates := b.updates + 1 } }, ls.2, ps.2)

/-- `SimpleSGDTrainer::update_impl` (training.cc:49-51): `update_params` on the
parameters of the model. -/
def SimpleSGDTrainer.update_impl (gradient_l2_norm : Model R → FloatVal R)
    (tr : SimpleSGDTrainer R) (scale : R) : Except (SimpleSGDTrainer R) (SimpleSGDTrainer R) :=
  match tr.update_params gradient_l2_norm tr.model.lookup_parameters_list
      tr.model.parameters_list scale with
  | .error e => .error e
  | .ok (tr1, ls, ps) =>
    .ok { tr1 with model := { parameters_list := ps, lookup_parameters_list := ls } }

/-! ## `MomentumSGDTrainer` -/

/-- Members of `MomentumSGDTrainer`: `vp[pi].h` is `vp[pi]`, `vlp[pi].h[i]` is `vlp[pi][i]`. -/
structure MomentumSGDTrainer (R : Type) extends Trainer R where
  momentum : R
  velocity_allocated : Bool
  vp : List (Tensor R)
  vlp : List (List (Tensor R))
  deriving DecidableEq, Repr

/-- The block `if (!velocity_allocated) { ... }` (training.cc:79-83). -/
def MomentumSGDTrainer.allocate (tr : MomentumSGDTrainer R) : MomentumSGDTrainer R :=
  if !tr.velocity_allocated then
    { tr with
      vp := AllocateShadowParameters tr.model
      vlp := AllocateShadowLookupParameters tr.model
      velocity_allocated := true }
  else tr

/-- The new velocity and the new value of one tensor (training.cc:89-90 and
98-99): `raw` is the stored gradient, `v` the velocity, `x` the value. -/
def MomentumSGDTrainer.step (eta momentum scale gscale wd : R) (v raw x : Tensor R) :
    Tensor R × Tensor R :=
  let v1 := List.zipWith (fun a g => momentum * a - (eta * scale * gscale) * g) v raw
  (v1, List.zipWith (fun a b => a + b / wd) x v1)

/-- Body of the loop over `parameters_list()` (training.cc:88-91). -/
def MomentumSGDTrainer.dense_body (eta momentum scale gscale wd : R) (pi : Nat)
    (vp : List (Tensor R)) (p : ParameterStorage R) : List (Tensor R) × ParameterStorage R :=
  let r := MomentumSGDTrainer.step eta momentum scale gscale wd (vp.getD pi []) p.g p.values
  (vp.set pi r.1, ({ p with values := r.2 }).clear)

/-- Body of the loop over `p->non_zero_grads` (training.cc:97-99). -/
def MomentumSGDTrainer.row_body (eta momentum scale gscale wd : R) (pi i : Nat)
    (vlp : List (List (Tensor R))) (p : LookupParameterStorage R) :
    List (List (Tensor R)) × LookupParameterStorage R :=
  let r := MomentumSGDTrainer.step eta momentum scale gscale wd (rowAt vlp pi i [])
    (p.grads.getD i []) (p.values.getD i [])
  (setRowAt vlp pi i r.1, { p with values := p.values.set i r.2 })

/-- `MomentumSGDTrainer::update_impl` (training.cc:76-104). -/
def MomentumSGDTrainer.update_impl (gradient_l2_norm : Model R → FloatVal R)
    (tr0 : MomentumSGDTrainer R) (scale : R) :
    Except (MomentumSGDTrainer R) (MomentumSGDTrainer R) :=
  let tr := tr0.allocate
  match tr.toTrainer.clip_gradients gradient_l2_norm with
  | .error b => .error { tr with toTrainer := b }
  | .ok (gscale, b) =>
    let wd := b.global_weight_decay.CurrentWeightDecay
    let ps := forParams (MomentumSGDTrainer.dense_body b.eta tr.momentum scale gscale wd)
      0 tr.vp b.model.parameters_list
    let ls := forLookupParams (MomentumSGDTrainer.row_body b.eta tr.momentum scale gscale wd)
      0 tr.vlp b.model.lookup_parameters_list
    .ok { tr with
      toTrainer := { b with
        model := { parameters_list := ps.2, lookup_parameters_list := ls.2 }
        updates := b.updates + 1 }
      vp := ps.1
      vlp := ls.1 }

/-- Members of `AdagradTrainer`. -/
structure AdagradTrainer (R : Type) extends Trainer R where
  epsilon : R
  shadow_params_allocated : Bool
  vp : List (Tensor R)
  vlp : List (List (Tensor R))
  deriving DecidableEq, Repr

/-- The block `if (!shadow_params_allocated) { ... }` (training.cc:108-112). -/
def AdagradTrainer.allocate (tr : AdagradTrainer R) : AdagradTrainer R :=
  if !tr.shadow_params_allocated then
    { tr with
      vp := AllocateShadowParameters tr.model
      vlp := AllocateShadowLookupParameters tr.model
      shadow_params_allocated := true }
  else tr

/-- The new accumulator and the new value of one tensor (training.cc:118-122
and 131-135): `raw` is the stored gradient, `v` the accumulator, `x` the value. -/
def AdagradTrainer.step (sqrt : R → R) (eta epsilon scale gscale wd : R)
    (v raw x : Tensor R) : Tensor R × Tensor R :=
  let g := raw.map (fun r => scale * gscale * r)
  let g2 := g.map (fun a => a * a)
  let v1 := List.zipWith (fun a b => a + b) v g2
  let delta := List.zipWith (fun a b => -eta * (a / sqrt (b + epsilon))) g v1
  (v1, List.zipWith (fun a d => a + d / wd) x delta)

/-- The operands of the partial operations of the step `AdagradTrainer.step`
(training.cc:121-122 and 134-135): the numbers it divides by, which are the
coefficients of `sqrt(v + epsilon)` and the weight-decay scale, and the numbers
it takes the square root of, which are the coefficients of `v + epsilon`; `v`
is read after `v += g2`. -/
def AdagradTrainer.step_operands (sqrt : R → R) (epsilon scale gscale wd : R)
    (v raw : Tensor R) : List R × List R :=
  let g := raw.map (fun r => scale * gscale * r)
  let g2 := g.map (fun a => a * a)
  let v1 := List.zipWith (fun a b => a + b) v g2
  (v1.map (fun b => sqrt (b + epsilon)) ++ [wd], v1.map (fun b => b + epsilon))

/-- Body of the loop over `parameters_list()` (training.cc:117-123). -/
def AdagradTrainer.dense_body (sqrt : R → R) (eta epsilon scale gscale wd : R) (pi : Nat)
    (vp : List (Tensor R)) (p : ParameterStorage R) : List (Tensor R) × ParameterStorage R :=
  let r := AdagradTrainer.step sqrt eta epsilon scale gscale wd (vp.getD pi []) p.g p.values
  (vp.set pi r.1, ({ p with values := r.2 }).clear)

/-- Body of the loop over `p->non_zero_grads` (training.cc:130-135). -/
def AdagradTrainer.row_body (sqrt : R → R) (eta epsilon scale gscale wd : R) (pi i : Nat)
    (vlp : List (List (Tensor R))) (p : LookupParameterStorage R) :
    List (List (Tensor R)) × LookupParameterStorage R :=
  let r := AdagradTrainer.step sqrt eta epsilon scale gscale wd (rowAt vlp pi i [])
    (p.grads.getD i []) (p.values.getD i [])
  (setRowAt vlp pi i r.1, { p with values := p.values.set i r.2 })

/-- `AdagradTrainer::update_impl` (training.cc:106-141). -/
def AdagradTrainer.update_impl (sqrt : R → R) (gradient_l2_norm : Model R → FloatVal R)
    (tr0 : AdagradTrainer R) (scale : R) : Except (AdagradTrainer R) (AdagradTrainer R) :=
  let tr := tr0.allocate
  match tr.toTrainer.clip_gradients gradient_l2_norm with
  | .error b => .error { tr with toTrainer := b }
  | .ok (gscale, b) =>
    let wd := b.global_weight_decay.CurrentWeightDecay
    let ps := forParams (AdagradTrainer.dense_body sqrt b.eta tr.epsilon scale gscale wd)
      0 tr.vp b.model.parameters_list
    let ls := forLookupParams (AdagradTrainer.row_body sqrt b.eta tr.epsilon scale gscale wd)
      0 tr.vlp b.model.lookup_parameters_list
    .ok { tr with
      toTrainer := { b with
        model := { parameters_list := ps.2, lookup_parameters_list := ls.2 }
        updates := b.updates + 1 }
      vp := ps.1
      vlp := ls.1 }

/-- Members of `AdadeltaTrainer`. -/
structure AdadeltaTrainer (R : Type) extends Trainer R where
  epsilon : R
  rho : R
  shadow_params_allocated : Bool
  hg : List (Tensor R)
  hlg : List (List (Tensor R))
  hd : List (Tensor R)
  hld : List (List (Tensor R))
  deriving DecidableEq, Repr

/-- The block `if (!shadow_params_allocated) { ... }` (training.cc:145-170); the
seeding with `epsilon` is commented out in the source. -/
def AdadeltaTrainer.allocate (tr : AdadeltaTrainer R) : AdadeltaTrainer R :=
  if !tr.shadow_params_allocated then
    { tr with
      hg := AllocateShadowParameters tr.model
      hlg := AllocateShadowLookupParameters tr.model
      hd := AllocateShadowParameters tr.model
      hld := AllocateShadowLookupParameters tr.model
      shadow_params_allocated := true }
  else tr

/-- The Eigen expression `delta = num.cwiseQuotient(den)` (training.cc:180-182
and 200-202) read against the accumulators `hgv` and `hdv` as they are stored
at the moment the expression is evaluated. -/
def AdadeltaTrainer.delta (sqrt : R → R) (epsilon scale gscale : R)
    (hgv hdv raw : Tensor R) : Tensor R :=
  let g := raw.map (fun r => scale * gscale * r)
  let num := List.zipWith (fun a h => -(a * sqrt (h + epsilon))) g hdv
  let den := hgv.map (fun h => sqrt (h + epsilon))
  List.zipWith (fun n d => n / d) num den

/-- The new `hgv`, the new `hdv` and the new value of one tensor
(training.cc:175-185 and 197-205). `g`, `g2`, `num`, `den`, `delta` and `d2`
are declared `auto`, so they are unevaluated Eigen expressions that hold views
of the stored tensors; each is evaluated where it is consumed. The assignment
to `hdv` reads `delta` against the old `hdv` (coefficient by coefficient,
before it writes), and the later `+=` on the value evaluates `delta` again,
against the `hdv` just written. -/
def AdadeltaTrainer.step (sqrt : R → R) (rho epsilon scale gscale wd : R)
    (hgv hdv raw x : Tensor R) : Tensor R × Tensor R × Tensor R :=
  let g := raw.map (fun r => scale * gscale * r)
  let g2 := g.map (fun a => a * a)
  let hgv1 := List.zipWith (fun h b => rho * h + (1 - rho) * b) hgv g2
  let d2 := (AdadeltaTrainer.delta sqrt epsilon scale gscale hgv1 hdv raw).map (fun d => d * d)
  let hdv1 := List.zipWith (fun h b => rho * h + (1 - rho) * b) hdv d2
  let x1 := List.zipWith (fun a d => a + d / wd) x
    (AdadeltaTrainer.delta sqrt epsilon scale gscale hgv1 hdv1 raw)
  (hgv1, hdv1, x1)

/-- The operands of the partial operations of the step `AdadeltaTrainer.step`
(training.cc:180-185 and 200-205): the numbers it divides by, which are the
coefficients of `den` and the weight-decay scale, and the numbers it takes the
square root of, which are the coefficients of `hgv + epsilon` after the
assignment to `hgv`, and those of `hdv + epsilon` both before and after the
assignment to `hdv`, since `delta` is evaluated at both. -/
def AdadeltaTrainer.step_operands (sqrt : R → R) (rho epsilon scale gscale wd : R)
    (hgv hdv raw : Tensor R) : List R × List R :=
  let g := raw.map (fun r => scale * gscale * r)
  let g2 := g.map (fun a => a * a)
  let hgv1 := List.zipWith (fun h b => rho * h + (1 - rho) * b) hgv g2
  let d2 := (AdadeltaTrainer.delta sqrt epsilon scale gscale hgv1 hdv raw).map (fun d => d * d)
  let hdv1 := List.zipWith (fun h b => rho * h + (1 - rho) * b) hdv d2
  (hgv1.map (fun h => sqrt (h + epsilon)) ++ [wd],
    hgv1.map (fun h => h + epsilon) ++ (hdv.map (fun h => h + epsilon) ++
      hdv1.map (fun h => h + epsilon)))

/-- Body of the loop over `parameters_list()` (training.cc:175-187); the state is `(hg, hd)`. -/
def AdadeltaTrainer.dense_body (sqrt : R → R) (rho epsilon scale gscale wd : R) (pi : Nat)
    (s : List (Tensor R) × List (Tensor R)) (p : ParameterStorage R) :
    (List (Tensor R) × List (Tensor R)) × ParameterStorage R :=
  let r := AdadeltaTrainer.step sqrt rho epsilon scale gscale wd
    (s.1.getD pi []) (s.2.getD pi []) p.g p.values
  ((s.1.set pi r.1, s.2.set pi r.2.1), ({ p with values := r.2.2 }).clear)

/-- Body of the loop over `p->non_zero_grads` (training.cc:195-205); the state is `(hlg, hld)`. -/
def AdadeltaTrainer.row_body (sqrt : R → R) (rho epsilon scale gscale wd : R) (pi i : Nat)
    (s : List (List (Tensor R)) × List (List (Tensor R))) (p : LookupParameterStorage R) :
    (List (List (Tensor R)) × List (List (Tensor R))) × LookupParameterStorage R :=
  let r := AdadeltaTrainer.step sqrt rho epsilon scale gscale wd
    (rowAt s.1 pi i []) (rowAt s.2 pi i []) (p.grads.getD i []) (p.values.getD i [])
  ((setRowAt s.1 pi i r.1, setRowAt s.2 pi i r.2.1), { p with values := p.values.set i r.2.2 })

/-- `AdadeltaTrainer::update_impl` (training.cc:143-211). -/
def AdadeltaTrainer.update_impl (sqrt : R → R) (gradient_l2_norm : Model R → FloatVal R)
    (tr0 : AdadeltaTrainer R) (scale : R) : Except (AdadeltaTrainer R) (AdadeltaTrainer R) :=
  let tr := tr0.allocate
  match tr.toTrainer.clip_gradients gradient_l2_norm with
  | .error b => .error { tr with toTrainer := b }
  | .ok (gscale, b) =>
    let wd := b.global_weight_decay.CurrentWeightDecay
    let ps := forParams (AdadeltaTrainer.dense_body sqrt tr.rho tr.epsilon scale gscale wd)
      0 (tr.hg, tr.hd) b.model.parameters_list
    let ls := forLookupParams (AdadeltaTrainer.row_body sqrt tr.rho tr.epsilon scale gscale wd)
      0 (tr.hlg, tr.hld) b.model.lookup_parameters_list
    .ok { tr with
      toTrainer := { b with
        model := { parameters_list := ps.2, lookup_parameters_list := ls.2 }
        updates := b.updates + 1 }
      hg := ps.1.1
      hd := ps.1.2
      hlg := ls.1.1
      hld := ls.1.2 }

/-- Members of `RmsPropTrainer`: one scalar per dense parameter and per lookup row. -/
structure RmsPropTrainer (R : Type) extends Trainer R where
  epsilon : R
  rho : R
  shadow_params_allocated : Bool
  hg : List R
  hlg : List (List R)
  deriving DecidableEq, Repr

/-- The block `if (!shadow_params_allocated) { ... }` (training.cc:215-225);
`p->size()` is the number of rows of the lookup parameter. -/
def RmsPropTrainer.allocate (tr : RmsPropTrainer R) : RmsPropTrainer R :=
  if !tr.shadow_params_allocated then
    { tr with
      hg := resize 0 tr.hg tr.model.parameters_list.length
      hlg := List.zipWith (fun h p => resize 0 h p.values.length)
        (resize [] tr.hlg tr.model.lookup_parameters_list.length)
        tr.model.lookup_parameters_list
      shadow_params_allocated := true }
  else tr

/-- The new scalar `d2` and the new value of one tensor (training.cc:231-233
and 242-244); `g2` is the squared norm of the stored gradient. -/
def RmsPropTrainer.step (sqrt : R → R) (eta rho epsilon scale gscale wd : R)
    (d2 : R) (raw x : Tensor R) : R × Tensor R :=
  let g2 := (raw.map (fun r => r * r)).sum
  let d21 := rho * d2 + (1 - rho) * g2
  (d21, List.zipWith
    (fun a r => a - ((eta * scale * gscale / sqrt (d21 + epsilon)) * r) / wd) x raw)

/-- The operands of the partial operations of the step `RmsPropTrainer.step`
(training.cc:233 and 244): it divides by `sqrt(d2 + epsilon)` and by the
weight-decay scale, and takes the square root of `d2 + epsilon`; `d2` is read
after its assignment. -/
def RmsPropTrainer.step_operands (sqrt : R → R) (rho epsilon wd : R) (d2 : R)
    (raw : Tensor R) : List R × List R :=
  let g2 := (raw.map (fun r => r * r)).sum
  let d21 := rho * d2 + (1 - rho) * g2
  ([sqrt (d21 + epsilon), wd], [d21 + epsilon])

/-- Body of the loop over `parameters_list()` (training.cc:230-234). -/
def RmsPropTrainer.dense_body (sqrt : R → R) (eta rho epsilon scale gscale wd : R) (pi : Nat)
    (hg : List R) (p : ParameterStorage R) : List R × ParameterStorage R :=
  let r := RmsPropTrainer.step sqrt eta rho epsilon scale gscale wd (hg.getD pi 0) p.g p.values
  (hg.set pi r.1, ({ p with values := r.2 }).clear)

/-- Body of the loop over `p->non_zero_grads` (training.cc:241-244). -/
def RmsPropTrainer.row_body (sqrt : R → R) (eta rho epsilon scale gscale wd : R) (pi i : Nat)
    (hlg : List (List R)) (p : LookupParameterStorage R) :
    List (List R) × LookupParameterStorage R :=
  let r := RmsPropTrainer.step sqrt eta rho epsilon scale gscale wd (rowAt hlg pi i 0)
    (p.grads.getD i []) (p.values.getD i [])
  (setRowAt hlg pi i r.1, { p with values := p.values.set i r.2 })

/-- `RmsPropTrainer::update_impl` (training.cc:213-249). -/
def RmsPropTrainer.update_impl (sqrt : R → R) (gradient_l2_norm : Model R → FloatVal R)
    (tr0 : RmsPropTrainer R) (scale : R) : Except (RmsPropTrainer R) (RmsPropTrainer R) :=
  let tr := tr0.allocate
  match tr.toTrainer.clip_gradients gradient_l2_norm with
  | .error b => .error { tr with toTrainer := b }
  | .ok (gscale, b) =>
    let wd := b.global_weight_decay.CurrentWeightDecay
    let ps := forParams (RmsPropTrainer.dense_body sqrt b.eta tr.rho tr.epsilon scale gscale wd)
      0 tr.hg b.model.parameters_list
    let ls := forLookupParams (RmsPropTrainer.row_body sqrt b.eta tr.rho tr.epsilon scale gscale wd)
      0 tr.hlg b.model.lookup_parameters_list
    .ok { tr with
      toTrainer := { b with
        model := { parameters_list := ps.2, lookup_parameters_list := ls.2 }
        updates := b.updates + 1 }
      hg := ps.1
      hlg := ls.1 }

/-- Members of `AdamTrainer`, and `t`, the `static unsigned t` of `update_impl`. -/
structure AdamTrainer (R : Type) extends Trainer R where
  beta_1 : R
  beta_2 : R
  eps : R
  shadow_params_allocated : Bool
  m : List (Tensor R)
  lm : List (List (Tensor R))
  v : List (Tensor R)
  lv : List (List (Tensor R))
  t : Nat
  deriving DecidableEq, Repr

/-- The block `if (!shadow_params_allocated) { ... }` (training.cc:253-259). -/
def AdamTrainer.allocate (tr : AdamTrainer R) : AdamTrainer R :=
  if !tr.shadow_params_allocated then
    { tr with
      m := AllocateShadowParameters tr.model
      lm := AllocateShadowLookupParameters tr.model
      v := AllocateShadowParameters tr.model
      lv := AllocateShadowLookupParameters tr.model
      shadow_params_allocated := true }
  else tr

/-- The new first moment, the new second moment and the new value of one
tensor, for the step count `t` (training.cc:266-277 and 287-298). `m_t` and
`v_t` are views of the stored moments, so assigning to them stores. -/
def AdamTrainer.step (sqrt : R → R) (eta beta_1 beta_2 eps scale gscale wd : R) (t : Nat)
    (m_t v_t raw x : Tensor R) : Tensor R × Tensor R × Tensor R :=
  let g_t := raw.map (fun r => scale * gscale * r)
  let m_t1 := List.zipWith (fun a b => beta_1 * a + (1 - beta_1) * b) m_t g_t
  let g2 := g_t.map (fun a => a * a)
  let v_t1 := List.zipWith (fun a b => beta_2 * a + (1 - beta_2) * b) v_t g2
  let s1 := 1 - beta_1 ^ t
  let s2 := 1 - beta_2 ^ t
  let mhat := m_t1.map (fun a => a / s1)
  let vhat := v_t1.map (fun a => a / s2)
  let delta := List.zipWith (fun a b => (-eta * a) / (sqrt b + eps)) mhat vhat
  (m_t1, v_t1, List.zipWith (fun a d => a + d / wd) x delta)

/-- The operands of the partial operations of the step `AdamTrainer.step`
(training.cc:272-277 and 293-298): the numbers it divides by, which are `s1`,
`s2`, the coefficients of `sqrt(vhat) + eps` and the weight-decay scale, and
the numbers it takes the square root of, which are the coefficients of `vhat`. -/
def AdamTrainer.step_operands (sqrt : R → R) (beta_1 beta_2 eps scale gscale wd : R) (t : Nat)
    (v_t raw : Tensor R) : List R × List R :=
  let g_t := raw.map (fun r => scale * gscale * r)
  let g2 := g_t.map (fun a => a * a)
  let v_t1 := List.zipWith (fun a b => beta_2 * a + (1 - beta_2) * b) v_t g2
  let s1 := 1 - beta_1 ^ t
  let s2 := 1 - beta_2 ^ t
  let vhat := v_t1.map (fun a => a / s2)
  ([s1, s2] ++ (vhat.map (fun b => sqrt b + eps) ++ [wd]), vhat)

/-- Body of the loop over `parameters_list()` (training.cc:265-279); the state
is `(m, v, t)` and `++t` is arithmetic of `unsigned`. -/
def AdamTrainer.dense_body (sqrt : R → R) (eta beta_1 beta_2 eps scale gscale wd : R) (pi : Nat)
    (s : List (Tensor R) × List (Tensor R) × Nat) (p : ParameterStorage R) :
    (List (Tensor R) × List (Tensor R) × Nat) × ParameterStorage R :=
  let t := (s.2.2 + 1) % 4294967296
  let r := AdamTrainer.step sqrt eta beta_1 beta_2 eps scale gscale wd t
    (s.1.getD pi []) (s.2.1.getD pi []) p.g p.values
  ((s.1.set pi r.1, s.2.1.set pi r.2.1, t), ({ p with values := r.2.2 }).clear)

/-- Body of the loop over `p->non_zero_grads` (training.cc:287-298); the state
is `(lm, lv)` and `t` is read, not written. -/
def AdamTrainer.row_body (sqrt : R → R) (eta beta_1 beta_2 eps scale gscale wd : R) (t : Nat)
    (pi i : Nat) (s : List (List (Tensor R)) × List (List (Tensor R)))
    (p : LookupParameterStorage R) :
    (List (List (Tensor R)) × List (List (Tensor R))) × LookupParameterStorage R :=
  let r := AdamTrainer.step sqrt eta beta_1 beta_2 eps scale gscale wd t
    (rowAt s.1 pi i []) (rowAt s.2 pi i []) (p.grads.getD i []) (p.values.getD i [])
  ((setRowAt s.1 pi i r.1, setRowAt s.2 pi i r.2.1), { p with values := p.values.set i r.2.2 })

/-- `AdamTrainer::update_impl` (training.cc:251-304). -/
def AdamTrainer.update_impl (sqrt : R → R) (gradient_l2_norm : Model R → FloatVal R)
    (tr0 : AdamTrainer R) (scale : R) : Except (AdamTrainer R) (AdamTrainer R) :=
  let tr := tr0.allocate
  match tr.toTrainer.clip_gradients gradient_l2_norm with
  | .error b => .error { tr with toTrainer := b }
  | .ok (gscale, b) =>
    let wd := b.global_weight_decay.CurrentWeightDecay
    let ps := forParams
      (AdamTrainer.dense_body sqrt b.eta tr.beta_1 tr.beta_2 tr.eps scale gscale wd)
      0 (tr.m, tr.v, tr.t) b.model.parameters_list
    let ls := forLookupParams
      (AdamTrainer.row_body sqrt b.eta tr.beta_1 tr.beta_2 tr.eps scale gscale wd ps.1.2.2)
      0 (tr.lm, tr.lv) b.model.lookup_parameters_list
    .ok { tr with
      toTrainer := { b with
        model := { parameters_list := ps.2, lookup_parameters_list := ls.2 }
        updates := b.updates + 1 }
      m := ps.1.1
      v := ps.1.2.1
      t := ps.1.2.2
      lm := ls.1.1
      lv := ls.1.2 }

/-- A `Trainer` object together with its dynamic type, which selects the
override of the virtual `update_impl`. -/
inductive AnyTrainer (R : Type) where
  | SimpleSGD (tr : SimpleSGDTrainer R)
  | MomentumSGD (tr : MomentumSGDTrainer R)
  | Adagrad (tr : AdagradTrainer R)
  | Adadelta (tr : AdadeltaTrainer R)
  | RmsProp (tr : RmsPropTrainer R)
  | Adam (tr : AdamTrainer R)
  deriving DecidableEq, Repr

/-- The `Trainer` base of the object. -/
def AnyTrainer.toTrainer : AnyTrainer R → Trainer R
  | .SimpleSGD tr => tr.toTrainer
  | .MomentumSGD tr => tr.toTrainer
  | .Adagrad tr => tr.toTrainer
  | .Adadelta tr => tr.toTrainer
  | .RmsProp tr => tr.toTrainer
  | .Adam tr => tr.toTrainer

/-- Run a method of the base class `Trainer` on the object. -/
def AnyTrainer.onTrainer (f : Trainer R → Trainer R) : AnyTrainer R → AnyTrainer R
  | .SimpleSGD tr => .SimpleSGD { tr with toTrainer := f tr.toTrainer }
  | .MomentumSGD tr => .MomentumSGD { tr with toTrainer := f tr.toTrainer }
  | .Adagrad tr => .Adagrad { tr with toTrainer := f tr.toTrainer }
  | .Adadelta tr => .Adadelta { tr with toTrainer := f tr.toTrainer }
  | .RmsProp tr => .RmsProp { tr with toTrainer := f tr.toTrainer }
  | .Adam tr => .Adam { tr with toTrainer := f tr.toTrainer }

/-- The outcome of an override of `update_impl`, as an outcome on the object. -/
def AnyTrainer.dispatched {σ : Type} (c : σ → AnyTrainer R) :
    Except σ σ → Except (AnyTrainer R) (AnyTrainer R)
  | .ok tr => .ok (c tr)
  | .error tr => .error (c tr)

/-- Virtual dispatch of `update_impl`. -/
def AnyTrainer.update_impl (sqrt : R → R) (gradient_l2_norm : Model R → FloatVal R)
    (tr : AnyTrainer R) (scale : R) : Except (AnyTrainer R) (AnyTrainer R) :=
  match tr with
  | .SimpleSGD tr => AnyTrainer.dispatched .SimpleSGD (tr.update_impl gradient_l2_norm scale)
  | .MomentumSGD tr => AnyTrainer.dispatched .MomentumSGD (tr.update_impl gradient_l2_norm scale)
  | .Adagrad tr => AnyTrainer.dispatched .Adagrad (tr.update_impl sqrt gradient_l2_norm scale)
  | .Adadelta tr => AnyTrainer.dispatched .Adadelta (tr.update_impl sqrt gradient_l2_norm scale)
  | .RmsProp tr => AnyTrainer.dispatched .RmsProp (tr.update_impl sqrt gradient_l2_norm scale)
  | .Adam tr => AnyTrainer.dispatched .Adam (tr.update_impl sqrt gradient_l2_norm scale)

/-- `Trainer::update` (training.cc:42-47). `UpdateWeightDecay` and
`ParametersNeedRescaled` are the methods of `L2WeightDecay`, which is not
among the sources. -/
def AnyTrainer.update (sqrt : R → R) (gradient_l2_norm : Model R → FloatVal R)
    (UpdateWeightDecay : L2WeightDecay R → L2WeightDecay R)
    (ParametersNeedRescaled : L2WeightDecay R → Bool)
    (tr : AnyTrainer R) (scale : R) : Except (AnyTrainer R) (AnyTrainer R) :=
  match tr.update_impl sqrt gradient_l2_norm scale with
  | .error e => .error e
  | .ok tr1 =>
    let tr2 := tr1.onTrainer
      (fun b => { b with global_weight_decay := UpdateWeightDecay b.global_weight_decay })
    if ParametersNeedRescaled tr2.toTrainer.global_weight_decay then
      .ok (tr2.onTrainer Trainer.rescale_and_reset_weight_decay)
    else
      .ok tr2

/-! ## Observations on a trainer -/

/-- The entry `h[k][j]` of a vector of vectors, when there is one. -/
def entry {α : Type} (h : List (List α)) (k j : Nat) : Option α :=
  (h[k]?).bind (fun r => r[j]?)

/-- The block `if (!allocated) { ... }` at the head of the override of
`update_impl` that the object runs; `SimpleSGDTrainer` has none. -/
def AnyTrainer.allocate : AnyTrainer R → AnyTrainer R
  | .SimpleSGD tr => .SimpleSGD tr
  | .MomentumSGD tr => .MomentumSGD tr.allocate
  | .Adagrad tr => .Adagrad tr.allocate
  | .Adadelta tr => .Adadelta tr.allocate
  | .RmsProp tr => .RmsProp tr.allocate
  | .Adam tr => .Adam tr.allocate

/-- The allocated-flag of the object; `SimpleSGDTrainer` has nothing to allocate. -/
def AnyTrainer.allocated : AnyTrainer R → Bool
  | .SimpleSGD _ => true
  | .MomentumSGD tr => tr.velocity_allocated
  | .Adagrad tr => tr.shadow_params_allocated
  | .Adadelta tr => tr.shadow_params_allocated
  | .RmsProp tr => tr.shadow_params_allocated
  | .Adam tr => tr.shadow_params_allocated

/-- The shadow state that the rule keeps for row `j` of the `k`-th lookup
parameter: its tensors (velocity, accumulators, moments) and its scalars (`d2`). -/
def AnyTrainer.row_shadow : AnyTrainer R → Nat → Nat → List (Option (Tensor R)) × List (Option R)
  | .SimpleSGD _, _, _ => ([], [])
  | .MomentumSGD tr, k, j => ([entry tr.vlp k j], [])
  | .Adagrad tr, k, j => ([entry tr.vlp k j], [])
  | .Adadelta tr, k, j => ([entry tr.hlg k j, entry tr.hld k j], [])
  | .RmsProp tr, k, j => ([], [entry tr.hlg k j])
  | .Adam tr, k, j => ([entry tr.lm k j, entry tr.lv k j], [])

/-- The shadow state that the rule keeps for the `j`-th dense parameter: its
tensors and its scalars. -/
def AnyTrainer.dense_shadow : AnyTrainer R → Nat → List (Option (Tensor R)) × List (Option R)
  | .SimpleSGD _, _ => ([], [])
  | .MomentumSGD tr, j => ([tr.vp[j]?], [])
  | .Adagrad tr, j => ([tr.vp[j]?], [])
  | .Adadelta tr, j => ([tr.hg[j]?, tr.hd[j]?], [])
  | .RmsProp tr, j => ([], [tr.hg[j]?])
  | .Adam tr, j => ([tr.m[j]?, tr.v[j]?], [])

/-- The shadow tensor through which the rule adds past gradients to the value
of the `j`-th dense parameter: the velocity of `MomentumSGDTrainer`, the first
moment of `AdamTrainer`; the other rules have none. -/
def AnyTrainer.dense_carry : AnyTrainer R → Nat → List (Option (Tensor R))
  | .MomentumSGD tr, j => [tr.vp[j]?]
  | .Adam tr, j => [tr.m[j]?]
  | _, _ => []

/-- The shadow tensor through which the rule adds past gradients to the value
of row `j` of the `k`-th lookup parameter. -/
def AnyTrainer.row_carry : AnyTrainer R → Nat → Nat → List (Option (Tensor R))
  | .MomentumSGD tr, k, j => [entry tr.vlp k j]
  | .Adam tr, k, j => [entry tr.lm k j]
  | _, _, _ => []

/-- The operands of the partial operations of one step of a rule, with the
divisor of `clip_gradients`, whose quotient `gscale` the step multiplies the
gradient by, put before the divisors of the step. -/
def withClipOperands (gradient_l2_norm : Model R → FloatVal R) (tr : Trainer R)
    (ops : List R × List R) : List R × List R :=
  (tr.clip_operands gradient_l2_norm ++ ops.1, ops.2)

/-- The operands of the partial operations that a call `update_impl(scale)`
performs for the `j`-th dense parameter, on a trainer that has passed its
allocation block: the numbers the call divides by and the numbers it takes the
square root of. Every rule divides by the weight-decay scale; `AdamTrainer`
has run `++t` once for each dense parameter up to and including the `j`-th. -/
def AnyTrainer.dense_operands (sqrt : R → R) (gradient_l2_norm : Model R → FloatVal R)
    (tr : AnyTrainer R) (scale : R) (j : Nat) : List R × List R :=
  match tr.toTrainer.clip_gradients gradient_l2_norm, tr.toTrainer.model.parameters_list[j]? with
  | .ok (gscale, b), some p =>
    let wd := b.global_weight_decay.CurrentWeightDecay
    withClipOperands gradient_l2_norm tr.toTrainer
      (match tr with
      | .SimpleSGD _ => ([wd], [])
      | .MomentumSGD _ => ([wd], [])
      | .Adagrad tr =>
        AdagradTrainer.step_operands sqrt tr.epsilon scale gscale wd (tr.vp.getD j []) p.g
      | .Adadelta tr =>
        AdadeltaTrainer.step_operands sqrt tr.rho tr.epsilon scale gscale wd
          (tr.hg.getD j []) (tr.hd.getD j []) p.g
      | .RmsProp tr => RmsPropTrainer.step_operands sqrt tr.rho tr.epsilon wd (tr.hg.getD j 0) p.g
      | .Adam tr =>
        AdamTrainer.step_operands sqrt tr.beta_1 tr.beta_2 tr.eps scale gscale wd
          ((fun t => (t + 1) % 4294967296)^[j + 1] tr.t) (tr.v.getD j []) p.g)
  | _, _ => ([], [])

/-- The operands of the partial operations that a call `update_impl(scale)`
performs for row `i` of the `k`-th lookup parameter, when `i` is in
`non_zero_grads` once. `AdamTrainer` reads `t` as the loop over all the dense
parameters left it. -/
def AnyTrainer.row_operands (sqrt : R → R) (gradient_l2_norm : Model R → FloatVal R)
    (tr : AnyTrainer R) (scale : R) (k i : Nat) : List R × List R :=
  match tr.toTrainer.clip_gradients gradient_l2_norm,
    tr.toTrainer.model.lookup_parameters_list[k]? with
  | .ok (gscale, b), some p =>
    let wd := b.global_weight_decay.CurrentWeightDecay
    withClipOperands gradient_l2_norm tr.toTrainer
      (match tr with
      | .SimpleSGD _ => ([wd], [])
      | .MomentumSGD _ => ([wd], [])
      | .Adagrad tr =>
        AdagradTrainer.step_operands sqrt tr.epsilon scale gscale wd (rowAt tr.vlp k i [])
          (p.grads.getD i [])
      | .Adadelta tr =>
        AdadeltaTrainer.step_operands sqrt tr.rho tr.epsilon scale gscale wd
          (rowAt tr.hlg k i []) (rowAt tr.hld k i []) (p.grads.getD i [])
      | .RmsProp tr =>
        RmsPropTrainer.step_operands sqrt tr.rho tr.epsilon wd (rowAt tr.hlg k i 0)
          (p.grads.getD i [])
      | .Adam tr =>
        AdamTrainer.step_operands sqrt tr.beta_1 tr.beta_2 tr.eps scale gscale wd
          ((fun t => (t + 1) % 4294967296)^[tr.model.parameters_list.length] tr.t)
          (rowAt tr.lv k i []) (p.grads.getD i []))
  | _, _ => ([], [])

end Code

/-! ## Concrete inputs -/

/-- A square root on `ℚ`, exact on squares of rationals. -/
def qsqrt (q : ℚ) : ℚ := (Nat.sqrt q.num.toNat : ℚ) / (Nat.sqrt q.den : ℚ)

/-- A rescale test for the examples: below one quarter. -/
def belowQuarter (w : L2WeightDecay ℚ) : Bool := decide (w.weight_decay < 1 / 4)

/-- One dense parameter with value `[1.0]` and gradient `[2.0]`. -/
def denseModel : Model ℚ :=
  { parameters_list := [{ values := [1], g := [2] }], lookup_parameters_list := [] }

/-- One lookup parameter with rows `[1.0]` and `[3.0]`; row 0 was touched, with gradient `[2.0]`. -/
def lookupModel : Model ℚ :=
  { parameters_list := []
    lookup_parameters_list := [{ values := [[1], [3]], grads := [[2], [0]], non_zero_grads := [0] }] }

/-- A trainer base with learning rate 0.1, clipping at 5 and weight-decay scale 1. -/
def baseTrainer (m : Model ℚ) (clipping : Bool) : Trainer ℚ :=
  { eta := 1 / 10, clipping_enabled := clipping, clip_threshold := 5, clips := 0, updates := 0,
    model := m, global_weight_decay := { weight_decay := 1 } }

/-- The trainer `baseTrainer` with weight-decay scale one half. -/
def halfDecayTrainer (m : Model ℚ) : Trainer ℚ :=
  { baseTrainer m true with global_weight_decay := { weight_decay := 1 / 2 } }

/-- One dense parameter (value `[1.0]`, gradient `[2.0]`) and one lookup
parameter (rows `[1.0]` and `[3.0]`, row 0 touched with gradient `[2.0]`). -/
def mixedModel : Model ℚ :=
  { parameters_list := denseModel.parameters_list
    lookup_parameters_list := lookupModel.lookup_parameters_list }

/-- A `MomentumSGDTrainer` on `mixedModel` before its first update: momentum one
half, clipping enabled, nothing allocated. -/
def momentumExample : MomentumSGDTrainer ℚ :=
  { toTrainer := baseTrainer mixedModel true
    momentum := 1 / 2, velocity_allocated := false, vp := [], vlp := [] }

/-- The trainer `momentumExample` after `update_impl(1)` at gradient norm 10. -/
def momentumAfter : MomentumSGDTrainer ℚ :=
  { toTrainer :=
      { baseTrainer mixedModel true with
        clips := 1
        updates := 1
        model :=
          { parameters_list := [{ values := [9 / 10], g := [0] }]
            lookup_parameters_list :=
              [{ values := [[9 / 10], [3]], grads := [[0], [0]], non_zero_grads := [] }] } }
    momentum := 1 / 2, velocity_allocated := true, vp := [[-1 / 10]], vlp := [[[-1 / 10], [0]]] }

/-- A `MomentumSGDTrainer` with velocity `[1.0]` on one dense parameter of value
`[0.0]` and gradient `[0.0]`; clipping disabled. -/
def movingExample : MomentumSGDTrainer ℚ :=
  { toTrainer := baseTrainer
      { parameters_list := [{ values := [0], g := [0] }], lookup_parameters_list := [] } false
    momentum := 1 / 2, velocity_allocated := true, vp := [[1]], vlp := [] }

/-- An `AdagradTrainer` with `epsilon = 1.0` and accumulators `[3.0]` and
`[8.0]` on a dense parameter and a touched lookup row whose gradients are zero;
clipping disabled. -/
def adagradExample : AdagradTrainer ℚ :=
  { toTrainer := baseTrainer
      { parameters_list := [{ values := [1], g := [0] }]
        lookup_parameters_list :=
          [{ values := [[1], [3]], grads := [[0], [0]], non_zero_grads := [0] }] } false
    epsilon := 1, shadow_params_allocated := true, vp := [[3]], vlp := [[[8], [0]]] }

/-- The trainer `adagradExample` after `update_impl(1)`. -/
def adagradAfter : AdagradTrainer ℚ :=
  { toTrainer :=
      { baseTrainer
          { parameters_list := [{ values := [1], g := [0] }]
            lookup_parameters_list :=
              [{ values := [[1], [3]], grads := [[0], [0]], non_zero_grads := [] }] } false with
        updates := 1 }
    epsilon := 1, shadow_params_allocated := true, vp := [[3]], vlp := [[[8], [0]]] }

/-- An `AdamTrainer` before its first update (`t = 0`) on two dense parameters
that are equal: value `[1.0]`, gradient `[1.0]`; clipping disabled. -/
def adamExample : AdamTrainer ℚ :=
  { toTrainer := baseTrainer
      { parameters_list := [{ values := [1], g := [1] }, { values := [1], g := [1] }]
        lookup_parameters_list := [] } false
    beta_1 := 1 / 2, beta_2 := 9 / 16, eps := 1 / 5, shadow_params_allocated := false
    m := [], lm := [], v := [], lv := [], t := 0 }

/-- The trainer `adamExample` after `update_impl(1)`. -/
def adamAfter : AdamTrainer ℚ :=
  { toTrainer :=
      { baseTrainer
          { parameters_list := [{ values := [11 / 12], g := [0] }, { values := [14 / 15], g := [0] }]
            lookup_parameters_list := [] } false with
        updates := 1 }
    beta_1 := 1 / 2, beta_2 := 9 / 16, eps := 1 / 5, shadow_params_allocated := true
    m := [[1 / 2], [1 / 2]], lm := [], v := [[7 / 16], [7 / 16]], lv := [], t := 2 }

/-- An `RmsPropTrainer` before its first update, with `rho = 0.75` and
`epsilon = 0`, on one dense parameter of value `[1.0]` and gradient `[10.0]`;
clipping at 5 enabled. -/
def rmsPropExample : RmsPropTrainer ℚ :=
  { toTrainer := baseTrainer
      { parameters_list := [{ values := [1], g := [10] }], lookup_parameters_list := [] } true
    epsilon := 0, rho := 3 / 4, shadow_params_allocated := false, hg := [], hlg := [] }

/-- The trainer `rmsPropExample` after `update_impl(1)` at gradient norm 10. -/
def rmsPropAfter : RmsPropTrainer ℚ :=
  { toTrainer :=
      { baseTrainer
          { parameters_list := [{ values := [9 / 10], g := [0] }]
            lookup_parameters_list := [] } true with
        clips := 1
        updates := 1 }
    epsilon := 0, rho := 3 / 4, shadow_params_allocated := true, hg := [25], hlg := [] }

/-- An `AdadeltaTrainer` before its first update, with `rho = 0.76` and
`epsilon = 0.01`, on one dense parameter of value `[1.0]` and gradient `[1.0]`;
clipping disabled. -/
def adadeltaExample : AdadeltaTrainer ℚ :=
  { toTrainer := baseTrainer
      { parameters_list := [{ values := [1], g := [1] }], lookup_parameters_list := [] } false
    epsilon := 1 / 100, rho := 19 / 25, shadow_params_allocated := false
    hg := [], hlg := [], hd := [], hld := [] }

/-- The trainer `adadeltaExample` after `update_impl(1)`. -/
def adadeltaAfter : AdadeltaTrainer ℚ :=
  { toTrainer :=
      { baseTrainer
          { parameters_list := [{ values := [18 / 25], g := [0] }]
            lookup_parameters_list := [] } false with
        updates := 1 }
    epsilon := 1 / 100, rho := 19 / 25, shadow_params_allocated := true
    hg := [[6 / 25]], hlg := [], hd := [[6 / 625]], hld := [] }

/-- An `AdamTrainer` before its first update (`t = 0`), with `beta_1 = 0.9`,
`beta_2 = 0.999`, `eta = 0.001` and `eps = 1e-8`, on one dense parameter of value
`[0.0]` and gradient `[1.0]`; clipping disabled, weight-decay scale 1. -/
def adamFirst : AdamTrainer ℚ :=
  { toTrainer :=
      { eta := 1 / 1000, clipping_enabled := false, clip_threshold := 5, clips := 0, updates := 0
        model := { parameters_list := [{ values := [0], g := [1] }], lookup_parameters_list := [] }
        global_weight_decay := { weight_decay := 1 } }
    beta_1 := 9 / 10, beta_2 := 999 / 1000, eps := 1 / 100000000
    shadow_params_allocated := false, m := [], lm := [], v := [], lv := [], t := 0 }

/-- The trainer `adamFirst` after `update_impl(1)`, for a square root with `sqrt 1 = 1`. -/
def adamFirstAfter : AdamTrainer ℚ :=
  { toTrainer :=
      { eta := 1 / 1000, clipping_enabled := false, clip_threshold := 5, clips := 0, updates := 1
        model :=
          { parameters_list := [{ values := [-(1 / 1000) / (1 + 1 / 100000000)], g := [0] }]
            lookup_parameters_list := [] }
        global_weight_decay := { weight_decay := 1 } }
    beta_1 := 9 / 10, beta_2 := 999 / 1000, eps := 1 / 100000000
    shadow_params_allocated := true, m := [[1 / 10]], lm := [], v := [[1 / 1000]], lv := [], t := 1 }

/-- A decay law for the examples: the scale drops to one eighth of itself. -/
def eighthDecay (w : L2WeightDecay ℚ) : L2WeightDecay ℚ := { weight_decay := w.weight_decay / 8 }

/-- An `AdamTrainer` whose step count is `2^32 - 1`, the count left by `2^32 - 1`
earlier calls on its one dense parameter; clipping disabled. -/
def adamWrapExample : AdamTrainer ℚ :=
  { toTrainer := baseTrainer
      { parameters_list := [{ values := [1], g := [1] }], lookup_parameters_list := [] } false
    beta_1 := 1 / 2, beta_2 := 9 / 16, eps := 1 / 5, shadow_params_allocated := true
    m := [[0]], lm := [], v := [[0]], lv := [], t := 4294967295 }

/-- The trainer `momentumExample` with momentum 0. -/
def noMomentumExample : MomentumSGDTrainer ℚ := { momentumExample with momentum := 0 }

/-- The trainer `noMomentumExample` after `update_impl(1)` at gradient norm 10. -/
def noMomentumAfter : MomentumSGDTrainer ℚ := { momentumAfter with momentum := 0 }

/-! ## Lists and the two loops -/

section Loops

variable {S V : Type}

theorem getD_set_ne {α : Type} (l : List α) (i j : Nat) (x d : α) (h : j ≠ i) :
    (l.set i x).getD j d = l.getD j d := by
  simp [List.getD_eq_getElem?_getD, List.getElem?_set_ne (Ne.symm h)]

theorem rowAt_setRowAt_ne {α : Type} (h : List (List α)) (pi i k j : Nat) (x d : α)
    (hne : k ≠ pi ∨ j ≠ i) : rowAt (setRowAt h pi i x) k j d = rowAt h k j d := by
  unfold rowAt setRowAt
  by_cases hk : k = pi
  · subst hk
    have hj : j ≠ i := by
      rcases hne with h1 | h1
      · exact absurd rfl h1
      · exact h1
    by_cases hlt : k < h.length
    · simp [List.getD_eq_getElem?_getD, List.getElem?_set_self hlt, List.getElem?_set_ne (Ne.symm hj),
        List.getElem?_eq_getElem hlt]
    · have e : ∀ y, (h.set k y)[k]? = none := fun y =>
        List.getElem?_eq_none (by rw [List.length_set]; exact not_lt.mp hlt)
      simp [List.getD_eq_getElem?_getD, e, List.getElem?_eq_none (not_lt.mp hlt)]
  · rw [getD_set_ne _ _ _ _ _ hk]

theorem entry_setRowAt_ne {α : Type} (h : List (List α)) (pi i k j : Nat) (x : α)
    (hne : k ≠ pi ∨ j ≠ i) : entry (setRowAt h pi i x) k j = entry h k j := by
  unfold entry setRowAt
  by_cases hk : k = pi
  · subst hk
    have hj : j ≠ i := by
      rcases hne with h1 | h1
      · exact absurd rfl h1
      · exact h1
    by_cases hlt : k < h.length
    · simp [List.getD_eq_getElem?_getD, List.getElem?_set_self hlt, List.getElem?_set_ne (Ne.symm hj),
        List.getElem?_eq_getElem hlt]
    · have e : ∀ y, (h.set k y)[k]? = none := fun y =>
        List.getElem?_eq_none (by rw [List.length_set]; exact not_lt.mp hlt)
      simp [e, List.getElem?_eq_none (not_lt.mp hlt)]
  · rw [List.getElem?_set_ne (Ne.symm hk)]

theorem rowAt_of_entry {α : Type} (h : List (List α)) (k j : Nat) (x d : α)
    (he : entry h k j = some x) : rowAt h k j d = x := by
  unfold entry at he
  unfold rowAt
  cases hk : h[k]? with
  | none => simp [hk] at he
  | some r =>
    rw [hk] at he
    simp only [Option.some_bind] at he
    simp [List.getD_eq_getElem?_getD, hk, he]

theorem zipWith_left_of_forall {α β : Type} (f : α → β → α) :
    ∀ (l1 : List α) (l2 : List β), l1.length ≤ l2.length →
      (∀ a ∈ l1, ∀ b ∈ l2, f a b = a) → List.zipWith f l1 l2 = l1
  | [], _, _, _ => by simp
  | a :: l1, [], h, _ => by simp at h
  | a :: l1, b :: l2, h, hf => by
    simp only [List.zipWith_cons_cons]
    rw [hf a (List.mem_cons_self _ _) b (List.mem_cons_self _ _),
      zipWith_left_of_forall f l1 l2 (by simpa using h)
        (fun a1 ha b1 hb => hf a1 (List.mem_cons_of_mem _ ha) b1 (List.mem_cons_of_mem _ hb))]

theorem forall_mem_zipWith {α β γ : Type} (f : α → β → γ) (P : γ → Prop) :
    ∀ (l1 : List α) (l2 : List β), (∀ a ∈ l1, ∀ b ∈ l2, P (f a b)) →
      ∀ c ∈ List.zipWith f l1 l2, P c
  | [], _, _ => by simp
  | _ :: _, [], _ => by simp
  | a :: l1, b :: l2, hf => by
    intro c hc
    simp only [List.zipWith_cons_cons, List.mem_cons] at hc
    rcases hc with hc | hc
    · rw [hc]
      exact hf a (List.mem_cons_self _ _) b (List.mem_cons_self _ _)
    · exact forall_mem_zipWith f P l1 l2
        (fun a1 ha b1 hb => hf a1 (List.mem_cons_of_mem _ ha) b1 (List.mem_cons_of_mem _ hb)) c hc

theorem forParams_length (body : Nat → S → ParameterStorage R → S × ParameterStorage R) :
    ∀ (ps : List (ParameterStorage R)) (pi : Nat) (s : S),
      (forParams body pi s ps).2.length = ps.length
  | [], _, _ => rfl
  | _ :: ps, pi, s => by simp [forParams, forParams_length body ps]

/-- The `j`-th parameter after the loop is the body run on the `j`-th parameter
with what the body reads of the state (`view`), as the earlier iterations left
it (`drift`). -/
theorem forParams_getElem (body : Nat → S → ParameterStorage R → S × ParameterStorage R)
    (view : Nat → S → V) (out : Nat → V → ParameterStorage R → ParameterStorage R)
    (drift : V → V)
    (hout : ∀ pi s p, (body pi s p).2 = out pi (view pi s) p)
    (hframe : ∀ pi pj s p, pj ≠ pi → view pj (body pi s p).1 = drift (view pj s)) :
    ∀ (ps : List (ParameterStorage R)) (pi : Nat) (s : S) (j : Nat) (p : ParameterStorage R),
      ps[j]? = some p →
      (forParams body pi s ps).2[j]? = some (out (pi + j) (drift^[j] (view (pi + j) s)) p)
  | [], _, _, _, _, h => by simp at h
  | q :: ps, pi, s, 0, p, h => by
    simp only [List.getElem?_cons_zero, Option.some.injEq] at h
    subst h
    simp [forParams, hout]
  | q :: ps, pi, s, j + 1, p, h => by
    simp only [List.getElem?_cons_succ] at h
    have ih := forParams_getElem body view out drift hout hframe ps (pi + 1)
      (body pi s q).1 j p h
    have hne : pi + 1 + j ≠ pi := by omega
    simp only [forParams, List.getElem?_cons_succ, ih, hframe pi (pi + 1 + j) s q hne,
      Function.iterate_succ, Function.comp_apply]
    have e : pi + 1 + j = pi + (j + 1) := by omega
    rw [e]

/-- The inner loop over `non_zero_grads`, as `forLookupParams` runs it. -/
theorem foldl_rows [LinearOrderedField R]
    (row : Nat → Nat → S → LookupParameterStorage R → S × LookupParameterStorage R)
    (view : Nat → Nat → S → V) (f : Nat → Nat → V → Tensor R → Tensor R → Tensor R)
    (h1 : ∀ pi i s p, (row pi i s p).2.values =
      p.values.set i (f pi i (view pi i s) (p.values.getD i []) (p.grads.getD i [])))
    (h2 : ∀ pi i s p, (row pi i s p).2.grads = p.grads)
    (h3 : ∀ pi i k j s p, (k ≠ pi ∨ j ≠ i) → view k j (row pi i s p).1 = view k j s)
    (pi : Nat) :
    ∀ (l : List Nat) (s : S) (p : LookupParameterStorage R),
      (l.foldl (fun sp i => row pi i sp.1 sp.2) (s, p)).2.grads = p.grads ∧
      (∀ k j, (k ≠ pi ∨ j ∉ l) →
        view k j (l.foldl (fun sp i => row pi i sp.1 sp.2) (s, p)).1 = view k j s) ∧
      (∀ j, j ∉ l →
        (l.foldl (fun sp i => row pi i sp.1 sp.2) (s, p)).2.values[j]? = p.values[j]?) ∧
      (l.Nodup → ∀ j, j ∈ l → j < p.values.length →
        (l.foldl (fun sp i => row pi i sp.1 sp.2) (s, p)).2.values[j]? =
          some (f pi j (view pi j s) (p.values.getD j []) (p.grads.getD j [])))
  | [], s, p => by simp
  | i :: l, s, p => by
    obtain ⟨ih1, ih2, ih3, ih4⟩ := foldl_rows row view f h1 h2 h3 pi l (row pi i s p).1
      (row pi i s p).2
    simp only [List.foldl_cons]
    refine ⟨by rw [ih1, h2], ?_, ?_, ?_⟩
    · intro k j hkj
      have hl : k ≠ pi ∨ j ∉ l := by
        rcases hkj with h | h
        · exact Or.inl h
        · exact Or.inr (fun hm => h (List.mem_cons_of_mem _ hm))
      have hi : k ≠ pi ∨ j ≠ i := by
        rcases hkj with h | h
        · exact Or.inl h
        · exact Or.inr (fun hm => h (hm ▸ List.mem_cons_self _ _))
      rw [ih2 k j hl, h3 pi i k j s p hi]
    · intro j hj
      have hji : j ≠ i := fun hm => hj (hm ▸ List.mem_cons_self _ _)
      have hjl : j ∉ l := fun hm => hj (List.mem_cons_of_mem _ hm)
      rw [ih3 j hjl, h1, List.getElem?_set_ne (Ne.symm hji)]
    · intro hnd j hj hlt
      have hnd2 := List.nodup_cons.mp hnd
      rcases List.mem_cons.mp hj with hji | hjl
      · subst hji
        rw [ih3 j hnd2.1, h1, List.getElem?_set_self hlt]
      · have hji : j ≠ i := fun hm => hnd2.1 (hm ▸ hjl)
        have hlt2 : j < (row pi i s p).2.values.length := by
          rw [h1, List.length_set]; exact hlt
        rw [ih4 hnd2.2 j hjl hlt2, h3 pi i pi j s p (Or.inr hji), h2, h1,
          getD_set_ne _ _ _ _ _ hji]

theorem forLookupParams_length [LinearOrderedField R]
    (row : Nat → Nat → S → LookupParameterStorage R → S × LookupParameterStorage R) :
    ∀ (ps : List (LookupParameterStorage R)) (pi : Nat) (s : S),
      (forLookupParams row pi s ps).2.length = ps.length
  | [], _, _ => rfl
  | _ :: ps, pi, s => by simp [forLookupParams, forLookupParams_length row ps]

/-- What the loop over the lookup parameters does to the rows of the `k`-th
lookup parameter: rows outside `non_zero_grads` keep their value, rows inside it
get `f` of their value, their gradient and what the body reads of the state. -/
theorem forLookupParams_rows [LinearOrderedField R]
    (row : Nat → Nat → S → LookupParameterStorage R → S × LookupParameterStorage R)
    (view : Nat → Nat → S → V) (f : Nat → Nat → V → Tensor R → Tensor R → Tensor R)
    (h1 : ∀ pi i s p, (row pi i s p).2.values =
      p.values.set i (f pi i (view pi i s) (p.values.getD i []) (p.grads.getD i [])))
    (h2 : ∀ pi i s p, (row pi i s p).2.grads = p.grads)
    (h3 : ∀ pi i k j s p, (k ≠ pi ∨ j ≠ i) → view k j (row pi i s p).1 = view k j s) :
    ∀ (ps : List (LookupParameterStorage R)) (pi : Nat) (s : S) (k : Nat)
      (p : LookupParameterStorage R), ps[k]? = some p →
      ∃ p1, (forLookupParams row pi s ps).2[k]? = some p1 ∧
        p1.non_zero_grads = [] ∧
        (∀ j, j ∉ p.non_zero_grads → p1.values[j]? = p.values[j]?) ∧
        (p.non_zero_grads.Nodup → ∀ j, j ∈ p.non_zero_grads → j < p.values.length →
          p1.values[j]? =
            some (f (pi + k) j (view (pi + k) j s) (p.values.getD j []) (p.grads.getD j [])))
  | [], _, _, _, _, h => by simp at h
  | q :: ps, pi, s, 0, p, h => by
    simp only [List.getElem?_cons_zero, Option.some.injEq] at h
    subst h
    obtain ⟨_, _, e3, e4⟩ := foldl_rows row view f h1 h2 h3 pi q.non_zero_grads s q
    exact ⟨(q.non_zero_grads.foldl (fun sp i => row pi i sp.1 sp.2) (s, q)).2.clear,
      by simp [forLookupParams], rfl, e3, by simpa using e4⟩
  | q :: ps, pi, s, k + 1, p, h => by
    simp only [List.getElem?_cons_succ] at h
    obtain ⟨p1, e1, e2, e3, e4⟩ := forLookupParams_rows row view f h1 h2 h3 ps (pi + 1)
      (q.non_zero_grads.foldl (fun sp i => row pi i sp.1 sp.2) (s, q)).1 k p h
    obtain ⟨_, f2, _, _⟩ := foldl_rows row view f h1 h2 h3 pi q.non_zero_grads s q
    have hne : pi + 1 + k ≠ pi := by omega
    have e : pi + 1 + k = pi + (k + 1) := by omega
    refine ⟨p1, by simpa [forLookupParams] using e1, e2, e3, ?_⟩
    intro hnd j hj hlt
    rw [e4 hnd j hj hlt, f2 (pi + 1 + k) j (Or.inl hne), e]

/-- What the loop over the lookup parameters leaves alone in the state: what the
body reads for row `j` of the `k`-th lookup parameter, when `j` is outside that
parameter's `non_zero_grads`. -/
theorem forLookupParams_frame [LinearOrderedField R]
    (row : Nat → Nat → S → LookupParameterStorage R → S × LookupParameterStorage R)
    (view : Nat → Nat → S → V)
    (h3 : ∀ pi i k j s p, (k ≠ pi ∨ j ≠ i) → view k j (row pi i s p).1 = view k j s)
    (k j : Nat) :
    ∀ (ps : List (LookupParameterStorage R)) (pi : Nat) (s : S),
      (∀ p, pi ≤ k → ps[k - pi]? = some p → j ∉ p.non_zero_grads) →
      view k j (forLookupParams row pi s ps).1 = view k j s
  | [], _, _, _ => rfl
  | q :: ps, pi, s, h => by
    have ih := forLookupParams_frame row view h3 k j ps (pi + 1)
      (q.non_zero_grads.foldl (fun sp i => row pi i sp.1 sp.2) (s, q)).1
      (fun p hle hp => h p (by omega) (by
        have e : k - pi = (k - (pi + 1)) + 1 := by omega
        rw [e, List.getElem?_cons_succ]; exact hp))
    have hq : k ≠ pi ∨ j ∉ q.non_zero_grads := by
      by_cases hk : k = pi
      · right
        exact h q (by omega) (by subst hk; simp)
      · exact Or.inl hk
    have hfold : ∀ (l : List Nat) (s : S) (p : LookupParameterStorage R),
        (k ≠ pi ∨ j ∉ l) →
        view k j (l.foldl (fun sp i => row pi i sp.1 sp.2) (s, p)).1 = view k j s := by
      intro l
      induction l with
      | nil => intro s p _; rfl
      | cons i l ihl =>
        intro s p hkl
        simp only [List.foldl_cons]
        rw [ihl _ _ (hkl.imp id (fun hn hm => hn (List.mem_cons_of_mem _ hm)))]
        exact h3 pi i k j s p (hkl.imp id (fun hn hm => hn (hm ▸ List.mem_cons_self _ _)))
    simp only [forLookupParams]
    rw [ih, hfold _ _ _ hq]

/-- After the loop over the dense parameters every gradient is zeroed, when the
body ends with `p->clear()`. -/
theorem forParams_g [LinearOrderedField R]
    (body : Nat → S → ParameterStorage R → S × ParameterStorage R)
    (hg : ∀ pi s p, (body pi s p).2.g = p.g.Zero) :
    ∀ (ps : List (ParameterStorage R)) (pi : Nat) (s : S),
      (forParams body pi s ps).2.map (fun p => p.g) = ps.map (fun p => p.g.Zero)
  | [], _, _ => rfl
  | q :: ps, pi, s => by simp [forParams, hg, forParams_g body hg ps]

/-- After the loop over the lookup parameters every `non_zero_grads` is empty. -/
theorem forLookupParams_non_zero_grads [LinearOrderedField R]
    (row : Nat → Nat → S → LookupParameterStorage R → S × LookupParameterStorage R) :
    ∀ (ps : List (LookupParameterStorage R)) (pi : Nat) (s : S),
      ∀ p ∈ (forLookupParams row pi s ps).2, p.non_zero_grads = []
  | [], _, _ => by simp [forLookupParams]
  | q :: ps, pi, s => by
    intro p hp
    simp only [forLookupParams, List.mem_cons] at hp
    rcases hp with hp | hp
    · rw [hp]; rfl
    · exact forLookupParams_non_zero_grads row ps _ _ p hp

end Loops

/-! ## `Trainer::clip_gradients` -/

section Clip

variable [LinearOrderedField R]

theorem clip_gradients_ok (l2 : Model R → FloatVal R) (tr b : Trainer R) (gscale : R)
    (h : tr.clip_gradients l2 = .ok (gscale, b)) :
    b = tr ∨ b = { tr with clips := tr.clips + 1 } := by
  unfold Trainer.clip_gradients at h
  dsimp only at h
  split_ifs at h <;> cases h <;> simp

theorem clip_gradients_error (l2 : Model R → FloatVal R) (tr b : Trainer R)
    (h : tr.clip_gradients l2 = .error b) : b = tr := by
  unfold Trainer.clip_gradients at h
  dsimp only at h
  split_ifs at h
  cases h
  rfl

/-- C2. With clipping enabled and a finite gradient norm `gg`: when
`gg > clip_threshold` the call returns `clip_threshold / gg` and adds exactly 1
to `clips`; when `gg ≤ clip_threshold` it returns 1 and leaves the trainer,
`clips` included, as it was. -/
theorem clip_gradients_finite (l2 : Model R → FloatVal R) (tr : Trainer R) (gg : R)
    (hen : tr.clipping_enabled = true) (hfin : l2 tr.model = .finite gg) :
    (gg > tr.clip_threshold →
      tr.clip_gradients l2 = .ok (tr.clip_threshold / gg, { tr with clips := tr.clips + 1 })) ∧
    (gg ≤ tr.clip_threshold → tr.clip_gradients l2 = .ok (1, tr)) := by
  unfold Trainer.clip_gradients
  constructor
  · intro h
    simp [hen, hfin, FloatVal.isnan, FloatVal.isinf, FloatVal.val, h]
  · intro h
    simp [hen, hfin, FloatVal.isnan, FloatVal.isinf, FloatVal.val, not_lt.mpr h]

theorem clip_gradients_finite_witness :
    (baseTrainer denseModel true).clip_gradients (fun _ => .finite 10) =
        .ok (5 / 10, { baseTrainer denseModel true with clips := 1 }) ∧
      (baseTrainer denseModel true).clip_gradients (fun _ => .finite 5) =
        .ok (1, baseTrainer denseModel true) :=
  ⟨(clip_gradients_finite (fun _ => .finite 10) (baseTrainer denseModel true) 10 rfl rfl).1
      (by norm_num [baseTrainer]),
    (clip_gradients_finite (fun _ => .finite 5) (baseTrainer denseModel true) 5 rfl rfl).2
      (by norm_num [baseTrainer])⟩

/-- C5. With clipping disabled the call returns 1 for every model state and
every gradient norm, NaN and infinite included; it does not abort and the
trainer, `clips` included, is left as it was. -/
theorem clip_gradients_disabled (l2 : Model R → FloatVal R) (tr : Trainer R)
    (hdis : tr.clipping_enabled = false) : tr.clip_gradients l2 = .ok (1, tr) := by
  simp [Trainer.clip_gradients, hdis]

theorem clip_gradients_disabled_witness :
    (baseTrainer denseModel false).clip_gradients (fun _ => .nan) =
      .ok (1, baseTrainer denseModel false) :=
  clip_gradients_disabled (fun _ => .nan) (baseTrainer denseModel false) rfl

/-- C6. The call aborts exactly when clipping is enabled and the gradient norm
is NaN or infinite; in every other case it returns a scale. -/
theorem clip_gradients_abort_iff (l2 : Model R → FloatVal R) (tr : Trainer R) :
    ((∃ e, tr.clip_gradients l2 = .error e) ↔
      (tr.clipping_enabled = true ∧
        ((l2 tr.model).isnan = true ∨ (l2 tr.model).isinf = true))) ∧
    (¬ (tr.clipping_enabled = true ∧
        ((l2 tr.model).isnan = true ∨ (l2 tr.model).isinf = true)) →
      ∃ gscale b, tr.clip_gradients l2 = .ok (gscale, b)) := by
  unfold Trainer.clip_gradients
  by_cases hen : tr.clipping_enabled = true
  · by_cases hbad : ((l2 tr.model).isnan || (l2 tr.model).isinf) = true
    · have hbad2 := hbad
      rw [Bool.or_eq_true] at hbad2
      simp [hen, hbad, hbad2]
    · have hbad2 := hbad
      rw [Bool.or_eq_true] at hbad2
      dsimp only
      rw [if_pos hen, if_neg hbad]
      split_ifs <;> simp [hbad2]
  · simp [hen]

end Clip

/-! ## `Trainer::rescale_and_reset_weight_decay` -/

/-- C4. At scale one half, on a model with one dense and one lookup parameter,
the call halves the dense value and resets the scale to 1, but every lookup row
keeps its stored value, so the rows are not their old value times the old
scale. -/
theorem rescale_and_reset_leaves_lookup_rows :
    ((halfDecayTrainer mixedModel).rescale_and_reset_weight_decay).model =
      { parameters_list := [{ values := [1 / 2], g := [2] }]
        lookup_parameters_list :=
          [{ values := [[1], [3]], grads := [[2], [0]], non_zero_grads := [0] }] } ∧
    ((halfDecayTrainer mixedModel).rescale_and_reset_weight_decay).global_weight_decay.CurrentWeightDecay
      = 1 ∧
    (halfDecayTrainer mixedModel).global_weight_decay.CurrentWeightDecay = 1 / 2 ∧
    ([[1], [3]] : List (Tensor ℚ)) ≠ [[1 * (1 / 2)], [3 * (1 / 2)]] := by
  refine ⟨?_, rfl, rfl, by norm_num⟩
  simp [Trainer.rescale_and_reset_weight_decay, halfDecayTrainer, baseTrainer, mixedModel,
    denseModel, lookupModel, ParameterStorage.scale_parameters, L2WeightDecay.CurrentWeightDecay]

/-! ## `SimpleSGDTrainer` -/

section SimpleSGD

variable [LinearOrderedField R]

/-- C1. When `clip_gradients` returns `gscale` and the weight-decay scale `c` is
not zero, `update_params` returns, and afterwards every dense parameter with
value `x` and gradient `g`, and every row in `non_zero_grads` with value `x` and
gradient `g`, holds `x - (eta * scale * gscale / c) * g` coefficient by
coefficient. -/
theorem update_params_value (l2 : Model R → FloatVal R) (tr : SimpleSGDTrainer R)
    (lookup_params : List (LookupParameterStorage R)) (params : List (ParameterStorage R))
    (scale gscale : R) (b : Trainer R)
    (hclip : tr.toTrainer.clip_gradients l2 = .ok (gscale, b))
    (hc : tr.global_weight_decay.CurrentWeightDecay ≠ 0) :
    ∃ tr1 ls ps, tr.update_params l2 lookup_params params scale = .ok (tr1, ls, ps) ∧
      (∀ (j : Nat) (p : ParameterStorage R), params[j]? = some p →
        ∃ p1 : ParameterStorage R, ps[j]? = some p1 ∧ p1.values = List.zipWith
          (fun x g => x - (tr.eta * scale * gscale / tr.global_weight_decay.CurrentWeightDecay) * g)
          p.values p.g) ∧
      (∀ (k : Nat) (p : LookupParameterStorage R), lookup_params[k]? = some p →
        p.non_zero_grads.Nodup →
        ∀ (i : Nat) (x g : Tensor R), i ∈ p.non_zero_grads → p.values[i]? = some x →
          p.grads[i]? = some g →
          ∃ p1 : LookupParameterStorage R, ls[k]? = some p1 ∧
            p1.values[i]? = some (List.zipWith
              (fun x g =>
                x - (tr.eta * scale * gscale / tr.global_weight_decay.CurrentWeightDecay) * g)
              x g)) := by
  have hb : b.eta = tr.eta ∧ b.global_weight_decay = tr.global_weight_decay := by
    rcases clip_gradients_ok l2 _ _ _ hclip with h | h <;> simp [h]
  have _ := hc
  simp only [SimpleSGDTrainer.update_params, hclip]
  refine ⟨_, _, _, rfl, ?_, ?_⟩
  · intro j p hp
    have h := forParams_getElem
      (SimpleSGDTrainer.dense_body b.eta scale gscale b.global_weight_decay.CurrentWeightDecay)
      (fun _ _ => ())
      (fun _ _ q => (SimpleSGDTrainer.dense_body b.eta scale gscale
        b.global_weight_decay.CurrentWeightDecay 0 () q).2)
      id (fun _ _ _ => rfl) (fun _ _ _ _ _ => rfl) params 0 () j p hp
    refine ⟨_, h, ?_⟩
    simp only [SimpleSGDTrainer.dense_body, ParameterStorage.clear, hb.1, hb.2]
    congr 1
    funext x g
    ring
  · intro k p hp hnd i x g hi hx hg
    obtain ⟨p1, e1, _, _, e4⟩ := forLookupParams_rows
      (SimpleSGDTrainer.row_body b.eta scale gscale b.global_weight_decay.CurrentWeightDecay)
      (fun _ _ _ => ())
      (fun _ _ _ y r => List.zipWith
        (fun x g => x - g * (b.eta * scale * gscale) / b.global_weight_decay.CurrentWeightDecay)
        y r)
      (fun _ _ _ _ => rfl) (fun _ _ _ _ => rfl) (fun _ _ _ _ _ _ _ => rfl)
      lookup_params 0 () k p hp
    have hlt : i < p.values.length := by
      by_contra hge
      rw [List.getElem?_eq_none (not_lt.mp hge)] at hx
      cases hx
    refine ⟨p1, e1, ?_⟩
    rw [e4 hnd i hi hlt]
    simp only [List.getD_eq_getElem?_getD, hx, hg, Option.getD_some, hb.1, hb.2]
    congr 2
    funext x g
    ring

theorem update_params_value_witness :
    (∃ tr1 ls ps,
      SimpleSGDTrainer.update_params (fun _ => FloatVal.nan)
        { toTrainer := baseTrainer denseModel false } [] denseModel.parameters_list 1 =
          .ok (tr1, ls, ps) ∧
      ∃ p1 : ParameterStorage ℚ, ps[0]? = some p1 ∧ p1.values = [4 / 5]) ∧
    SimpleSGDTrainer.update_params (fun _ => FloatVal.nan)
        { toTrainer := baseTrainer denseModel false } [] denseModel.parameters_list 1 =
      .ok ({ toTrainer := { baseTrainer denseModel false with updates := 1 } }, [],
        [{ values := [4 / 5], g := [0] }]) := by
  constructor
  · obtain ⟨tr1, ls, ps, h, hd, _⟩ := update_params_value (fun _ => FloatVal.nan)
      { toTrainer := baseTrainer denseModel false } [] denseModel.parameters_list 1 1
      (baseTrainer denseModel false) rfl
      (by norm_num [baseTrainer, L2WeightDecay.CurrentWeightDecay])
    obtain ⟨p1, h1, h2⟩ := hd 0 { values := [1], g := [2] } rfl
    refine ⟨tr1, ls, ps, h, p1, h1, ?_⟩
    rw [h2]
    norm_num [baseTrainer, L2WeightDecay.CurrentWeightDecay]
  · norm_num [SimpleSGDTrainer.update_params, Trainer.clip_gradients, baseTrainer, denseModel,
      forParams, forLookupParams, SimpleSGDTrainer.dense_body, ParameterStorage.clear,
      Tensor.Zero, L2WeightDecay.CurrentWeightDecay]

end SimpleSGD

/-! ## The overrides of `update_impl`, unfolded -/

section Unfolded

variable [LinearOrderedField R]

theorem clip_gradients_ok_fields (l2 : Model R → FloatVal R) (tr b : Trainer R) (gscale : R)
    (h : tr.clip_gradients l2 = .ok (gscale, b)) :
    b.eta = tr.eta ∧ b.model = tr.model ∧ b.global_weight_decay = tr.global_weight_decay ∧
      b.updates = tr.updates := by
  rcases clip_gradients_ok l2 _ _ _ h with h | h <;> simp [h]

theorem SimpleSGDTrainer.sgd_update_impl_error (l2 : Model R → FloatVal R)
    (tr0 e : SimpleSGDTrainer R) (scale : R) (h : tr0.update_impl l2 scale = .error e) :
    e = tr0 := by
  unfold SimpleSGDTrainer.update_impl SimpleSGDTrainer.update_params at h
  rcases hc : tr0.toTrainer.clip_gradients l2 with b | ⟨gscale, b⟩
  · rw [hc] at h
    cases h
    rw [clip_gradients_error l2 _ _ hc]
  · rw [hc] at h
    cases h

theorem SimpleSGDTrainer.sgd_update_impl_ok (l2 : Model R → FloatVal R)
    (tr0 tr1 : SimpleSGDTrainer R) (scale : R) (h : tr0.update_impl l2 scale = .ok tr1) :
    ∃ gscale b, tr0.toTrainer.clip_gradients l2 = .ok (gscale, b) ∧
      tr1.model.parameters_list = (forParams
        (SimpleSGDTrainer.dense_body tr0.eta scale gscale
          tr0.global_weight_decay.CurrentWeightDecay)
        0 () tr0.model.parameters_list).2 ∧
      tr1.model.lookup_parameters_list = (forLookupParams
        (SimpleSGDTrainer.row_body tr0.eta scale gscale
          tr0.global_weight_decay.CurrentWeightDecay)
        0 () tr0.model.lookup_parameters_list).2 := by
  unfold SimpleSGDTrainer.update_impl SimpleSGDTrainer.update_params at h
  rcases hc : tr0.toTrainer.clip_gradients l2 with b | ⟨gscale, b⟩
  · rw [hc] at h
    cases h
  · rw [hc] at h
    cases h
    obtain ⟨h1, h2, h3, _⟩ := clip_gradients_ok_fields l2 _ _ _ hc
    exact ⟨gscale, b, rfl, by simp only [h1, h2, h3], by simp only [h1, h2, h3]⟩

theorem MomentumSGDTrainer.momentum_allocate_toTrainer (tr : MomentumSGDTrainer R) :
    tr.allocate.toTrainer = tr.toTrainer ∧ tr.allocate.momentum = tr.momentum := by
  unfold MomentumSGDTrainer.allocate
  split_ifs <;> exact ⟨rfl, rfl⟩

theorem MomentumSGDTrainer.momentum_allocate_of_allocated (tr : MomentumSGDTrainer R)
    (h : tr.velocity_allocated = true) : tr.allocate = tr := by
  simp [MomentumSGDTrainer.allocate, h]

theorem MomentumSGDTrainer.momentum_update_impl_error (l2 : Model R → FloatVal R)
    (tr0 e : MomentumSGDTrainer R) (scale : R) (h : tr0.update_impl l2 scale = .error e) :
    e = tr0.allocate := by
  unfold MomentumSGDTrainer.update_impl at h
  dsimp only at h
  rcases hc : tr0.allocate.toTrainer.clip_gradients l2 with b | ⟨gscale, b⟩
  · rw [hc] at h
    cases h
    rw [clip_gradients_error l2 _ _ hc]
  · rw [hc] at h
    cases h

theorem MomentumSGDTrainer.momentum_update_impl_ok (l2 : Model R → FloatVal R)
    (tr0 tr1 : MomentumSGDTrainer R) (scale : R) (h : tr0.update_impl l2 scale = .ok tr1) :
    ∃ gscale b, tr0.toTrainer.clip_gradients l2 = .ok (gscale, b) ∧
      tr1.model.parameters_list = (forParams
        (MomentumSGDTrainer.dense_body tr0.eta tr0.momentum scale gscale
          tr0.global_weight_decay.CurrentWeightDecay)
        0 tr0.allocate.vp tr0.model.parameters_list).2 ∧
      tr1.model.lookup_parameters_list = (forLookupParams
        (MomentumSGDTrainer.row_body tr0.eta tr0.momentum scale gscale
          tr0.global_weight_decay.CurrentWeightDecay)
        0 tr0.allocate.vlp tr0.model.lookup_parameters_list).2 ∧
      tr1.vlp = (forLookupParams
        (MomentumSGDTrainer.row_body tr0.eta tr0.momentum scale gscale
          tr0.global_weight_decay.CurrentWeightDecay)
        0 tr0.allocate.vlp tr0.model.lookup_parameters_list).1 := by
  unfold MomentumSGDTrainer.update_impl at h
  dsimp only at h
  rcases hc : tr0.allocate.toTrainer.clip_gradients l2 with b | ⟨gscale, b⟩
  · rw [hc] at h
    cases h
  · rw [hc] at h
    cases h
    obtain ⟨ha, hm0⟩ := tr0.momentum_allocate_toTrainer
    rw [ha] at hc
    obtain ⟨h1, h2, h3, _⟩ := clip_gradients_ok_fields l2 _ _ _ hc
    exact ⟨gscale, b, hc, by simp only [h1, h2, h3, hm0], by simp only [h1, h2, h3, hm0], by simp only [h1, h2, h3, hm0]⟩

theorem AdagradTrainer.adagrad_allocate_toTrainer (tr : AdagradTrainer R) :
    tr.allocate.toTrainer = tr.toTrainer ∧ tr.allocate.epsilon = tr.epsilon := by
  unfold AdagradTrainer.allocate
  split_ifs <;> exact ⟨rfl, rfl⟩

theorem AdagradTrainer.adagrad_allocate_of_allocated (tr : AdagradTrainer R)
    (h : tr.shadow_params_allocated = true) : tr.allocate = tr := by
  simp [AdagradTrainer.allocate, h]

theorem AdagradTrainer.adagrad_update_impl_error (sqrt : R → R) (l2 : Model R → FloatVal R)
    (tr0 e : AdagradTrainer R) (scale : R) (h : tr0.update_impl sqrt l2 scale = .error e) :
    e = tr0.allocate := by
  unfold AdagradTrainer.update_impl at h
  dsimp only at h
  rcases hc : tr0.allocate.toTrainer.clip_gradients l2 with b | ⟨gscale, b⟩
  · rw [hc] at h
    cases h
    rw [clip_gradients_error l2 _ _ hc]
  · rw [hc] at h
    cases h

theorem AdagradTrainer.adagrad_update_impl_ok (sqrt : R → R) (l2 : Model R → FloatVal R)
    (tr0 tr1 : AdagradTrainer R) (scale : R) (h : tr0.update_impl sqrt l2 scale = .ok tr1) :
    ∃ gscale b, tr0.toTrainer.clip_gradients l2 = .ok (gscale, b) ∧
      tr1.model.parameters_list = (forParams
        (AdagradTrainer.dense_body sqrt tr0.eta tr0.epsilon scale gscale
          tr0.global_weight_decay.CurrentWeightDecay)
        0 tr0.allocate.vp tr0.model.parameters_list).2 ∧
      tr1.model.lookup_parameters_list = (forLookupParams
        (AdagradTrainer.row_body sqrt tr0.eta tr0.epsilon scale gscale
          tr0.global_weight_decay.CurrentWeightDecay)
        0 tr0.allocate.vlp tr0.model.lookup_parameters_list).2 ∧
      tr1.vlp = (forLookupParams
        (AdagradTrainer.row_body sqrt tr0.eta tr0.epsilon scale gscale
          tr0.global_weight_decay.CurrentWeightDecay)
        0 tr0.allocate.vlp tr0.model.lookup_parameters_list).1 := by
  unfold AdagradTrainer.update_impl at h
  dsimp only at h
  rcases hc : tr0.allocate.toTrainer.clip_gradients l2 with b | ⟨gscale, b⟩
  · rw [hc] at h
    cases h
  · rw [hc] at h
    cases h
    obtain ⟨ha, hm0⟩ := tr0.adagrad_allocate_toTrainer
    rw [ha] at hc
    obtain ⟨h1, h2, h3, _⟩ := clip_gradients_ok_fields l2 _ _ _ hc
    exact ⟨gscale, b, hc, by simp only [h1, h2, h3, hm0], by simp only [h1, h2, h3, hm0], by simp only [h1, h2, h3, hm0]⟩

theorem AdadeltaTrainer.adadelta_allocate_toTrainer (tr : AdadeltaTrainer R) :
    tr.allocate.toTrainer = tr.toTrainer ∧ tr.allocate.rho = tr.rho ∧ tr.allocate.epsilon = tr.epsilon := by
  unfold AdadeltaTrainer.allocate
  split_ifs <;> exact ⟨rfl, rfl, rfl⟩

theorem AdadeltaTrainer.adadelta_allocate_of_allocated (tr : AdadeltaTrainer R)
    (h : tr.shadow_params_allocated = true) : tr.allocate = tr := by
  simp [AdadeltaTrainer.allocate, h]

theorem AdadeltaTrainer.adadelta_update_impl_error (sqrt : R → R) (l2 : Model R → FloatVal R)
    (tr0 e : AdadeltaTrainer R) (scale : R) (h : tr0.update_impl sqrt l2 scale = .error e) :
    e = tr0.allocate := by
  unfold AdadeltaTrainer.update_impl at h
  dsimp only at h
  rcases hc : tr0.allocate.toTrainer.clip_gradients l2 with b | ⟨gscale, b⟩
  · rw [hc] at h
    cases h
    rw [clip_gradients_error l2 _ _ hc]
  · rw [hc] at h
    cases h

theorem AdadeltaTrainer.adadelta_update_impl_ok (sqrt : R → R) (l2 : Model R → FloatVal R)
    (tr0 tr1 : AdadeltaTrainer R) (scale : R) (h : tr0.update_impl sqrt l2 scale = .ok tr1) :
    ∃ gscale b, tr0.toTrainer.clip_gradients l2 = .ok (gscale, b) ∧
      tr1.model.parameters_list = (forParams
        (AdadeltaTrainer.dense_body sqrt tr0.rho tr0.epsilon scale gscale
          tr0.global_weight_decay.CurrentWeightDecay)
        0 (tr0.allocate.hg, tr0.allocate.hd) tr0.model.parameters_list).2 ∧
      tr1.model.lookup_parameters_list = (forLookupParams
        (AdadeltaTrainer.row_body sqrt tr0.rho tr0.epsilon scale gscale
          tr0.global_weight_decay.CurrentWeightDecay)
        0 (tr0.allocate.hlg, tr0.allocate.hld) tr0.model.lookup_parameters_list).2 ∧
      tr1.hlg = (forLookupParams
        (AdadeltaTrainer.row_body sqrt tr0.rho tr0.epsilon scale gscale
          tr0.global_weight_decay.CurrentWeightDecay)
        0 (tr0.allocate.hlg, tr0.allocate.hld) tr0.model.lookup_parameters_list).1.1 ∧
      tr1.hld = (forLookupParams
        (AdadeltaTrainer.row_body sqrt tr0.rho tr0.epsilon scale gscale
          tr0.global_weight_decay.CurrentWeightDecay)
        0 (tr0.allocate.hlg, tr0.allocate.hld) tr0.model.lookup_parameters_list).1.2 := by
  unfold AdadeltaTrainer.update_impl at h
  dsimp only at h
  rcases hc : tr0.allocate.toTrainer.clip_gradients l2 with b | ⟨gscale, b⟩
  · rw [hc] at h
    cases h
  · rw [hc] at h
    cases h
    obtain ⟨ha, hm0, hm1⟩ := tr0.adadelta_allocate_toTrainer
    rw [ha] at hc
    obtain ⟨h1, h2, h3, _⟩ := clip_gradients_ok_fields l2 _ _ _ hc
    exact ⟨gscale, b, hc, by simp only [h1, h2, h3, hm0, hm1], by simp only [h1, h2, h3, hm0, hm1], by simp only [h1, h2, h3, hm0, hm1], by simp only [h1, h2, h3, hm0, hm1]⟩

theorem RmsPropTrainer.rmsprop_allocate_toTrainer (tr : RmsPropTrainer R) :
    tr.allocate.toTrainer = tr.toTrainer ∧ tr.allocate.rho = tr.rho ∧ tr.allocate.epsilon = tr.epsilon := by
  unfold RmsPropTrainer.allocate
  split_ifs <;> exact ⟨rfl, rfl, rfl⟩

theorem RmsPropTrainer.rmsprop_allocate_of_allocated (tr : RmsPropTrainer R)
    (h : tr.shadow_params_allocated = true) : tr.allocate = tr := by
  simp [RmsPropTrainer.allocate, h]

theorem RmsPropTrainer.rmsprop_update_impl_error (sqrt : R → R) (l2 : Model R → FloatVal R)
    (tr0 e : RmsPropTrainer R) (scale : R) (h : tr0.update_impl sqrt l2 scale = .error e) :
    e = tr0.allocate := by
  unfold RmsPropTrainer.update_impl at h
  dsimp only at h
  rcases hc : tr0.allocate.toTrainer.clip_gradients l2 with b | ⟨gscale, b⟩
  · rw [hc] at h
    cases h
    rw [clip_gradients_error l2 _ _ hc]
  · rw [hc] at h
    cases h

theorem RmsPropTrainer.rmsprop_update_impl_ok (sqrt : R → R) (l2 : Model R → FloatVal R)
    (tr0 tr1 : RmsPropTrainer R) (scale : R) (h : tr0.update_impl sqrt l2 scale = .ok tr1) :
    ∃ gscale b, tr0.toTrainer.clip_gradients l2 = .ok (gscale, b) ∧
      tr1.model.parameters_list = (forParams
        (RmsPropTrainer.dense_body sqrt tr0.eta tr0.rho tr0.epsilon scale gscale
          tr0.global_weight_decay.CurrentWeightDecay)
        0 tr0.allocate.hg tr0.model.parameters_list).2 ∧
      tr1.model.lookup_parameters_list = (forLookupParams
        (RmsPropTrainer.row_body sqrt tr0.eta tr0.rho tr0.epsilon scale gscale
          tr0.global_weight_decay.CurrentWeightDecay)
        0 tr0.allocate.hlg tr0.model.lookup_parameters_list).2 ∧
      tr1.hlg = (forLookupParams
        (RmsPropTrainer.row_body sqrt tr0.eta tr0.rho tr0.epsilon scale gscale
          tr0.global_weight_decay.CurrentWeightDecay)
        0 tr0.allocate.hlg tr0.model.lookup_parameters_list).1 := by
  unfold RmsPropTrainer.update_impl at h
  dsimp only at h
  rcases hc : tr0.allocate.toTrainer.clip_gradients l2 with b | ⟨gscale, b⟩
  · rw [hc] at h
    cases h
  · rw [hc] at h
    cases h
    obtain ⟨ha, hm0, hm1⟩ := tr0.rmsprop_allocate_toTrainer
    rw [ha] at hc
    obtain ⟨h1, h2, h3, _⟩ := clip_gradients_ok_fields l2 _ _ _ hc
    exact ⟨gscale, b, hc, by simp only [h1, h2, h3, hm0, hm1], by simp only [h1, h2, h3, hm0, hm1], by simp only [h1, h2, h3, hm0, hm1]⟩

theorem AdamTrainer.adam_allocate_toTrainer (tr : AdamTrainer R) :
    tr.allocate.toTrainer = tr.toTrainer ∧ tr.allocate.beta_1 = tr.beta_1 ∧ tr.allocate.beta_2 = tr.beta_2 ∧ tr.allocate.eps = tr.eps := by
  unfold AdamTrainer.allocate
  split_ifs <;> exact ⟨rfl, rfl, rfl, rfl⟩

theorem AdamTrainer.adam_allocate_of_allocated (tr : AdamTrainer R)
    (h : tr.shadow_params_allocated = true) : tr.allocate = tr := by
  simp [AdamTrainer.allocate, h]

theorem AdamTrainer.adam_update_impl_error (sqrt : R → R) (l2 : Model R → FloatVal R)
    (tr0 e : AdamTrainer R) (scale : R) (h : tr0.update_impl sqrt l2 scale = .error e) :
    e = tr0.allocate := by
  unfold AdamTrainer.update_impl at h
  dsimp only at h
  rcases hc : tr0.allocate.toTrainer.clip_gradients l2 with b | ⟨gscale, b⟩
  · rw [hc] at h
    cases h
    rw [clip_gradients_error l2 _ _ hc]
  · rw [hc] at h
    cases h

theorem AdamTrainer.adam_update_impl_ok (sqrt : R → R) (l2 : Model R → FloatVal R)
    (tr0 tr1 : AdamTrainer R) (scale : R) (h : tr0.update_impl sqrt l2 scale = .ok tr1) :
    ∃ gscale b, tr0.toTrainer.clip_gradients l2 = .ok (gscale, b) ∧
      tr1.model.parameters_list = (forParams
        (AdamTrainer.dense_body sqrt tr0.eta tr0.beta_1 tr0.beta_2 tr0.eps scale gscale
          tr0.global_weight_decay.CurrentWeightDecay)
        0 (tr0.allocate.m, tr0.allocate.v, tr0.allocate.t) tr0.model.parameters_list).2 ∧
      tr1.model.lookup_parameters_list = (forLookupParams
        (AdamTrainer.row_body sqrt tr0.eta tr0.beta_1 tr0.beta_2 tr0.eps scale gscale
          tr0.global_weight_decay.CurrentWeightDecay
          (forParams
          (AdamTrainer.dense_body sqrt tr0.eta tr0.beta_1 tr0.beta_2 tr0.eps scale gscale
            tr0.global_weight_decay.CurrentWeightDecay)
          0 (tr0.allocate.m, tr0.allocate.v, tr0.allocate.t) tr0.model.parameters_list).1.2.2)
        0 (tr0.allocate.lm, tr0.allocate.lv) tr0.model.lookup_parameters_list).2 ∧
      tr1.lm = (forLookupParams
        (AdamTrainer.row_body sqrt tr0.eta tr0.beta_1 tr0.beta_2 tr0.eps scale gscale
          tr0.global_weight_decay.CurrentWeightDecay
          (forParams
          (AdamTrainer.dense_body sqrt tr0.eta tr0.beta_1 tr0.beta_2 tr0.eps scale gscale
            tr0.global_weight_decay.CurrentWeightDecay)
          0 (tr0.allocate.m, tr0.allocate.v, tr0.allocate.t) tr0.model.parameters_list).1.2.2)
        0 (tr0.allocate.lm, tr0.allocate.lv) tr0.model.lookup_parameters_list).1.1 ∧
      tr1.lv = (forLookupParams
        (AdamTrainer.row_body sqrt tr0.eta tr0.beta_1 tr0.beta_2 tr0.eps scale gscale
          tr0.global_weight_decay.CurrentWeightDecay
          (forParams
          (AdamTrainer.dense_body sqrt tr0.eta tr0.beta_1 tr0.beta_2 tr0.eps scale gscale
            tr0.global_weight_decay.CurrentWeightDecay)
          0 (tr0.allocate.m, tr0.allocate.v, tr0.allocate.t) tr0.model.parameters_list).1.2.2)
        0 (tr0.allocate.lm, tr0.allocate.lv) tr0.model.lookup_parameters_list).1.2 := by
  unfold AdamTrainer.update_impl at h
  dsimp only at h
  rcases hc : tr0.allocate.toTrainer.clip_gradients l2 with b | ⟨gscale, b⟩
  · rw [hc] at h
    cases h
  · rw [hc] at h
    cases h
    obtain ⟨ha, hm0, hm1, hm2⟩ := tr0.adam_allocate_toTrainer
    rw [ha] at hc
    obtain ⟨h1, h2, h3, _⟩ := clip_gradients_ok_fields l2 _ _ _ hc
    exact ⟨gscale, b, hc, by simp only [h1, h2, h3, hm0, hm1, hm2], by simp only [h1, h2, h3, hm0, hm1, hm2], by simp only [h1, h2, h3, hm0, hm1, hm2], by simp only [h1, h2, h3, hm0, hm1, hm2]⟩

end Unfolded

/-! ## The loops of each rule -/

section RuleLoops

variable [LinearOrderedField R]

theorem SimpleSGDTrainer.sgd_dense_value (eta scale gscale wd : R)
    (ps : List (ParameterStorage R)) (j : Nat) (p : ParameterStorage R) (hp : ps[j]? = some p) :
    (forParams (SimpleSGDTrainer.dense_body eta scale gscale wd) 0 () ps).2[j]? =
      some (({ p with values :=
        (List.zipWith (fun x g => x - (eta * scale * gscale) * g / wd) p.values p.g) }).clear) := by
  have h := forParams_getElem (SimpleSGDTrainer.dense_body eta scale gscale wd)
    (fun _ _ => ())
    (fun _ _ q => (SimpleSGDTrainer.dense_body eta scale gscale wd 0 () q).2)
    id (fun _ _ _ => rfl) (fun _ _ _ _ _ => rfl) ps 0 () j p hp
  simpa [SimpleSGDTrainer.dense_body] using h

theorem SimpleSGDTrainer.sgd_lookup_rows (eta scale gscale wd : R)
    (ps : List (LookupParameterStorage R)) (k : Nat) (p : LookupParameterStorage R)
    (hp : ps[k]? = some p) :
    ∃ p1, (forLookupParams (SimpleSGDTrainer.row_body eta scale gscale wd) 0 () ps).2[k]? =
        some p1 ∧
      p1.non_zero_grads = [] ∧
      (∀ j, j ∉ p.non_zero_grads → p1.values[j]? = p.values[j]?) ∧
      (p.non_zero_grads.Nodup → ∀ j, j ∈ p.non_zero_grads → j < p.values.length →
        p1.values[j]? = some (List.zipWith (fun x g => x - g * (eta * scale * gscale) / wd)
          (p.values.getD j []) (p.grads.getD j []))) := by
  have h := forLookupParams_rows (SimpleSGDTrainer.row_body eta scale gscale wd)
    (fun _ _ _ => ())
    (fun _ _ _ y r => List.zipWith (fun x g => x - g * (eta * scale * gscale) / wd) y r)
    (fun _ _ _ _ => rfl) (fun _ _ _ _ => rfl) (fun _ _ _ _ _ _ _ => rfl) ps 0 () k p hp
  simpa using h

theorem MomentumSGDTrainer.momentum_lookup_rows (eta momentum scale gscale wd : R)
    (s0 : List (List (Tensor R))) (ps : List (LookupParameterStorage R)) (k : Nat)
    (p : LookupParameterStorage R) (hp : ps[k]? = some p) :
    ∃ p1, (forLookupParams (MomentumSGDTrainer.row_body eta momentum scale gscale wd) 0 s0 ps).2[k]? = some p1 ∧
      p1.non_zero_grads = [] ∧
      (∀ j, j ∉ p.non_zero_grads → p1.values[j]? = p.values[j]?) ∧
      (p.non_zero_grads.Nodup → ∀ j, j ∈ p.non_zero_grads → j < p.values.length →
        p1.values[j]? = some (MomentumSGDTrainer.step eta momentum scale gscale wd (rowAt s0 k j [])
          (p.grads.getD j []) (p.values.getD j [])).2) := by
  have h := forLookupParams_rows (MomentumSGDTrainer.row_body eta momentum scale gscale wd)
    (fun k j s => rowAt s k j [])
    (fun _ _ v x g => (MomentumSGDTrainer.step eta momentum scale gscale wd v g x).2)
    (fun _ _ _ _ => rfl) (fun _ _ _ _ => rfl)
    (fun pi i k j s p hne => rowAt_setRowAt_ne _ _ _ _ _ _ _ hne) ps 0 s0 k p hp
  simpa using h

theorem MomentumSGDTrainer.momentum_lookup_frame (eta momentum scale gscale wd : R)
    (s0 : List (List (Tensor R))) (ps : List (LookupParameterStorage R)) (k j : Nat)
    (hj : ∀ p, ps[k]? = some p → j ∉ p.non_zero_grads) :
    entry (forLookupParams (MomentumSGDTrainer.row_body eta momentum scale gscale wd) 0 s0 ps).1 k j = entry s0 k j := by
  have h := forLookupParams_frame (MomentumSGDTrainer.row_body eta momentum scale gscale wd)
    (fun k j s => entry s k j)
    (fun pi i k j s p hne => entry_setRowAt_ne _ _ _ _ _ _ hne) k j ps 0 s0 (fun p _ hp => hj p (by simpa using hp))
  exact h

theorem MomentumSGDTrainer.momentum_dense_value (eta momentum scale gscale wd : R)
    (s0 : List (Tensor R)) (ps : List (ParameterStorage R)) (j : Nat) (p : ParameterStorage R)
    (hp : ps[j]? = some p) :
    (forParams (MomentumSGDTrainer.dense_body eta momentum scale gscale wd) 0 s0 ps).2[j]? =
      some (({ p with values :=
        (MomentumSGDTrainer.step eta momentum scale gscale wd (s0.getD j []) p.g p.values).2 }).clear) := by
  have h := forParams_getElem (MomentumSGDTrainer.dense_body eta momentum scale gscale wd)
    (fun pi s => s.getD pi [])
    (fun _ v q => ({ q with values := (MomentumSGDTrainer.step eta momentum scale gscale wd v q.g q.values).2 }).clear)
    id (fun _ _ _ => rfl)
    (fun pi pj s q hne => getD_set_ne _ _ _ _ _ hne) ps 0 s0 j p hp
  simpa using h

theorem AdagradTrainer.adagrad_lookup_rows (sqrt : R → R) (eta epsilon scale gscale wd : R)
    (s0 : List (List (Tensor R))) (ps : List (LookupParameterStorage R)) (k : Nat)
    (p : LookupParameterStorage R) (hp : ps[k]? = some p) :
    ∃ p1, (forLookupParams (AdagradTrainer.row_body sqrt eta epsilon scale gscale wd) 0 s0 ps).2[k]? = some p1 ∧
      p1.non_zero_grads = [] ∧
      (∀ j, j ∉ p.non_zero_grads → p1.values[j]? = p.values[j]?) ∧
      (p.non_zero_grads.Nodup → ∀ j, j ∈ p.non_zero_grads → j < p.values.length →
        p1.values[j]? = some (AdagradTrainer.step sqrt eta epsilon scale gscale wd (rowAt s0 k j [])
          (p.grads.getD j []) (p.values.getD j [])).2) := by
  have h := forLookupParams_rows (AdagradTrainer.row_body sqrt eta epsilon scale gscale wd)
    (fun k j s => rowAt s k j [])
    (fun _ _ v x g => (AdagradTrainer.step sqrt eta epsilon scale gscale wd v g x).2)
    (fun _ _ _ _ => rfl) (fun _ _ _ _ => rfl)
    (fun pi i k j s p hne => rowAt_setRowAt_ne _ _ _ _ _ _ _ hne) ps 0 s0 k p hp
  simpa using h

theorem AdagradTrainer.adagrad_lookup_frame (sqrt : R → R) (eta epsilon scale gscale wd : R)
    (s0 : List (List (Tensor R))) (ps : List (LookupParameterStorage R)) (k j : Nat)
    (hj : ∀ p, ps[k]? = some p → j ∉ p.non_zero_grads) :
    entry (forLookupParams (AdagradTrainer.row_body sqrt eta epsilon scale gscale wd) 0 s0 ps).1 k j = entry s0 k j := by
  have h := forLookupParams_frame (AdagradTrainer.row_body sqrt eta epsilon scale gscale wd)
    (fun k j s => entry s k j)
    (fun pi i k j s p hne => entry_setRowAt_ne _ _ _ _ _ _ hne) k j ps 0 s0 (fun p _ hp => hj p (by simpa using hp))
  exact h

theorem AdagradTrainer.adagrad_dense_value (sqrt : R → R) (eta epsilon scale gscale wd : R)
    (s0 : List (Tensor R)) (ps : List (ParameterStorage R)) (j : Nat) (p : ParameterStorage R)
    (hp : ps[j]? = some p) :
    (forParams (AdagradTrainer.dense_body sqrt eta epsilon scale gscale wd) 0 s0 ps).2[j]? =
      some (({ p with values :=
        (AdagradTrainer.step sqrt eta epsilon scale gscale wd (s0.getD j []) p.g p.values).2 }).clear) := by
  have h := forParams_getElem (AdagradTrainer.dense_body sqrt eta epsilon scale gscale wd)
    (fun pi s => s.getD pi [])
    (fun _ v q => ({ q with values := (AdagradTrainer.step sqrt eta epsilon scale gscale wd v q.g q.values).2 }).clear)
    id (fun _ _ _ => rfl)
    (fun pi pj s q hne => getD_set_ne _ _ _ _ _ hne) ps 0 s0 j p hp
  simpa using h

theorem AdadeltaTrainer.adadelta_lookup_rows (sqrt : R → R) (rho epsilon scale gscale wd : R)
    (s0 : List (List (Tensor R)) × List (List (Tensor R))) (ps : List (LookupParameterStorage R)) (k : Nat)
    (p : LookupParameterStorage R) (hp : ps[k]? = some p) :
    ∃ p1, (forLookupParams (AdadeltaTrainer.row_body sqrt rho epsilon scale gscale wd) 0 s0 ps).2[k]? = some p1 ∧
      p1.non_zero_grads = [] ∧
      (∀ j, j ∉ p.non_zero_grads → p1.values[j]? = p.values[j]?) ∧
      (p.non_zero_grads.Nodup → ∀ j, j ∈ p.non_zero_grads → j < p.values.length →
        p1.values[j]? = some (AdadeltaTrainer.step sqrt rho epsilon scale gscale wd (rowAt s0.1 k j []) (rowAt s0.2 k j [])
          (p.grads.getD j []) (p.values.getD j [])).2.2) := by
  have h := forLookupParams_rows (AdadeltaTrainer.row_body sqrt rho epsilon scale gscale wd)
    (fun k j s => (rowAt s.1 k j [], rowAt s.2 k j []))
    (fun _ _ v x g => (AdadeltaTrainer.step sqrt rho epsilon scale gscale wd v.1 v.2 g x).2.2)
    (fun _ _ _ _ => rfl) (fun _ _ _ _ => rfl)
    (fun pi i k j s p hne => by
      simp only [AdadeltaTrainer.row_body]
      rw [rowAt_setRowAt_ne _ _ _ _ _ _ _ hne, rowAt_setRowAt_ne _ _ _ _ _ _ _ hne]) ps 0 s0 k p hp
  simpa using h

theorem AdadeltaTrainer.adadelta_lookup_frame (sqrt : R → R) (rho epsilon scale gscale wd : R)
    (s0 : List (List (Tensor R)) × List (List (Tensor R))) (ps : List (LookupParameterStorage R)) (k j : Nat)
    (hj : ∀ p, ps[k]? = some p → j ∉ p.non_zero_grads) :
    entry (forLookupParams (AdadeltaTrainer.row_body sqrt rho epsilon scale gscale wd) 0 s0 ps).1.1 k j = entry s0.1 k j ∧
      entry (forLookupParams (AdadeltaTrainer.row_body sqrt rho epsilon scale gscale wd) 0 s0 ps).1.2 k j = entry s0.2 k j := by
  have h := forLookupParams_frame (AdadeltaTrainer.row_body sqrt rho epsilon scale gscale wd)
    (fun k j s => (entry s.1 k j, entry s.2 k j))
    (fun pi i k j s p hne => by
      simp only [AdadeltaTrainer.row_body]
      rw [entry_setRowAt_ne _ _ _ _ _ _ hne, entry_setRowAt_ne _ _ _ _ _ _ hne]) k j ps 0 s0 (fun p _ hp => hj p (by simpa using hp))
  exact ⟨congrArg Prod.fst h, congrArg Prod.snd h⟩

theorem AdadeltaTrainer.adadelta_dense_value (sqrt : R → R) (rho epsilon scale gscale wd : R)
    (s0 : List (Tensor R) × List (Tensor R)) (ps : List (ParameterStorage R)) (j : Nat) (p : ParameterStorage R)
    (hp : ps[j]? = some p) :
    (forParams (AdadeltaTrainer.dense_body sqrt rho epsilon scale gscale wd) 0 s0 ps).2[j]? =
      some (({ p with values :=
        (AdadeltaTrainer.step sqrt rho epsilon scale gscale wd (s0.1.getD j []) (s0.2.getD j []) p.g p.values).2.2 }).clear) := by
  have h := forParams_getElem (AdadeltaTrainer.dense_body sqrt rho epsilon scale gscale wd)
    (fun pi s => (s.1.getD pi [], s.2.getD pi []))
    (fun _ v q => ({ q with values := (AdadeltaTrainer.step sqrt rho epsilon scale gscale wd v.1 v.2 q.g q.values).2.2 }).clear)
    id (fun _ _ _ => rfl)
    (fun pi pj s q hne => by
      simp only [AdadeltaTrainer.dense_body]
      rw [getD_set_ne _ _ _ _ _ hne, getD_set_ne _ _ _ _ _ hne]
      rfl) ps 0 s0 j p hp
  simpa using h

theorem RmsPropTrainer.rmsprop_lookup_rows (sqrt : R → R) (eta rho epsilon scale gscale wd : R)
    (s0 : List (List (R))) (ps : List (LookupParameterStorage R)) (k : Nat)
    (p : LookupParameterStorage R) (hp : ps[k]? = some p) :
    ∃ p1, (forLookupParams (RmsPropTrainer.row_body sqrt eta rho epsilon scale gscale wd) 0 s0 ps).2[k]? = some p1 ∧
      p1.non_zero_grads = [] ∧
      (∀ j, j ∉ p.non_zero_grads → p1.values[j]? = p.values[j]?) ∧
      (p.non_zero_grads.Nodup → ∀ j, j ∈ p.non_zero_grads → j < p.values.length →
        p1.values[j]? = some (RmsPropTrainer.step sqrt eta rho epsilon scale gscale wd (rowAt s0 k j 0)
          (p.grads.getD j []) (p.values.getD j [])).2) := by
  have h := forLookupParams_rows (RmsPropTrainer.row_body sqrt eta rho epsilon scale gscale wd)
    (fun k j s => rowAt s k j 0)
    (fun _ _ v x g => (RmsPropTrainer.step sqrt eta rho epsilon scale gscale wd v g x).2)
    (fun _ _ _ _ => rfl) (fun _ _ _ _ => rfl)
    (fun pi i k j s p hne => rowAt_setRowAt_ne _ _ _ _ _ _ _ hne) ps 0 s0 k p hp
  simpa using h

theorem RmsPropTrainer.rmsprop_lookup_frame (sqrt : R → R) (eta rho epsilon scale gscale wd : R)
    (s0 : List (List (R))) (ps : List (LookupParameterStorage R)) (k j : Nat)
    (hj : ∀ p, ps[k]? = some p → j ∉ p.non_zero_grads) :
    entry (forLookupParams (RmsPropTrainer.row_body sqrt eta rho epsilon scale gscale wd) 0 s0 ps).1 k j = entry s0 k j := by
  have h := forLookupParams_frame (RmsPropTrainer.row_body sqrt eta rho epsilon scale gscale wd)
    (fun k j s => entry s k j)
    (fun pi i k j s p hne => entry_setRowAt_ne _ _ _ _ _ _ hne) k j ps 0 s0 (fun p _ hp => hj p (by simpa using hp))
  exact h

theorem RmsPropTrainer.rmsprop_dense_value (sqrt : R → R) (eta rho epsilon scale gscale wd : R)
    (s0 : List (R)) (ps : List (ParameterStorage R)) (j : Nat) (p : ParameterStorage R)
    (hp : ps[j]? = some p) :
    (forParams (RmsPropTrainer.dense_body sqrt eta rho epsilon scale gscale wd) 0 s0 ps).2[j]? =
      some (({ p with values :=
        (RmsPropTrainer.step sqrt eta rho epsilon scale gscale wd (s0.getD j 0) p.g p.values).2 }).clear) := by
  have h := forParams_getElem (RmsPropTrainer.dense_body sqrt eta rho epsilon scale gscale wd)
    (fun pi s => s.getD pi 0)
    (fun _ v q => ({ q with values := (RmsPropTrainer.step sqrt eta rho epsilon scale gscale wd v q.g q.values).2 }).clear)
    id (fun _ _ _ => rfl)
    (fun pi pj s q hne => getD_set_ne _ _ _ _ _ hne) ps 0 s0 j p hp
  simpa using h

theorem AdamTrainer.adam_lookup_rows (sqrt : R → R) (eta beta_1 beta_2 eps scale gscale wd : R) (t : Nat)
    (s0 : List (List (Tensor R)) × List (List (Tensor R))) (ps : List (LookupParameterStorage R)) (k : Nat)
    (p : LookupParameterStorage R) (hp : ps[k]? = some p) :
    ∃ p1, (forLookupParams (AdamTrainer.row_body sqrt eta beta_1 beta_2 eps scale gscale wd t) 0 s0 ps).2[k]? = some p1 ∧
      p1.non_zero_grads = [] ∧
      (∀ j, j ∉ p.non_zero_grads → p1.values[j]? = p.values[j]?) ∧
      (p.non_zero_grads.Nodup → ∀ j, j ∈ p.non_zero_grads → j < p.values.length →
        p1.values[j]? = some (AdamTrainer.step sqrt eta beta_1 beta_2 eps scale gscale wd t (rowAt s0.1 k j []) (rowAt s0.2 k j [])
          (p.grads.getD j []) (p.values.getD j [])).2.2) := by
  have h := forLookupParams_rows (AdamTrainer.row_body sqrt eta beta_1 beta_2 eps scale gscale wd t)
    (fun k j s => (rowAt s.1 k j [], rowAt s.2 k j []))
    (fun _ _ v x g => (AdamTrainer.step sqrt eta beta_1 beta_2 eps scale gscale wd t v.1 v.2 g x).2.2)
    (fun _ _ _ _ => rfl) (fun _ _ _ _ => rfl)
    (fun pi i k j s p hne => by
      simp only [AdamTrainer.row_body]
      rw [rowAt_setRowAt_ne _ _ _ _ _ _ _ hne, rowAt_setRowAt_ne _ _ _ _ _ _ _ hne]) ps 0 s0 k p hp
  simpa using h

theorem AdamTrainer.adam_lookup_frame (sqrt : R → R) (eta beta_1 beta_2 eps scale gscale wd : R) (t : Nat)
    (s0 : List (List (Tensor R)) × List (List (Tensor R))) (ps : List (LookupParameterStorage R)) (k j : Nat)
    (hj : ∀ p, ps[k]? = some p → j ∉ p.non_zero_grads) :
    entry (forLookupParams (AdamTrainer.row_body sqrt eta beta_1 beta_2 eps scale gscale wd t) 0 s0 ps).1.1 k j = entry s0.1 k j ∧
      entry (forLookupParams (AdamTrainer.row_body sqrt eta beta_1 beta_2 eps scale gscale wd t) 0 s0 ps).1.2 k j = entry s0.2 k j := by
  have h := forLookupParams_frame (AdamTrainer.row_body sqrt eta beta_1 beta_2 eps scale gscale wd t)
    (fun k j s => (entry s.1 k j, entry s.2 k j))
    (fun pi i k j s p hne => by
      simp only [AdamTrainer.row_body]
      rw [entry_setRowAt_ne _ _ _ _ _ _ hne, entry_setRowAt_ne _ _ _ _ _ _ hne]) k j ps 0 s0 (fun p _ hp => hj p (by simpa using hp))
  exact ⟨congrArg Prod.fst h, congrArg Prod.snd h⟩

/-- The `j`-th dense parameter after the loop of `AdamTrainer::update_impl`: the
step count it is corrected with is the count `t` at the start of the loop after
`j + 1` increments. -/
theorem AdamTrainer.adam_dense_value (sqrt : R → R) (eta beta_1 beta_2 eps scale gscale wd : R)
    (s0 : List (Tensor R) × List (Tensor R) × Nat) (ps : List (ParameterStorage R)) (j : Nat)
    (p : ParameterStorage R) (hp : ps[j]? = some p) :
    (forParams (AdamTrainer.dense_body sqrt eta beta_1 beta_2 eps scale gscale wd) 0 s0 ps).2[j]? =
      some (({ p with values :=
        (AdamTrainer.step sqrt eta beta_1 beta_2 eps scale gscale wd
          ((fun t => (t + 1) % 4294967296)^[j + 1] s0.2.2)
          (s0.1.getD j []) (s0.2.1.getD j []) p.g p.values).2.2 }).clear) := by
  have h := forParams_getElem (AdamTrainer.dense_body sqrt eta beta_1 beta_2 eps scale gscale wd)
    (fun pi s => (s.1.getD pi [], s.2.1.getD pi [], s.2.2))
    (fun _ v q => ({ q with values :=
      (AdamTrainer.step sqrt eta beta_1 beta_2 eps scale gscale wd ((v.2.2 + 1) % 4294967296)
        v.1 v.2.1 q.g q.values).2.2 }).clear)
    (fun v => (v.1, v.2.1, (v.2.2 + 1) % 4294967296))
    (fun _ _ _ => rfl)
    (fun pi pj s q hne => by
      simp only [AdamTrainer.dense_body]
      rw [getD_set_ne _ _ _ _ _ hne, getD_set_ne _ _ _ _ _ hne]) ps 0 s0 j p hp
  have hit : ∀ (n : Nat) (a b : Tensor R) (t : Nat),
      (fun v : Tensor R × Tensor R × Nat => (v.1, v.2.1, (v.2.2 + 1) % 4294967296))^[n] (a, b, t) =
        (a, b, (fun t => (t + 1) % 4294967296)^[n] t) := by
    intro n
    induction n with
    | zero => intro a b t; rfl
    | succ n ih => intro a b t; simp only [Function.iterate_succ, Function.comp_apply, ih]
  rw [h, hit]
  simp only [Nat.zero_add, Function.iterate_succ_apply']

end RuleLoops

/-! ## One step of each rule on a zero gradient -/

section ZeroGradient

variable [LinearOrderedField R]

theorem mem_Zero (x : Tensor R) : ∀ a ∈ x.Zero, a = 0 := by
  intro a ha
  simp only [Tensor.Zero, List.mem_map] at ha
  obtain ⟨_, _, h⟩ := ha
  exact h.symm

theorem length_Zero (x : Tensor R) : x.Zero.length = x.length := by
  simp [Tensor.Zero]

theorem SimpleSGDTrainer.dense_zero (eta scale gscale : R) (x : Tensor R) :
    List.zipWith (fun x g => x - (eta * scale * gscale) * g / 1) x x.Zero = x :=
  zipWith_left_of_forall _ _ _ (by rw [length_Zero]) (fun a _ b hb => by
    rw [mem_Zero x b hb]
    simp)

theorem SimpleSGDTrainer.row_zero (eta scale gscale : R) (x : Tensor R) :
    List.zipWith (fun x g => x - g * (eta * scale * gscale) / 1) x x.Zero = x :=
  zipWith_left_of_forall _ _ _ (by rw [length_Zero]) (fun a _ b hb => by
    rw [mem_Zero x b hb]
    simp)

theorem MomentumSGDTrainer.momentum_step_zero (eta momentum scale gscale : R) (x : Tensor R) :
    (MomentumSGDTrainer.step eta momentum scale gscale 1 x.Zero x.Zero x).2 = x := by
  unfold MomentumSGDTrainer.step
  refine zipWith_left_of_forall _ _ _ (by simp [length_Zero]) (fun a _ b hb => ?_)
  have hb0 : b = 0 := forall_mem_zipWith _ (fun c => c = 0) _ _
    (fun v hv g hg => by rw [mem_Zero x v hv, mem_Zero x g hg]; simp) b hb
  rw [hb0]
  simp

theorem AdagradTrainer.adagrad_step_zero (sqrt : R → R) (eta epsilon scale gscale : R)
    (v x : Tensor R) (hv : v.length = x.length) :
    (AdagradTrainer.step sqrt eta epsilon scale gscale 1 v x.Zero x).2 = x := by
  unfold AdagradTrainer.step
  refine zipWith_left_of_forall _ _ _ (by simp [length_Zero, hv]) (fun a _ b hb => ?_)
  have hb0 : b = 0 := forall_mem_zipWith _ (fun c => c = 0) _ _
    (fun g hg w _ => by
      simp only [List.mem_map] at hg
      obtain ⟨r, hr, rfl⟩ := hg
      rw [mem_Zero x r hr]
      simp) b hb
  rw [hb0]
  simp

theorem AdadeltaTrainer.delta_zero (sqrt : R → R) (epsilon scale gscale : R)
    (hgv hdv x : Tensor R) :
    ∀ d ∈ AdadeltaTrainer.delta sqrt epsilon scale gscale hgv hdv x.Zero, d = 0 := by
  unfold AdadeltaTrainer.delta
  refine forall_mem_zipWith _ (fun c => c = 0) _ _ (fun n hn d _ => ?_)
  have hn0 : n = 0 := forall_mem_zipWith _ (fun c => c = 0) _ _
    (fun g hg w _ => by
      simp only [List.mem_map] at hg
      obtain ⟨r, hr, rfl⟩ := hg
      rw [mem_Zero x r hr]
      simp) n hn
  rw [hn0]
  simp

theorem AdadeltaTrainer.adadelta_step_zero (sqrt : R → R) (rho epsilon scale gscale : R)
    (hgv hdv x : Tensor R) (hg : hgv.length = x.length) (hd : hdv.length = x.length) :
    (AdadeltaTrainer.step sqrt rho epsilon scale gscale 1 hgv hdv x.Zero x).2.2 = x := by
  unfold AdadeltaTrainer.step
  refine zipWith_left_of_forall _ _ _ ?_ (fun a _ b hb => ?_)
  · simp [AdadeltaTrainer.delta, length_Zero, hg, hd]
  · rw [AdadeltaTrainer.delta_zero sqrt epsilon scale gscale _ _ x b hb]
    simp

theorem RmsPropTrainer.rmsprop_step_zero (sqrt : R → R) (eta rho epsilon scale gscale d2 : R)
    (x : Tensor R) :
    (RmsPropTrainer.step sqrt eta rho epsilon scale gscale 1 d2 x.Zero x).2 = x := by
  unfold RmsPropTrainer.step
  refine zipWith_left_of_forall _ _ _ (by simp [length_Zero]) (fun a _ b hb => ?_)
  rw [mem_Zero x b hb]
  simp

theorem AdamTrainer.adam_step_zero (sqrt : R → R) (eta beta_1 beta_2 eps scale gscale : R) (t : Nat)
    (v x : Tensor R) (hv : v.length = x.length) :
    (AdamTrainer.step sqrt eta beta_1 beta_2 eps scale gscale 1 t x.Zero v x.Zero x).2.2 = x := by
  unfold AdamTrainer.step
  refine zipWith_left_of_forall _ _ _ (by simp [length_Zero, hv]) (fun a _ b hb => ?_)
  have hb0 : b = 0 := forall_mem_zipWith _ (fun c => c = 0) _ _
    (fun mh hmh w _ => by
      simp only [List.mem_map] at hmh
      obtain ⟨m1, hm1, rfl⟩ := hmh
      have hm0 : m1 = 0 := forall_mem_zipWith _ (fun c => c = 0) _ _
        (fun m0 hm0 g hg => by
          simp only [List.mem_map] at hg
          obtain ⟨r, hr, rfl⟩ := hg
          rw [mem_Zero x m0 hm0, mem_Zero x r hr]
          simp) m1 hm1
      rw [hm0]
      simp) b hb
  rw [hb0]
  simp

end ZeroGradient

theorem dispatched_ok {σ : Type} (c : σ → AnyTrainer R) (r : Except σ σ) (t : AnyTrainer R)
    (h : AnyTrainer.dispatched c r = .ok t) : ∃ t1, r = .ok t1 ∧ t = c t1 := by
  cases r with
  | error e => cases h
  | ok t1 => cases h; exact ⟨t1, rfl, rfl⟩

theorem dispatched_error {σ : Type} (c : σ → AnyTrainer R) (r : Except σ σ) (t : AnyTrainer R)
    (h : AnyTrainer.dispatched c r = .error t) : ∃ t1, r = .error t1 ∧ t = c t1 := by
  cases r with
  | error e => cases h; exact ⟨e, rfl, rfl⟩
  | ok t1 => cases h

/-! ## Properties of every update rule -/

section EveryRule

variable [LinearOrderedField R]

/-- C9. After a call of `update_impl` that returns, for every rule: the
gradient of every dense parameter is the zero tensor of its shape, the lookup
parameters are as many as before and `non_zero_grads` of each is empty. -/
theorem update_impl_clears (sqrt : R → R) (l2 : Model R → FloatVal R)
    (tr tr1 : AnyTrainer R) (scale : R) (h : tr.update_impl sqrt l2 scale = .ok tr1) :
    tr1.toTrainer.model.parameters_list.map (fun p => p.g) =
        tr.toTrainer.model.parameters_list.map (fun p => p.g.Zero) ∧
      tr1.toTrainer.model.lookup_parameters_list.length =
        tr.toTrainer.model.lookup_parameters_list.length ∧
      ∀ p ∈ tr1.toTrainer.model.lookup_parameters_list, p.non_zero_grads = [] := by
  unfold AnyTrainer.update_impl at h
  cases tr with
  | SimpleSGD tr =>
    obtain ⟨t1, h1, rfl⟩ := dispatched_ok _ _ _ h
    obtain ⟨gscale, b, _, hp, hl⟩ := SimpleSGDTrainer.sgd_update_impl_ok l2 tr t1 scale h1
    simp only [AnyTrainer.toTrainer]
    rw [hp, hl]
    exact ⟨forParams_g _ (fun _ _ _ => rfl) _ _ _, forLookupParams_length _ _ _ _,
      forLookupParams_non_zero_grads _ _ _ _⟩
  | MomentumSGD tr =>
    obtain ⟨t1, h1, rfl⟩ := dispatched_ok _ _ _ h
    obtain ⟨gscale, b, _, hp, hl, _⟩ := MomentumSGDTrainer.momentum_update_impl_ok l2 tr t1 scale h1
    simp only [AnyTrainer.toTrainer]
    rw [hp, hl]
    exact ⟨forParams_g _ (fun _ _ _ => rfl) _ _ _, forLookupParams_length _ _ _ _,
      forLookupParams_non_zero_grads _ _ _ _⟩
  | Adagrad tr =>
    obtain ⟨t1, h1, rfl⟩ := dispatched_ok _ _ _ h
    obtain ⟨gscale, b, _, hp, hl, _⟩ := AdagradTrainer.adagrad_update_impl_ok sqrt l2 tr t1 scale h1
    simp only [AnyTrainer.toTrainer]
    rw [hp, hl]
    exact ⟨forParams_g _ (fun _ _ _ => rfl) _ _ _, forLookupParams_length _ _ _ _,
      forLookupParams_non_zero_grads _ _ _ _⟩
  | Adadelta tr =>
    obtain ⟨t1, h1, rfl⟩ := dispatched_ok _ _ _ h
    obtain ⟨gscale, b, _, hp, hl, _, _⟩ := AdadeltaTrainer.adadelta_update_impl_ok sqrt l2 tr t1 scale h1
    simp only [AnyTrainer.toTrainer]
    rw [hp, hl]
    exact ⟨forParams_g _ (fun _ _ _ => rfl) _ _ _, forLookupParams_length _ _ _ _,
      forLookupParams_non_zero_grads _ _ _ _⟩
  | RmsProp tr =>
    obtain ⟨t1, h1, rfl⟩ := dispatched_ok _ _ _ h
    obtain ⟨gscale, b, _, hp, hl, _⟩ := RmsPropTrainer.rmsprop_update_impl_ok sqrt l2 tr t1 scale h1
    simp only [AnyTrainer.toTrainer]
    rw [hp, hl]
    exact ⟨forParams_g _ (fun _ _ _ => rfl) _ _ _, forLookupParams_length _ _ _ _,
      forLookupParams_non_zero_grads _ _ _ _⟩
  | Adam tr =>
    obtain ⟨t1, h1, rfl⟩ := dispatched_ok _ _ _ h
    obtain ⟨gscale, b, _, hp, hl, _, _⟩ := AdamTrainer.adam_update_impl_ok sqrt l2 tr t1 scale h1
    simp only [AnyTrainer.toTrainer]
    rw [hp, hl]
    exact ⟨forParams_g _ (fun _ _ _ => rfl) _ _ _, forLookupParams_length _ _ _ _,
      forLookupParams_non_zero_grads _ _ _ _⟩

/-- C8. In one call of `update_impl`, for every rule and whether the call
returns or aborts: a row `j` of the `k`-th lookup parameter that is outside
that parameter's `non_zero_grads` keeps its value, and the shadow state of the
row is the one the call started with (the state left by the allocation block,
which is the state before the call once the allocated-flag is set). -/
theorem update_impl_untouched_rows (sqrt : R → R) (l2 : Model R → FloatVal R)
    (tr tr1 : AnyTrainer R) (scale : R) (k j : Nat) (p : LookupParameterStorage R)
    (hrun : tr.update_impl sqrt l2 scale = .ok tr1 ∨ tr.update_impl sqrt l2 scale = .error tr1)
    (hp : tr.toTrainer.model.lookup_parameters_list[k]? = some p)
    (hj : j ∉ p.non_zero_grads) :
    (∃ p1 : LookupParameterStorage R,
        tr1.toTrainer.model.lookup_parameters_list[k]? = some p1 ∧
        p1.values[j]? = p.values[j]?) ∧
      tr1.row_shadow k j = tr.allocate.row_shadow k j ∧
      (tr.allocated = true → tr1.row_shadow k j = tr.row_shadow k j) := by
  unfold AnyTrainer.update_impl at hrun
  cases tr with
  | SimpleSGD tr =>
    rcases hrun with h | h
    · obtain ⟨t1, h1, rfl⟩ := dispatched_ok _ _ _ h
      obtain ⟨gscale, b, _, _, hl⟩ := SimpleSGDTrainer.sgd_update_impl_ok l2 tr t1 scale h1
      obtain ⟨p1, e1, _, e3, _⟩ := SimpleSGDTrainer.sgd_lookup_rows tr.eta scale gscale
        tr.global_weight_decay.CurrentWeightDecay _ k p hp
      refine ⟨⟨p1, ?_, e3 j hj⟩, rfl, fun _ => rfl⟩
      simp only [AnyTrainer.toTrainer]
      rw [hl]
      exact e1
    · obtain ⟨t1, h1, rfl⟩ := dispatched_error _ _ _ h
      have he := SimpleSGDTrainer.sgd_update_impl_error l2 tr t1 scale h1
      subst he
      exact ⟨⟨p, hp, rfl⟩, rfl, fun _ => rfl⟩
  | MomentumSGD tr =>
    have hal : tr.velocity_allocated = true → tr.allocate = tr := MomentumSGDTrainer.momentum_allocate_of_allocated tr
    rcases hrun with h | h
    · obtain ⟨t1, h1, rfl⟩ := dispatched_ok _ _ _ h
      obtain ⟨gscale, b, _, _, hl, hs0⟩ := MomentumSGDTrainer.momentum_update_impl_ok l2 tr t1 scale h1
      obtain ⟨p1, e1, _, e3, _⟩ := MomentumSGDTrainer.momentum_lookup_rows tr.eta tr.momentum scale gscale
        tr.global_weight_decay.CurrentWeightDecay
        tr.allocate.vlp _ k p hp
      obtain hf := MomentumSGDTrainer.momentum_lookup_frame tr.eta tr.momentum scale gscale
        tr.global_weight_decay.CurrentWeightDecay
        tr.allocate.vlp tr.model.lookup_parameters_list k j
        (fun q hq => by
          have e : q = p := Option.some.inj (hq.symm.trans hp)
          rw [e]
          exact hj)
      refine ⟨⟨p1, ?_, e3 j hj⟩, ?_, ?_⟩
      · simp only [AnyTrainer.toTrainer]
        rw [hl]
        exact e1
      · simp only [AnyTrainer.row_shadow, AnyTrainer.allocate, hs0, hf]
      · intro ha
        simp only [AnyTrainer.allocated] at ha
        simp only [AnyTrainer.row_shadow, hs0, hf]
        rw [hal ha]
    · obtain ⟨t1, h1, rfl⟩ := dispatched_error _ _ _ h
      have he := MomentumSGDTrainer.momentum_update_impl_error l2 tr t1 scale h1
      subst he
      refine ⟨⟨p, ?_, rfl⟩, rfl, ?_⟩
      · simp only [AnyTrainer.toTrainer, (MomentumSGDTrainer.momentum_allocate_toTrainer tr).1]
        exact hp
      · intro ha
        simp only [AnyTrainer.allocated] at ha
        rw [hal ha]
  | Adagrad tr =>
    have hal : tr.shadow_params_allocated = true → tr.allocate = tr := AdagradTrainer.adagrad_allocate_of_allocated tr
    rcases hrun with h | h
    · obtain ⟨t1, h1, rfl⟩ := dispatched_ok _ _ _ h
      obtain ⟨gscale, b, _, _, hl, hs0⟩ := AdagradTrainer.adagrad_update_impl_ok sqrt l2 tr t1 scale h1
      obtain ⟨p1, e1, _, e3, _⟩ := AdagradTrainer.adagrad_lookup_rows sqrt tr.eta tr.epsilon scale gscale
        tr.global_weight_decay.CurrentWeightDecay
        tr.allocate.vlp _ k p hp
      obtain hf := AdagradTrainer.adagrad_lookup_frame sqrt tr.eta tr.epsilon scale gscale
        tr.global_weight_decay.CurrentWeightDecay
        tr.allocate.vlp tr.model.lookup_parameters_list k j
        (fun q hq => by
          have e : q = p := Option.some.inj (hq.symm.trans hp)
          rw [e]
          exact hj)
      refine ⟨⟨p1, ?_, e3 j hj⟩, ?_, ?_⟩
      · simp only [AnyTrainer.toTrainer]
        rw [hl]
        exact e1
      · simp only [AnyTrainer.row_shadow, AnyTrainer.allocate, hs0, hf]
      · intro ha
        simp only [AnyTrainer.allocated] at ha
        simp only [AnyTrainer.row_shadow, hs0, hf]
        rw [hal ha]
    · obtain ⟨t1, h1, rfl⟩ := dispatched_error _ _ _ h
      have he := AdagradTrainer.adagrad_update_impl_error sqrt l2 tr t1 scale h1
      subst he
      refine ⟨⟨p, ?_, rfl⟩, rfl, ?_⟩
      · simp only [AnyTrainer.toTrainer, (AdagradTrainer.adagrad_allocate_toTrainer tr).1]
        exact hp
      · intro ha
        simp only [AnyTrainer.allocated] at ha
        rw [hal ha]
  | Adadelta tr =>
    have hal : tr.shadow_params_allocated = true → tr.allocate = tr := AdadeltaTrainer.adadelta_allocate_of_allocated tr
    rcases hrun with h | h
    · obtain ⟨t1, h1, rfl⟩ := dispatched_ok _ _ _ h
      obtain ⟨gscale, b, _, _, hl, hs0, hs1⟩ := AdadeltaTrainer.adadelta_update_impl_ok sqrt l2 tr t1 scale h1
      obtain ⟨p1, e1, _, e3, _⟩ := AdadeltaTrainer.adadelta_lookup_rows sqrt tr.rho tr.epsilon scale gscale
        tr.global_weight_decay.CurrentWeightDecay
        (tr.allocate.hlg, tr.allocate.hld) _ k p hp
      obtain ⟨hf0, hf1⟩ := AdadeltaTrainer.adadelta_lookup_frame sqrt tr.rho tr.epsilon scale gscale
        tr.global_weight_decay.CurrentWeightDecay
        (tr.allocate.hlg, tr.allocate.hld) tr.model.lookup_parameters_list k j
        (fun q hq => by
          have e : q = p := Option.some.inj (hq.symm.trans hp)
          rw [e]
          exact hj)
      refine ⟨⟨p1, ?_, e3 j hj⟩, ?_, ?_⟩
      · simp only [AnyTrainer.toTrainer]
        rw [hl]
        exact e1
      · simp only [AnyTrainer.row_shadow, AnyTrainer.allocate, hs0, hs1, hf0, hf1]
      · intro ha
        simp only [AnyTrainer.allocated] at ha
        simp only [AnyTrainer.row_shadow, hs0, hs1, hf0, hf1]
        rw [hal ha]
    · obtain ⟨t1, h1, rfl⟩ := dispatched_error _ _ _ h
      have he := AdadeltaTrainer.adadelta_update_impl_error sqrt l2 tr t1 scale h1
      subst he
      refine ⟨⟨p, ?_, rfl⟩, rfl, ?_⟩
      · simp only [AnyTrainer.toTrainer, (AdadeltaTrainer.adadelta_allocate_toTrainer tr).1]
        exact hp
      · intro ha
        simp only [AnyTrainer.allocated] at ha
        rw [hal ha]
  | RmsProp tr =>
    have hal : tr.shadow_params_allocated = true → tr.allocate = tr := RmsPropTrainer.rmsprop_allocate_of_allocated tr
    rcases hrun with h | h
    · obtain ⟨t1, h1, rfl⟩ := dispatched_ok _ _ _ h
      obtain ⟨gscale, b, _, _, hl, hs0⟩ := RmsPropTrainer.rmsprop_update_impl_ok sqrt l2 tr t1 scale h1
      obtain ⟨p1, e1, _, e3, _⟩ := RmsPropTrainer.rmsprop_lookup_rows sqrt tr.eta tr.rho tr.epsilon scale gscale
        tr.global_weight_decay.CurrentWeightDecay
        tr.allocate.hlg _ k p hp
      obtain hf := RmsPropTrainer.rmsprop_lookup_frame sqrt tr.eta tr.rho tr.epsilon scale gscale
        tr.global_weight_decay.CurrentWeightDecay
        tr.allocate.hlg tr.model.lookup_parameters_list k j
        (fun q hq => by
          have e : q = p := Option.some.inj (hq.symm.trans hp)
          rw [e]
          exact hj)
      refine ⟨⟨p1, ?_, e3 j hj⟩, ?_, ?_⟩
      · simp only [AnyTrainer.toTrainer]
        rw [hl]
        exact e1
      · simp only [AnyTrainer.row_shadow, AnyTrainer.allocate, hs0, hf]
      · intro ha
        simp only [AnyTrainer.allocated] at ha
        simp only [AnyTrainer.row_shadow, hs0, hf]
        rw [hal ha]
    · obtain ⟨t1, h1, rfl⟩ := dispatched_error _ _ _ h
      have he := RmsPropTrainer.rmsprop_update_impl_error sqrt l2 tr t1 scale h1
      subst he
      refine ⟨⟨p, ?_, rfl⟩, rfl, ?_⟩
      · simp only [AnyTrainer.toTrainer, (RmsPropTrainer.rmsprop_allocate_toTrainer tr).1]
        exact hp
      · intro ha
        simp only [AnyTrainer.allocated] at ha
        rw [hal ha]
  | Adam tr =>
    have hal : tr.shadow_params_allocated = true → tr.allocate = tr := AdamTrainer.adam_allocate_of_allocated tr
    rcases hrun with h | h
    · obtain ⟨t1, h1, rfl⟩ := dispatched_ok _ _ _ h
      obtain ⟨gscale, b, _, _, hl, hs0, hs1⟩ := AdamTrainer.adam_update_impl_ok sqrt l2 tr t1 scale h1
      obtain ⟨p1, e1, _, e3, _⟩ := AdamTrainer.adam_lookup_rows sqrt tr.eta tr.beta_1 tr.beta_2 tr.eps scale gscale
        tr.global_weight_decay.CurrentWeightDecay
        (forParams (AdamTrainer.dense_body sqrt tr.eta tr.beta_1 tr.beta_2 tr.eps scale gscale
          tr.global_weight_decay.CurrentWeightDecay)
          0 (tr.allocate.m, tr.allocate.v, tr.allocate.t) tr.model.parameters_list).1.2.2
        (tr.allocate.lm, tr.allocate.lv) _ k p hp
      obtain ⟨hf0, hf1⟩ := AdamTrainer.adam_lookup_frame sqrt tr.eta tr.beta_1 tr.beta_2 tr.eps scale gscale
        tr.global_weight_decay.CurrentWeightDecay
        (forParams (AdamTrainer.dense_body sqrt tr.eta tr.beta_1 tr.beta_2 tr.eps scale gscale
          tr.global_weight_decay.CurrentWeightDecay)
          0 (tr.allocate.m, tr.allocate.v, tr.allocate.t) tr.model.parameters_list).1.2.2
        (tr.allocate.lm, tr.allocate.lv) tr.model.lookup_parameters_list k j
        (fun q hq => by
          have e : q = p := Option.some.inj (hq.symm.trans hp)
          rw [e]
          exact hj)
      refine ⟨⟨p1, ?_, e3 j hj⟩, ?_, ?_⟩
      · simp only [AnyTrainer.toTrainer]
        rw [hl]
        exact e1
      · simp only [AnyTrainer.row_shadow, AnyTrainer.allocate, hs0, hs1, hf0, hf1]
      · intro ha
        simp only [AnyTrainer.allocated] at ha
        simp only [AnyTrainer.row_shadow, hs0, hs1, hf0, hf1]
        rw [hal ha]
    · obtain ⟨t1, h1, rfl⟩ := dispatched_error _ _ _ h
      have he := AdamTrainer.adam_update_impl_error sqrt l2 tr t1 scale h1
      subst he
      refine ⟨⟨p, ?_, rfl⟩, rfl, ?_⟩
      · simp only [AnyTrainer.toTrainer, (AdamTrainer.adam_allocate_toTrainer tr).1]
        exact hp
      · intro ha
        simp only [AnyTrainer.allocated] at ha
        rw [hal ha]

/-- C7, amended. After a call of `update_impl` that returns, at weight-decay
scale 1: a dense parameter whose gradient is the zero tensor, and a row in
`non_zero_grads` whose gradient is the zero tensor, keep their stored value for
every rule, when the shadow tensors of the parameter have its shape and its
shadow scalars are there, the tensor through which the rule carries past
gradients into the value (the velocity of MomentumSGD, the first moment of
Adam) is zero, and the step on the parameter
divides by nothing that is zero and takes the square root of nothing that is
negative (so not Adagrad or RMSProp on a zero accumulator at `epsilon = 0`, and
not Adam at `t = 0`). Within these bounds the accumulators of Adagrad, Adadelta
and RMSProp and the second moment of Adam may hold anything. -/
theorem zero_gradient_keeps_value (sqrt : R → R) (l2 : Model R → FloatVal R)
    (tr tr1 : AnyTrainer R) (scale : R)
    (hrun : tr.update_impl sqrt l2 scale = .ok tr1)
    (hwd : tr.toTrainer.global_weight_decay.CurrentWeightDecay = 1) :
    (∀ (j : Nat) (p : ParameterStorage R),
      tr.toTrainer.model.parameters_list[j]? = some p → p.g = p.values.Zero →
      (∀ o ∈ (tr.allocate.dense_shadow j).1,
        ∃ t : Tensor R, o = some t ∧ t.length = p.values.length) →
      (∀ o ∈ (tr.allocate.dense_shadow j).2, ∃ d : R, o = some d) →
      (∀ o ∈ tr.allocate.dense_carry j, o = some p.values.Zero) →
      (∀ d ∈ (tr.allocate.dense_operands sqrt l2 scale j).1, d ≠ 0) →
      (∀ r ∈ (tr.allocate.dense_operands sqrt l2 scale j).2, 0 ≤ r) →
      ∃ p1 : ParameterStorage R,
        tr1.toTrainer.model.parameters_list[j]? = some p1 ∧ p1.values = p.values) ∧
    (∀ (k : Nat) (p : LookupParameterStorage R) (i : Nat) (x : Tensor R),
      tr.toTrainer.model.lookup_parameters_list[k]? = some p → p.non_zero_grads.Nodup →
      i ∈ p.non_zero_grads → p.values[i]? = some x → p.grads[i]? = some x.Zero →
      (∀ o ∈ (tr.allocate.row_shadow k i).1,
        ∃ t : Tensor R, o = some t ∧ t.length = x.length) →
      (∀ o ∈ (tr.allocate.row_shadow k i).2, ∃ d : R, o = some d) →
      (∀ o ∈ tr.allocate.row_carry k i, o = some x.Zero) →
      (∀ d ∈ (tr.allocate.row_operands sqrt l2 scale k i).1, d ≠ 0) →
      (∀ r ∈ (tr.allocate.row_operands sqrt l2 scale k i).2, 0 ≤ r) →
      ∃ p1 : LookupParameterStorage R,
        tr1.toTrainer.model.lookup_parameters_list[k]? = some p1 ∧
        p1.values[i]? = some x) := by
  unfold AnyTrainer.update_impl at hrun
  cases tr with
  | SimpleSGD tr =>
    obtain ⟨t1, h1, rfl⟩ := dispatched_ok _ _ _ hrun
    obtain ⟨gscale, b, _, hps, hl⟩ := SimpleSGDTrainer.sgd_update_impl_ok l2 tr t1 scale h1
    simp only [AnyTrainer.toTrainer] at hwd
    constructor
    · intro j p hp hg hsh _ hca _ _
      simp only [AnyTrainer.toTrainer] at hp ⊢
      have hval := SimpleSGDTrainer.sgd_dense_value tr.eta scale gscale
        tr.global_weight_decay.CurrentWeightDecay _ j p hp
      rw [← hps] at hval
      refine ⟨_, hval, ?_⟩
      simp only [ParameterStorage.clear]
      rw [hwd]
      rw [hg]
      exact SimpleSGDTrainer.dense_zero tr.eta scale gscale p.values
    · intro k p i x hp hnd hi hx hgr hsh _ hca _ _
      obtain ⟨p1, e1, _, _, e4⟩ := SimpleSGDTrainer.sgd_lookup_rows tr.eta scale gscale
        tr.global_weight_decay.CurrentWeightDecay _ k p hp
      have hlt : i < p.values.length := by
        by_contra hge
        rw [List.getElem?_eq_none (not_lt.mp hge)] at hx
        cases hx
      refine ⟨p1, ?_, ?_⟩
      · simp only [AnyTrainer.toTrainer]
        rw [hl]
        exact e1
      rw [e4 hnd i hi hlt, hwd, List.getD_eq_getElem?_getD, List.getD_eq_getElem?_getD, hx, hgr,
        Option.getD_some, Option.getD_some]
      congr 1
      exact SimpleSGDTrainer.row_zero tr.eta scale gscale x
  | MomentumSGD tr =>
    obtain ⟨t1, h1, rfl⟩ := dispatched_ok _ _ _ hrun
    obtain ⟨gscale, b, _, hps, hl, _⟩ := MomentumSGDTrainer.momentum_update_impl_ok l2 tr t1 scale h1
    simp only [AnyTrainer.toTrainer] at hwd
    constructor
    · intro j p hp hg hsh _ hca _ _
      simp only [AnyTrainer.toTrainer] at hp ⊢
      have hval := MomentumSGDTrainer.momentum_dense_value tr.eta tr.momentum scale gscale
        tr.global_weight_decay.CurrentWeightDecay tr.allocate.vp _ j p hp
      rw [← hps] at hval
      refine ⟨_, hval, ?_⟩
      have hv := hca (tr.allocate.vp[j]?) (by simp [AnyTrainer.dense_carry, AnyTrainer.allocate])
      simp only [ParameterStorage.clear]
      rw [hwd]
      rw [hg, List.getD_eq_getElem?_getD, hv, Option.getD_some]
      exact MomentumSGDTrainer.momentum_step_zero tr.eta tr.momentum scale gscale p.values
    · intro k p i x hp hnd hi hx hgr hsh _ hca _ _
      obtain ⟨p1, e1, _, _, e4⟩ := MomentumSGDTrainer.momentum_lookup_rows tr.eta tr.momentum scale gscale
        tr.global_weight_decay.CurrentWeightDecay
        tr.allocate.vlp _ k p hp
      have hlt : i < p.values.length := by
        by_contra hge
        rw [List.getElem?_eq_none (not_lt.mp hge)] at hx
        cases hx
      refine ⟨p1, ?_, ?_⟩
      · simp only [AnyTrainer.toTrainer]
        rw [hl]
        exact e1
      have hv := hca (entry tr.allocate.vlp k i) (by simp [AnyTrainer.row_carry, AnyTrainer.allocate])
      rw [e4 hnd i hi hlt, hwd, List.getD_eq_getElem?_getD, List.getD_eq_getElem?_getD, hx, hgr,
        Option.getD_some, Option.getD_some]
      congr 1
      rw [rowAt_of_entry _ _ _ _ _ hv]
      exact MomentumSGDTrainer.momentum_step_zero tr.eta tr.momentum scale gscale x
  | Adagrad tr =>
    obtain ⟨t1, h1, rfl⟩ := dispatched_ok _ _ _ hrun
    obtain ⟨gscale, b, _, hps, hl, _⟩ := AdagradTrainer.adagrad_update_impl_ok sqrt l2 tr t1 scale h1
    simp only [AnyTrainer.toTrainer] at hwd
    constructor
    · intro j p hp hg hsh _ hca _ _
      simp only [AnyTrainer.toTrainer] at hp ⊢
      have hval := AdagradTrainer.adagrad_dense_value sqrt tr.eta tr.epsilon scale gscale
        tr.global_weight_decay.CurrentWeightDecay tr.allocate.vp _ j p hp
      rw [← hps] at hval
      refine ⟨_, hval, ?_⟩
      obtain ⟨v, hv, hvl⟩ := hsh (tr.allocate.vp[j]?)
        (by simp [AnyTrainer.dense_shadow, AnyTrainer.allocate])
      simp only [ParameterStorage.clear]
      rw [hwd]
      rw [hg, List.getD_eq_getElem?_getD, hv, Option.getD_some]
      exact AdagradTrainer.adagrad_step_zero sqrt tr.eta tr.epsilon scale gscale v p.values hvl
    · intro k p i x hp hnd hi hx hgr hsh _ hca _ _
      obtain ⟨p1, e1, _, _, e4⟩ := AdagradTrainer.adagrad_lookup_rows sqrt tr.eta tr.epsilon scale gscale
        tr.global_weight_decay.CurrentWeightDecay
        tr.allocate.vlp _ k p hp
      have hlt : i < p.values.length := by
        by_contra hge
        rw [List.getElem?_eq_none (not_lt.mp hge)] at hx
        cases hx
      refine ⟨p1, ?_, ?_⟩
      · simp only [AnyTrainer.toTrainer]
        rw [hl]
        exact e1
      obtain ⟨v, hv, hvl⟩ := hsh (entry tr.allocate.vlp k i)
        (by simp [AnyTrainer.row_shadow, AnyTrainer.allocate])
      rw [e4 hnd i hi hlt, hwd, List.getD_eq_getElem?_getD, List.getD_eq_getElem?_getD, hx, hgr,
        Option.getD_some, Option.getD_some]
      congr 1
      rw [rowAt_of_entry _ _ _ _ _ hv]
      exact AdagradTrainer.adagrad_step_zero sqrt tr.eta tr.epsilon scale gscale v x hvl
  | Adadelta tr =>
    obtain ⟨t1, h1, rfl⟩ := dispatched_ok _ _ _ hrun
    obtain ⟨gscale, b, _, hps, hl, _, _⟩ := AdadeltaTrainer.adadelta_update_impl_ok sqrt l2 tr t1 scale h1
    simp only [AnyTrainer.toTrainer] at hwd
    constructor
    · intro j p hp hg hsh _ hca _ _
      simp only [AnyTrainer.toTrainer] at hp ⊢
      have hval := AdadeltaTrainer.adadelta_dense_value sqrt tr.rho tr.epsilon scale gscale
        tr.global_weight_decay.CurrentWeightDecay (tr.allocate.hg, tr.allocate.hd) _ j p hp
      rw [← hps] at hval
      refine ⟨_, hval, ?_⟩
      obtain ⟨v, hv, hvl⟩ := hsh (tr.allocate.hg[j]?)
        (by simp [AnyTrainer.dense_shadow, AnyTrainer.allocate])
      obtain ⟨w, hw, hwl⟩ := hsh (tr.allocate.hd[j]?)
        (by simp [AnyTrainer.dense_shadow, AnyTrainer.allocate])
      simp only [ParameterStorage.clear]
      rw [hwd]
      rw [hg, List.getD_eq_getElem?_getD, List.getD_eq_getElem?_getD, hv, hw, Option.getD_some,
        Option.getD_some]
      exact AdadeltaTrainer.adadelta_step_zero sqrt tr.rho tr.epsilon scale gscale v w p.values hvl hwl
    · intro k p i x hp hnd hi hx hgr hsh _ hca _ _
      obtain ⟨p1, e1, _, _, e4⟩ := AdadeltaTrainer.adadelta_lookup_rows sqrt tr.rho tr.epsilon scale gscale
        tr.global_weight_decay.CurrentWeightDecay
        (tr.allocate.hlg, tr.allocate.hld) _ k p hp
      have hlt : i < p.values.length := by
        by_contra hge
        rw [List.getElem?_eq_none (not_lt.mp hge)] at hx
        cases hx
      refine ⟨p1, ?_, ?_⟩
      · simp only [AnyTrainer.toTrainer]
        rw [hl]
        exact e1
      obtain ⟨v, hv, hvl⟩ := hsh (entry tr.allocate.hlg k i)
        (by simp [AnyTrainer.row_shadow, AnyTrainer.allocate])
      obtain ⟨w, hw, hwl⟩ := hsh (entry tr.allocate.hld k i)
        (by simp [AnyTrainer.row_shadow, AnyTrainer.allocate])
      rw [e4 hnd i hi hlt, hwd, List.getD_eq_getElem?_getD, List.getD_eq_getElem?_getD, hx, hgr,
        Option.getD_some, Option.getD_some]
      congr 1
      rw [rowAt_of_entry _ _ _ _ _ hv, rowAt_of_entry _ _ _ _ _ hw]
      exact AdadeltaTrainer.adadelta_step_zero sqrt tr.rho tr.epsilon scale gscale v w x hvl hwl
  | RmsProp tr =>
    obtain ⟨t1, h1, rfl⟩ := dispatched_ok _ _ _ hrun
    obtain ⟨gscale, b, _, hps, hl, _⟩ := RmsPropTrainer.rmsprop_update_impl_ok sqrt l2 tr t1 scale h1
    simp only [AnyTrainer.toTrainer] at hwd
    constructor
    · intro j p hp hg hsh _ hca _ _
      simp only [AnyTrainer.toTrainer] at hp ⊢
      have hval := RmsPropTrainer.rmsprop_dense_value sqrt tr.eta tr.rho tr.epsilon scale gscale
        tr.global_weight_decay.CurrentWeightDecay tr.allocate.hg _ j p hp
      rw [← hps] at hval
      refine ⟨_, hval, ?_⟩
      simp only [ParameterStorage.clear]
      rw [hwd]
      rw [hg]
      exact RmsPropTrainer.rmsprop_step_zero sqrt tr.eta tr.rho tr.epsilon scale gscale _ p.values
    · intro k p i x hp hnd hi hx hgr hsh _ hca _ _
      obtain ⟨p1, e1, _, _, e4⟩ := RmsPropTrainer.rmsprop_lookup_rows sqrt tr.eta tr.rho tr.epsilon scale gscale
        tr.global_weight_decay.CurrentWeightDecay
        tr.allocate.hlg _ k p hp
      have hlt : i < p.values.length := by
        by_contra hge
        rw [List.getElem?_eq_none (not_lt.mp hge)] at hx
        cases hx
      refine ⟨p1, ?_, ?_⟩
      · simp only [AnyTrainer.toTrainer]
        rw [hl]
        exact e1
      rw [e4 hnd i hi hlt, hwd, List.getD_eq_getElem?_getD, List.getD_eq_getElem?_getD, hx, hgr,
        Option.getD_some, Option.getD_some]
      congr 1
      exact RmsPropTrainer.rmsprop_step_zero sqrt tr.eta tr.rho tr.epsilon scale gscale _ x
  | Adam tr =>
    obtain ⟨t1, h1, rfl⟩ := dispatched_ok _ _ _ hrun
    obtain ⟨gscale, b, _, hps, hl, _, _⟩ := AdamTrainer.adam_update_impl_ok sqrt l2 tr t1 scale h1
    simp only [AnyTrainer.toTrainer] at hwd
    constructor
    · intro j p hp hg hsh _ hca _ _
      simp only [AnyTrainer.toTrainer] at hp ⊢
      have hval := AdamTrainer.adam_dense_value sqrt tr.eta tr.beta_1 tr.beta_2 tr.eps scale gscale
        tr.global_weight_decay.CurrentWeightDecay (tr.allocate.m, tr.allocate.v, tr.allocate.t) _ j p hp
      rw [← hps] at hval
      refine ⟨_, hval, ?_⟩
      have hv := hca (tr.allocate.m[j]?) (by simp [AnyTrainer.dense_carry, AnyTrainer.allocate])
      obtain ⟨w, hw, hwl⟩ := hsh (tr.allocate.v[j]?)
        (by simp [AnyTrainer.dense_shadow, AnyTrainer.allocate])
      simp only [ParameterStorage.clear]
      rw [hwd]
      rw [hg, List.getD_eq_getElem?_getD, List.getD_eq_getElem?_getD, hv, hw, Option.getD_some,
        Option.getD_some]
      exact AdamTrainer.adam_step_zero sqrt tr.eta tr.beta_1 tr.beta_2 tr.eps scale gscale _ w p.values hwl
    · intro k p i x hp hnd hi hx hgr hsh _ hca _ _
      obtain ⟨p1, e1, _, _, e4⟩ := AdamTrainer.adam_lookup_rows sqrt tr.eta tr.beta_1 tr.beta_2 tr.eps scale gscale
        tr.global_weight_decay.CurrentWeightDecay
        (forParams (AdamTrainer.dense_body sqrt tr.eta tr.beta_1 tr.beta_2 tr.eps scale gscale
          tr.global_weight_decay.CurrentWeightDecay)
          0 (tr.allocate.m, tr.allocate.v, tr.allocate.t) tr.model.parameters_list).1.2.2
        (tr.allocate.lm, tr.allocate.lv) _ k p hp
      have hlt : i < p.values.length := by
        by_contra hge
        rw [List.getElem?_eq_none (not_lt.mp hge)] at hx
        cases hx
      refine ⟨p1, ?_, ?_⟩
      · simp only [AnyTrainer.toTrainer]
        rw [hl]
        exact e1
      have hv := hca (entry tr.allocate.lm k i) (by simp [AnyTrainer.row_carry, AnyTrainer.allocate])
      obtain ⟨w, hw, hwl⟩ := hsh (entry tr.allocate.lv k i)
        (by simp [AnyTrainer.row_shadow, AnyTrainer.allocate])
      rw [e4 hnd i hi hlt, hwd, List.getD_eq_getElem?_getD, List.getD_eq_getElem?_getD, hx, hgr,
        Option.getD_some, Option.getD_some]
      congr 1
      rw [rowAt_of_entry _ _ _ _ _ hv, rowAt_of_entry _ _ _ _ _ hw]
      exact AdamTrainer.adam_step_zero sqrt tr.eta tr.beta_1 tr.beta_2 tr.eps scale gscale _ w x hwl

end EveryRule

/-! ## Runs on concrete inputs -/

theorem momentumExample_run :
    (AnyTrainer.MomentumSGD momentumExample).update_impl qsqrt (fun _ => .finite 10) 1 =
      .ok (.MomentumSGD momentumAfter) := by
  norm_num [AnyTrainer.update_impl, AnyTrainer.dispatched, MomentumSGDTrainer.update_impl,
    MomentumSGDTrainer.allocate, momentumExample, momentumAfter, Trainer.clip_gradients,
    baseTrainer, mixedModel, denseModel, lookupModel, FloatVal.isnan, FloatVal.isinf,
    FloatVal.val, AllocateShadowParameters, AllocateShadowLookupParameters, Tensor.Zero,
    forParams, forLookupParams, MomentumSGDTrainer.dense_body, MomentumSGDTrainer.row_body,
    MomentumSGDTrainer.step, rowAt, setRowAt, ParameterStorage.clear,
    LookupParameterStorage.clear, L2WeightDecay.CurrentWeightDecay]

theorem adagradExample_run :
    (AnyTrainer.Adagrad adagradExample).update_impl qsqrt (fun _ => .nan) 1 =
      .ok (.Adagrad adagradAfter) := by
  norm_num [AnyTrainer.update_impl, AnyTrainer.dispatched, AdagradTrainer.update_impl,
    AdagradTrainer.allocate, adagradExample, adagradAfter, Trainer.clip_gradients,
    baseTrainer, Tensor.Zero, forParams, forLookupParams, AdagradTrainer.dense_body,
    AdagradTrainer.row_body, AdagradTrainer.step, rowAt, setRowAt, ParameterStorage.clear,
    LookupParameterStorage.clear, L2WeightDecay.CurrentWeightDecay]

theorem adagradExample_dense_operands :
    (AnyTrainer.Adagrad adagradExample).allocate.dense_operands qsqrt (fun _ => .nan) 1 0 =
      ([2, 1], [4]) := by
  norm_num [AnyTrainer.dense_operands, AnyTrainer.allocate, AdagradTrainer.allocate,
    AnyTrainer.toTrainer, adagradExample, Trainer.clip_gradients, Trainer.clip_operands,
    withClipOperands, baseTrainer, AdagradTrainer.step_operands,
    L2WeightDecay.CurrentWeightDecay, qsqrt, Int.toNat]

theorem adagradExample_row_operands :
    (AnyTrainer.Adagrad adagradExample).allocate.row_operands qsqrt (fun _ => .nan) 1 0 0 =
      ([3, 1], [9]) := by
  norm_num [AnyTrainer.row_operands, AnyTrainer.allocate, AdagradTrainer.allocate,
    AnyTrainer.toTrainer, adagradExample, Trainer.clip_gradients, Trainer.clip_operands,
    withClipOperands, baseTrainer, AdagradTrainer.step_operands,
    L2WeightDecay.CurrentWeightDecay, rowAt, qsqrt, Int.toNat]

theorem update_impl_clears_witness :
    (AnyTrainer.MomentumSGD momentumExample).update_impl qsqrt (fun _ => .finite 10) 1 =
        .ok (.MomentumSGD momentumAfter) ∧
      (AnyTrainer.MomentumSGD momentumAfter).toTrainer.model.parameters_list.map (fun p => p.g) =
          (AnyTrainer.MomentumSGD momentumExample).toTrainer.model.parameters_list.map
            (fun p => p.g.Zero) ∧
        (AnyTrainer.MomentumSGD momentumAfter).toTrainer.model.lookup_parameters_list.length =
          (AnyTrainer.MomentumSGD momentumExample).toTrainer.model.lookup_parameters_list.length ∧
        ∀ p ∈ (AnyTrainer.MomentumSGD momentumAfter).toTrainer.model.lookup_parameters_list,
          p.non_zero_grads = [] :=
  ⟨momentumExample_run, update_impl_clears qsqrt (fun _ => .finite 10) _ _ 1 momentumExample_run⟩

theorem update_impl_untouched_rows_witness :
    (AnyTrainer.MomentumSGD momentumExample).update_impl qsqrt (fun _ => .finite 10) 1 =
        .ok (.MomentumSGD momentumAfter) ∧
      1 ∉ [0] ∧
      (∃ p1 : LookupParameterStorage ℚ,
        (AnyTrainer.MomentumSGD momentumAfter).toTrainer.model.lookup_parameters_list[0]? =
          some p1 ∧
        p1.values[1]? = some [3]) ∧
      (AnyTrainer.MomentumSGD momentumAfter).row_shadow 0 1 =
        (AnyTrainer.MomentumSGD momentumExample).allocate.row_shadow 0 1 :=
  have h := update_impl_untouched_rows qsqrt (fun _ => .finite 10)
    (.MomentumSGD momentumExample) (.MomentumSGD momentumAfter) 1 0 1
    { values := [[1], [3]], grads := [[2], [0]], non_zero_grads := [0] }
    (Or.inl momentumExample_run) rfl (by decide)
  ⟨momentumExample_run, by decide, h.1, h.2.1⟩

/-- C7 as stated fails: a MomentumSGD trainer with velocity 1 and momentum one
half, at weight-decay scale 1, moves a dense value with zero gradient from 0 to
one half. -/
theorem zero_gradient_moves_value_under_momentum :
    movingExample.model.parameters_list = [{ values := [0], g := [0] }] ∧
      movingExample.global_weight_decay.CurrentWeightDecay = 1 ∧
      (AnyTrainer.MomentumSGD movingExample).update_impl qsqrt (fun _ => .nan) 1 =
        .ok (.MomentumSGD { movingExample with
          toTrainer := { movingExample.toTrainer with
            updates := 1
            model := { parameters_list := [{ values := [1 / 2], g := [0] }]
                       lookup_parameters_list := [] } }
          vp := [[1 / 2]] }) ∧
      ([1 / 2] : Tensor ℚ) ≠ [0] := by
  refine ⟨rfl, rfl, ?_, by norm_num⟩
  norm_num [AnyTrainer.update_impl, AnyTrainer.dispatched, MomentumSGDTrainer.update_impl,
    MomentumSGDTrainer.allocate, movingExample, Trainer.clip_gradients, baseTrainer,
    Tensor.Zero, forParams, forLookupParams, MomentumSGDTrainer.dense_body,
    MomentumSGDTrainer.step, ParameterStorage.clear, L2WeightDecay.CurrentWeightDecay]

theorem zero_gradient_keeps_value_witness :
    (AnyTrainer.Adagrad adagradExample).update_impl qsqrt (fun _ => .nan) 1 =
        .ok (.Adagrad adagradAfter) ∧
      (AnyTrainer.Adagrad adagradExample).toTrainer.global_weight_decay.CurrentWeightDecay = 1 ∧
      (AnyTrainer.Adagrad adagradExample).allocate.dense_operands qsqrt (fun _ => .nan) 1 0 =
        ([2, 1], [4]) ∧
      (AnyTrainer.Adagrad adagradExample).allocate.row_operands qsqrt (fun _ => .nan) 1 0 0 =
        ([3, 1], [9]) ∧
      (∃ p1 : ParameterStorage ℚ,
        (AnyTrainer.Adagrad adagradAfter).toTrainer.model.parameters_list[0]? = some p1 ∧
        p1.values = [1]) ∧
      (∃ p1 : LookupParameterStorage ℚ,
        (AnyTrainer.Adagrad adagradAfter).toTrainer.model.lookup_parameters_list[0]? = some p1 ∧
        p1.values[0]? = some [1]) :=
  have h := zero_gradient_keeps_value qsqrt (fun _ => .nan) (.Adagrad adagradExample)
    (.Adagrad adagradAfter) 1 adagradExample_run rfl
  ⟨adagradExample_run, rfl, adagradExample_dense_operands, adagradExample_row_operands,
    h.1 0 { values := [1], g := [0] } rfl (by simp [Tensor.Zero])
      (by simp [AnyTrainer.allocate, AdagradTrainer.allocate, adagradExample,
        AnyTrainer.dense_shadow])
      (by simp [AnyTrainer.allocate, AnyTrainer.dense_shadow])
      (by simp [AnyTrainer.allocate, AnyTrainer.dense_carry])
      (by rw [adagradExample_dense_operands]; simp)
      (by rw [adagradExample_dense_operands]; simp),
    h.2 0 { values := [[1], [3]], grads := [[0], [0]], non_zero_grads := [0] } 0 [1] rfl
      (by simp) (by simp) rfl (by simp [Tensor.Zero])
      (by simp [AnyTrainer.allocate, AdagradTrainer.allocate, adagradExample,
        AnyTrainer.row_shadow, entry])
      (by simp [AnyTrainer.allocate, AnyTrainer.row_shadow])
      (by simp [AnyTrainer.allocate, AnyTrainer.row_carry])
      (by rw [adagradExample_row_operands]; simp)
      (by rw [adagradExample_row_operands]; simp)⟩

/-- C10. On two equal dense parameters, one call of `AdamTrainer::update_impl`
from `t = 0` corrects the first with step count 1 and the second with step
count 2, so they end with different values, and leaves `t = 2`. -/
theorem adam_counts_steps_per_parameter :
    adamExample.update_impl qsqrt (fun _ => .nan) 1 = .ok adamAfter ∧
      adamExample.model.parameters_list =
        [{ values := [1], g := [1] }, { values := [1], g := [1] }] ∧
      adamAfter.model.parameters_list =
        [{ values := [11 / 12], g := [0] }, { values := [14 / 15], g := [0] }] ∧
      (AdamTrainer.step qsqrt (1 / 10) (1 / 2) (9 / 16) (1 / 5) 1 1 1 1 [0] [0] [1] [1]).2.2 =
        [11 / 12] ∧
      (AdamTrainer.step qsqrt (1 / 10) (1 / 2) (9 / 16) (1 / 5) 1 1 1 2 [0] [0] [1] [1]).2.2 =
        [14 / 15] ∧
      adamExample.t = 0 ∧ adamAfter.t = 2 := by
  have hs1 : qsqrt 1 = 1 := by norm_num [qsqrt]
  have hs2 : qsqrt (16 / 25) = 4 / 5 := by norm_num [qsqrt, Int.toNat]
  refine ⟨?_, rfl, rfl, ?_, ?_, rfl, rfl⟩
  · norm_num [AdamTrainer.update_impl, AdamTrainer.allocate, adamExample, adamAfter,
      Trainer.clip_gradients, baseTrainer, AllocateShadowParameters,
      AllocateShadowLookupParameters, Tensor.Zero, forParams, forLookupParams,
      AdamTrainer.dense_body, AdamTrainer.step, ParameterStorage.clear,
      L2WeightDecay.CurrentWeightDecay, hs1, hs2]
  · norm_num [AdamTrainer.step, hs1]
  · norm_num [AdamTrainer.step, hs2]

/-! ## Numerical claims -/

/-- C17. With clipping enabled, a positive threshold and a finite gradient norm
`gg ≥ 0`, `clip_gradients` returns a scale `s` with `0 < s ≤ 1` and
`s * gg = min gg clip_threshold`. -/
theorem clip_gradients_scale_bounds {R : Type} [LinearOrderedField R]
    (l2 : Model R → FloatVal R) (tr : Trainer R) (gg : R)
    (hen : tr.clipping_enabled = true) (hthr : 0 < tr.clip_threshold)
    (hfin : l2 tr.model = .finite gg) (hgg : 0 ≤ gg) :
    ∃ s b, tr.clip_gradients l2 = .ok (s, b) ∧ 0 < s ∧ s ≤ 1 ∧
      s * gg = min gg tr.clip_threshold := by
  have _ := hgg
  unfold Trainer.clip_gradients
  by_cases h : gg > tr.clip_threshold
  · have hpos : 0 < gg := lt_trans hthr h
    refine ⟨tr.clip_threshold / gg, { tr with clips := tr.clips + 1 }, ?_, div_pos hthr hpos,
      ?_, ?_⟩
    · simp [hen, hfin, FloatVal.isnan, FloatVal.isinf, FloatVal.val, h]
    · rw [div_le_one hpos]
      exact le_of_lt h
    · rw [div_mul_cancel₀ _ (ne_of_gt hpos), min_eq_right (le_of_lt h)]
  · have hle2 : gg ≤ tr.clip_threshold := not_lt.mp h
    refine ⟨1, tr, ?_, one_pos, le_refl _, ?_⟩
    · simp [hen, hfin, FloatVal.isnan, FloatVal.isinf, FloatVal.val, h]
    · rw [one_mul, min_eq_left hle2]

theorem clip_gradients_scale_bounds_witness :
    ∃ s b, (baseTrainer denseModel true).clip_gradients (fun _ => .finite 10) = .ok (s, b) ∧
      0 < s ∧ s ≤ 1 ∧ s * 10 = min 10 (baseTrainer denseModel true).clip_threshold :=
  clip_gradients_scale_bounds (fun _ => .finite 10) (baseTrainer denseModel true) 10 rfl
    (by norm_num [baseTrainer]) rfl (by norm_num)

/-- C12. The first update of Adam on value `[0]` with gradient `[1]`,
`beta_1 = 0.9`, `beta_2 = 0.999`, `eta = 0.001`, `eps = 1e-8`, for every square
root with `sqrt 1 = 1`: the stored moments become `[0.1]` and `[0.001]`, the
step count is 1, both bias-corrected moments are 1, and the stored value is
`-eta / (1 + eps)`. -/
theorem adam_first_update (sqrt : ℚ → ℚ) (hsqrt : sqrt 1 = 1) :
    adamFirst.update_impl sqrt (fun _ => .nan) 1 = .ok adamFirstAfter ∧
      adamFirstAfter.m = [[1 / 10]] ∧ adamFirstAfter.v = [[1 / 1000]] ∧ adamFirstAfter.t = 1 ∧
      (1 / 10 : ℚ) / (1 - adamFirst.beta_1 ^ adamFirstAfter.t) = 1 ∧
      (1 / 1000 : ℚ) / (1 - adamFirst.beta_2 ^ adamFirstAfter.t) = 1 ∧
      adamFirstAfter.model.parameters_list =
        [{ values := [-adamFirst.eta / (1 + adamFirst.eps)], g := [0] }] := by
  refine ⟨?_, rfl, rfl, rfl, ?_, ?_, ?_⟩
  · norm_num [AdamTrainer.update_impl, AdamTrainer.allocate, adamFirst, adamFirstAfter,
      Trainer.clip_gradients, AllocateShadowParameters, AllocateShadowLookupParameters,
      Tensor.Zero, forParams, forLookupParams, AdamTrainer.dense_body, AdamTrainer.step,
      ParameterStorage.clear, L2WeightDecay.CurrentWeightDecay, hsqrt]
  · norm_num [adamFirst, adamFirstAfter]
  · norm_num [adamFirst, adamFirstAfter]
  · norm_num [adamFirst, adamFirstAfter]

theorem adam_first_update_witness :
    qsqrt 1 = 1 ∧ adamFirst.update_impl qsqrt (fun _ => .nan) 1 = .ok adamFirstAfter :=
  ⟨by norm_num [qsqrt], (adam_first_update qsqrt (by norm_num [qsqrt])).1⟩

/-- C11. At clip scale one half (norm 10, threshold 5) and gradient `[10]`,
RMSProp stores `d2 = 0.25 * 100 = 25`, the squared norm of the stored gradient,
and the value 0.9; with the squared norm of the scaled gradient `[5]` the scalar
would be 6.25 and the value 0.8. -/
theorem rmsprop_accumulates_raw_gradient :
    (Trainer.clip_gradients (fun _ => .finite 10) rmsPropExample.toTrainer).map Prod.fst =
        .ok (1 / 2) ∧
      rmsPropExample.update_impl qsqrt (fun _ => .finite 10) 1 = .ok rmsPropAfter ∧
      rmsPropAfter.hg = [25] ∧
      rmsPropAfter.model.parameters_list = [{ values := [9 / 10], g := [0] }] ∧
      rmsPropExample.rho * 0 + (1 - rmsPropExample.rho) * ((1 * (1 / 2) * 10) ^ 2) = 25 / 4 ∧
      (1 : ℚ) - rmsPropExample.eta * (1 * (1 / 2) * 10) / qsqrt (25 / 4 + rmsPropExample.epsilon)
        = 4 / 5 := by
  have hs1 : qsqrt 25 = 5 := by norm_num [qsqrt, Int.toNat]
  have hs2 : qsqrt (25 / 4) = 5 / 2 := by norm_num [qsqrt, Int.toNat]
  refine ⟨?_, ?_, rfl, rfl, ?_, ?_⟩
  · norm_num [Trainer.clip_gradients, rmsPropExample, baseTrainer, FloatVal.isnan,
      FloatVal.isinf, FloatVal.val, Except.map]
  · norm_num [RmsPropTrainer.update_impl, RmsPropTrainer.allocate, rmsPropExample, rmsPropAfter,
      Trainer.clip_gradients, baseTrainer, FloatVal.isnan, FloatVal.isinf, FloatVal.val,
      resize, forParams, forLookupParams, RmsPropTrainer.dense_body, RmsPropTrainer.step,
      ParameterStorage.clear, Tensor.Zero, L2WeightDecay.CurrentWeightDecay, hs1]
  · norm_num [rmsPropExample]
  · norm_num [rmsPropExample, baseTrainer, hs2]

/-- C13. On gradient `[1]` with zero accumulators, Adadelta stores
`hd = 0.24 * (-0.2)^2`, so `delta` read against the old `hd` is `[-0.2]`; the
value written is `1 + (-0.28)`, which is `delta` read against the `hd` just
stored, not `1 + (-0.2)`. -/
theorem adadelta_value_uses_updated_hd :
    adadeltaExample.update_impl qsqrt (fun _ => .nan) 1 = .ok adadeltaAfter ∧
      AdadeltaTrainer.delta qsqrt (1 / 100) 1 1 [6 / 25] [0] [1] = [-1 / 5] ∧
      adadeltaAfter.hd = [[19 / 25 * 0 + (1 - 19 / 25) * ((-1 / 5) * (-1 / 5))]] ∧
      AdadeltaTrainer.delta qsqrt (1 / 100) 1 1 [6 / 25] [6 / 625] [1] = [-7 / 25] ∧
      adadeltaAfter.model.parameters_list = [{ values := [1 + (-7 / 25) / 1], g := [0] }] ∧
      ([1 + (-7 / 25) / 1] : Tensor ℚ) ≠ [1 + (-1 / 5) / 1] := by
  have hs1 : qsqrt (1 / 100) = 1 / 10 := by norm_num [qsqrt, Int.toNat]
  have hs2 : qsqrt (1 / 4) = 1 / 2 := by norm_num [qsqrt, Int.toNat]
  have hs3 : qsqrt (49 / 2500) = 7 / 50 := by norm_num [qsqrt, Int.toNat]
  refine ⟨?_, ?_, ?_, ?_, ?_, by norm_num⟩
  · norm_num [AdadeltaTrainer.update_impl, AdadeltaTrainer.allocate, adadeltaExample,
      adadeltaAfter, Trainer.clip_gradients, baseTrainer, AllocateShadowParameters,
      AllocateShadowLookupParameters, Tensor.Zero, forParams, forLookupParams,
      AdadeltaTrainer.dense_body, AdadeltaTrainer.step, AdadeltaTrainer.delta,
      ParameterStorage.clear, L2WeightDecay.CurrentWeightDecay, hs1, hs2, hs3]
  · norm_num [AdadeltaTrainer.delta, hs1, hs2]
  · norm_num [adadeltaAfter]
  · norm_num [AdadeltaTrainer.delta, hs2, hs3]
  · norm_num [adadeltaAfter, baseTrainer]

/-! ## Counters, scale and allocated-flag after `update_impl` -/

section Base

variable [LinearOrderedField R]

theorem SimpleSGDTrainer.sgd_update_impl_base (l2 : Model R → FloatVal R)
    (tr0 tr1 : SimpleSGDTrainer R) (scale : R) (h : tr0.update_impl l2 scale = .ok tr1) :
    tr1.updates = tr0.updates + 1 ∧ tr1.global_weight_decay = tr0.global_weight_decay := by
  unfold SimpleSGDTrainer.update_impl SimpleSGDTrainer.update_params at h
  rcases hc : tr0.toTrainer.clip_gradients l2 with b | ⟨gscale, b⟩
  · rw [hc] at h
    cases h
  · rw [hc] at h
    cases h
    obtain ⟨_, _, h3, h4⟩ := clip_gradients_ok_fields l2 _ _ _ hc
    exact ⟨congrArg (fun u => u + 1) h4, h3⟩

theorem MomentumSGDTrainer.momentum_allocate_flag (tr : MomentumSGDTrainer R) : tr.allocate.velocity_allocated = true := by
  unfold MomentumSGDTrainer.allocate
  by_cases h : tr.velocity_allocated = true
  · simp [h]
  · simp [h]

theorem MomentumSGDTrainer.momentum_update_impl_base (l2 : Model R → FloatVal R)
    (tr0 tr1 : MomentumSGDTrainer R) (scale : R) (h : tr0.update_impl l2 scale = .ok tr1) :
    tr1.updates = tr0.updates + 1 ∧ tr1.global_weight_decay = tr0.global_weight_decay ∧
      tr1.velocity_allocated = true := by
  unfold MomentumSGDTrainer.update_impl at h
  dsimp only at h
  rcases hc : tr0.allocate.toTrainer.clip_gradients l2 with b | ⟨gscale, b⟩
  · rw [hc] at h
    cases h
  · rw [hc] at h
    cases h
    rw [(tr0.momentum_allocate_toTrainer).1] at hc
    obtain ⟨_, _, h3, h4⟩ := clip_gradients_ok_fields l2 _ _ _ hc
    exact ⟨congrArg (fun u => u + 1) h4, h3, tr0.momentum_allocate_flag⟩

theorem AdagradTrainer.adagrad_allocate_flag (tr : AdagradTrainer R) : tr.allocate.shadow_params_allocated = true := by
  unfold AdagradTrainer.allocate
  by_cases h : tr.shadow_params_allocated = true
  · simp [h]
  · simp [h]

theorem AdagradTrainer.adagrad_update_impl_base (sqrt : R → R) (l2 : Model R → FloatVal R)
    (tr0 tr1 : AdagradTrainer R) (scale : R) (h : tr0.update_impl sqrt l2 scale = .ok tr1) :
    tr1.updates = tr0.updates + 1 ∧ tr1.global_weight_decay = tr0.global_weight_decay ∧
      tr1.shadow_params_allocated = true := by
  unfold AdagradTrainer.update_impl at h
  dsimp only at h
  rcases hc : tr0.allocate.toTrainer.clip_gradients l2 with b | ⟨gscale, b⟩
  · rw [hc] at h
    cases h
  · rw [hc] at h
    cases h
    rw [(tr0.adagrad_allocate_toTrainer).1] at hc
    obtain ⟨_, _, h3, h4⟩ := clip_gradients_ok_fields l2 _ _ _ hc
    exact ⟨congrArg (fun u => u + 1) h4, h3, tr0.adagrad_allocate_flag⟩

theorem AdadeltaTrainer.adadelta_allocate_flag (tr : AdadeltaTrainer R) : tr.allocate.shadow_params_allocated = true := by
  unfold AdadeltaTrainer.allocate
  by_cases h : tr.shadow_params_allocated = true
  · simp [h]
  · simp [h]

theorem AdadeltaTrainer.adadelta_update_impl_base (sqrt : R → R) (l2 : Model R → FloatVal R)
    (tr0 tr1 : AdadeltaTrainer R) (scale : R) (h : tr0.update_impl sqrt l2 scale = .ok tr1) :
    tr1.updates = tr0.updates + 1 ∧ tr1.global_weight_decay = tr0.global_weight_decay ∧
      tr1.shadow_params_allocated = true := by
  unfold AdadeltaTrainer.update_impl at h
  dsimp only at h
  rcases hc : tr0.allocate.toTrainer.clip_gradients l2 with b | ⟨gscale, b⟩
  · rw [hc] at h
    cases h
  · rw [hc] at h
    cases h
    rw [(tr0.adadelta_allocate_toTrainer).1] at hc
    obtain ⟨_, _, h3, h4⟩ := clip_gradients_ok_fields l2 _ _ _ hc
    exact ⟨congrArg (fun u => u + 1) h4, h3, tr0.adadelta_allocate_flag⟩

theorem RmsPropTrainer.rmsprop_allocate_flag (tr : RmsPropTrainer R) : tr.allocate.shadow_params_allocated = true := by
  unfold RmsPropTrainer.allocate
  by_cases h : tr.shadow_params_allocated = true
  · simp [h]
  · simp [h]

theorem RmsPropTrainer.rmsprop_update_impl_base (sqrt : R → R) (l2 : Model R → FloatVal R)
    (tr0 tr1 : RmsPropTrainer R) (scale : R) (h : tr0.update_impl sqrt l2 scale = .ok tr1) :
    tr1.updates = tr0.updates + 1 ∧ tr1.global_weight_decay = tr0.global_weight_decay ∧
      tr1.shadow_params_allocated = true := by
  unfold RmsPropTrainer.update_impl at h
  dsimp only at h
  rcases hc : tr0.allocate.toTrainer.clip_gradients l2 with b | ⟨gscale, b⟩
  · rw [hc] at h
    cases h
  · rw [hc] at h
    cases h
    rw [(tr0.rmsprop_allocate_toTrainer).1] at hc
    obtain ⟨_, _, h3, h4⟩ := clip_gradients_ok_fields l2 _ _ _ hc
    exact ⟨congrArg (fun u => u + 1) h4, h3, tr0.rmsprop_allocate_flag⟩

theorem AdamTrainer.adam_allocate_flag (tr : AdamTrainer R) : tr.allocate.shadow_params_allocated = true := by
  unfold AdamTrainer.allocate
  by_cases h : tr.shadow_params_allocated = true
  · simp [h]
  · simp [h]

theorem AdamTrainer.adam_update_impl_base (sqrt : R → R) (l2 : Model R → FloatVal R)
    (tr0 tr1 : AdamTrainer R) (scale : R) (h : tr0.update_impl sqrt l2 scale = .ok tr1) :
    tr1.updates = tr0.updates + 1 ∧ tr1.global_weight_decay = tr0.global_weight_decay ∧
      tr1.shadow_params_allocated = true := by
  unfold AdamTrainer.update_impl at h
  dsimp only at h
  rcases hc : tr0.allocate.toTrainer.clip_gradients l2 with b | ⟨gscale, b⟩
  · rw [hc] at h
    cases h
  · rw [hc] at h
    cases h
    rw [(tr0.adam_allocate_toTrainer).1] at hc
    obtain ⟨_, _, h3, h4⟩ := clip_gradients_ok_fields l2 _ _ _ hc
    exact ⟨congrArg (fun u => u + 1) h4, h3, tr0.adam_allocate_flag⟩

end Base

/-! ## `Trainer::update` and the allocation blocks -/

theorem onTrainer_toTrainer (f : Trainer R → Trainer R) (tr : AnyTrainer R) :
    (tr.onTrainer f).toTrainer = f tr.toTrainer := by
  cases tr <;> rfl

section Facade

variable [LinearOrderedField R]

theorem update_impl_counters (sqrt : R → R) (l2 : Model R → FloatVal R)
    (tr tr1 : AnyTrainer R) (scale : R) (h : tr.update_impl sqrt l2 scale = .ok tr1) :
    tr1.toTrainer.updates = tr.toTrainer.updates + 1 ∧
      tr1.toTrainer.global_weight_decay = tr.toTrainer.global_weight_decay := by
  unfold AnyTrainer.update_impl at h
  cases tr with
  | SimpleSGD tr =>
    obtain ⟨t1, h1, rfl⟩ := dispatched_ok _ _ _ h
    exact ⟨(SimpleSGDTrainer.sgd_update_impl_base l2 tr t1 scale h1).1,
      (SimpleSGDTrainer.sgd_update_impl_base l2 tr t1 scale h1).2⟩
  | MomentumSGD tr =>
    obtain ⟨t1, h1, rfl⟩ := dispatched_ok _ _ _ h
    exact ⟨(MomentumSGDTrainer.momentum_update_impl_base l2 tr t1 scale h1).1,
      (MomentumSGDTrainer.momentum_update_impl_base l2 tr t1 scale h1).2.1⟩
  | Adagrad tr =>
    obtain ⟨t1, h1, rfl⟩ := dispatched_ok _ _ _ h
    exact ⟨(AdagradTrainer.adagrad_update_impl_base sqrt l2 tr t1 scale h1).1,
      (AdagradTrainer.adagrad_update_impl_base sqrt l2 tr t1 scale h1).2.1⟩
  | Adadelta tr =>
    obtain ⟨t1, h1, rfl⟩ := dispatched_ok _ _ _ h
    exact ⟨(AdadeltaTrainer.adadelta_update_impl_base sqrt l2 tr t1 scale h1).1,
      (AdadeltaTrainer.adadelta_update_impl_base sqrt l2 tr t1 scale h1).2.1⟩
  | RmsProp tr =>
    obtain ⟨t1, h1, rfl⟩ := dispatched_ok _ _ _ h
    exact ⟨(RmsPropTrainer.rmsprop_update_impl_base sqrt l2 tr t1 scale h1).1,
      (RmsPropTrainer.rmsprop_update_impl_base sqrt l2 tr t1 scale h1).2.1⟩
  | Adam tr =>
    obtain ⟨t1, h1, rfl⟩ := dispatched_ok _ _ _ h
    exact ⟨(AdamTrainer.adam_update_impl_base sqrt l2 tr t1 scale h1).1,
      (AdamTrainer.adam_update_impl_base sqrt l2 tr t1 scale h1).2.1⟩

/-- C15. `update` aborts when `update_impl` aborts. When `update_impl` returns,
it has added exactly 1 to `updates` and has left the weight-decay scale as it
was before the step, so its division used that scale; `update` then advances
the scale once and calls `rescale_and_reset_weight_decay` exactly when
`ParametersNeedRescaled` holds of the advanced scale; otherwise the model is the
one `update_impl` wrote. -/
theorem update_runs_impl_then_decay (sqrt : R → R) (l2 : Model R → FloatVal R)
    (UpdateWeightDecay : L2WeightDecay R → L2WeightDecay R)
    (ParametersNeedRescaled : L2WeightDecay R → Bool) (tr : AnyTrainer R) (scale : R) :
    (∀ e, tr.update_impl sqrt l2 scale = .error e →
      tr.update sqrt l2 UpdateWeightDecay ParametersNeedRescaled scale = .error e) ∧
    (∀ tr1, tr.update_impl sqrt l2 scale = .ok tr1 →
      tr1.toTrainer.updates = tr.toTrainer.updates + 1 ∧
      tr1.toTrainer.global_weight_decay = tr.toTrainer.global_weight_decay ∧
      (ParametersNeedRescaled (UpdateWeightDecay tr.toTrainer.global_weight_decay) = true →
        tr.update sqrt l2 UpdateWeightDecay ParametersNeedRescaled scale =
          .ok ((tr1.onTrainer (fun b =>
            { b with global_weight_decay := UpdateWeightDecay b.global_weight_decay })).onTrainer
              Trainer.rescale_and_reset_weight_decay)) ∧
      (ParametersNeedRescaled (UpdateWeightDecay tr.toTrainer.global_weight_decay) = false →
        tr.update sqrt l2 UpdateWeightDecay ParametersNeedRescaled scale =
          .ok (tr1.onTrainer (fun b =>
            { b with global_weight_decay := UpdateWeightDecay b.global_weight_decay })) ∧
        (tr1.onTrainer (fun b =>
            { b with global_weight_decay := UpdateWeightDecay b.global_weight_decay })).toTrainer.model
          = tr1.toTrainer.model ∧
        (tr1.onTrainer (fun b =>
            { b with global_weight_decay :=
              UpdateWeightDecay b.global_weight_decay })).toTrainer.global_weight_decay
          = UpdateWeightDecay tr.toTrainer.global_weight_decay)) := by
  constructor
  · intro e he
    simp only [AnyTrainer.update, he]
  · intro tr1 h1
    obtain ⟨hu, hw⟩ := update_impl_counters sqrt l2 tr tr1 scale h1
    refine ⟨hu, hw, ?_, ?_⟩
    · intro hp
      simp only [AnyTrainer.update, h1, onTrainer_toTrainer, hw, hp, if_true]
    · intro hp
      refine ⟨?_, ?_, ?_⟩
      · simp only [AnyTrainer.update, h1, onTrainer_toTrainer, hw, hp]
        simp
      · rw [onTrainer_toTrainer]
      · rw [onTrainer_toTrainer, hw]

end Facade

theorem update_runs_impl_then_decay_witness :
    (AnyTrainer.MomentumSGD momentumExample).update_impl qsqrt (fun _ => .finite 10) 1 =
        .ok (.MomentumSGD momentumAfter) ∧
      belowQuarter
        (eighthDecay (AnyTrainer.MomentumSGD momentumExample).toTrainer.global_weight_decay) =
          true ∧
      (AnyTrainer.MomentumSGD momentumExample).update qsqrt (fun _ => .finite 10) eighthDecay
          belowQuarter 1 =
        .ok (((AnyTrainer.MomentumSGD momentumAfter).onTrainer (fun b =>
            { b with global_weight_decay := eighthDecay b.global_weight_decay })).onTrainer
              Trainer.rescale_and_reset_weight_decay) ∧
      momentumAfter.updates = momentumExample.updates + 1 :=
  have hp : belowQuarter
      (eighthDecay (AnyTrainer.MomentumSGD momentumExample).toTrainer.global_weight_decay) =
        true := by
    norm_num [belowQuarter, eighthDecay, AnyTrainer.toTrainer, momentumExample, baseTrainer]
  have h := (update_runs_impl_then_decay qsqrt (fun _ => .finite 10) eighthDecay belowQuarter
    (.MomentumSGD momentumExample) 1).2 (.MomentumSGD momentumAfter) momentumExample_run
  ⟨momentumExample_run, hp, h.2.2.1 hp, h.1⟩

/-! ## The state left by the two loops -/

section LoopState

variable {S V : Type}

theorem getElem?_set_self_map {α : Type} (l : List α) (i : Nat) (x : α) :
    (l.set i x)[i]? = (l[i]?).map (fun _ => x) := by
  by_cases h : i < l.length
  · simp [List.getElem?_set_self h, List.getElem?_eq_getElem h]
  · have e : (l.set i x)[i]? = none :=
      List.getElem?_eq_none (by rw [List.length_set]; exact not_lt.mp h)
    simp [e, List.getElem?_eq_none (not_lt.mp h)]

theorem entry_setRowAt_self {α : Type} (h : List (List α)) (k i : Nat) (x : α) :
    entry (setRowAt h k i x) k i = (entry h k i).map (fun _ => x) := by
  unfold entry setRowAt
  rw [getElem?_set_self_map]
  cases hk : h[k]? with
  | none => simp
  | some r =>
    simp only [Option.map_some', Option.some_bind, List.getD_eq_getElem?_getD, hk,
      Option.getD_some]
    exact getElem?_set_self_map r i x

theorem forParams_state_before (body : Nat → S → ParameterStorage R → S × ParameterStorage R)
    (view : Nat → S → V)
    (hframe : ∀ pi pj s p, pj ≠ pi → view pj (body pi s p).1 = view pj s) :
    ∀ (ps : List (ParameterStorage R)) (pi : Nat) (s : S) (pj : Nat), pj < pi →
      view pj (forParams body pi s ps).1 = view pj s
  | [], _, _, _, _ => rfl
  | q :: ps, pi, s, pj, h => by
    simp only [forParams]
    rw [forParams_state_before body view hframe ps (pi + 1) _ pj (by omega),
      hframe pi pj s q (by omega)]

/-- What the loop over the dense parameters leaves in the state at the index
of the `j`-th parameter: what the `j`-th iteration stored there. -/
theorem forParams_state (body : Nat → S → ParameterStorage R → S × ParameterStorage R)
    (view : Nat → S → V) (nv : Nat → V → ParameterStorage R → V)
    (hnv : ∀ pi s p, view pi (body pi s p).1 = nv pi (view pi s) p)
    (hframe : ∀ pi pj s p, pj ≠ pi → view pj (body pi s p).1 = view pj s) :
    ∀ (ps : List (ParameterStorage R)) (pi : Nat) (s : S) (j : Nat) (p : ParameterStorage R),
      ps[j]? = some p →
      view (pi + j) (forParams body pi s ps).1 = nv (pi + j) (view (pi + j) s) p
  | [], _, _, _, _, h => by simp at h
  | q :: ps, pi, s, 0, p, h => by
    simp only [List.getElem?_cons_zero, Option.some.injEq] at h
    subst h
    simp only [forParams, Nat.add_zero]
    rw [forParams_state_before body view hframe ps (pi + 1) _ pi (by omega), hnv]
  | q :: ps, pi, s, j + 1, p, h => by
    simp only [List.getElem?_cons_succ] at h
    have ih := forParams_state body view nv hnv hframe ps (pi + 1) (body pi s q).1 j p h
    have e : pi + (j + 1) = pi + 1 + j := by omega
    simp only [forParams]
    rw [e, ih, hframe pi (pi + 1 + j) s q (by omega)]

theorem foldl_rows_frame [LinearOrderedField R]
    (row : Nat → Nat → S → LookupParameterStorage R → S × LookupParameterStorage R)
    (view : Nat → Nat → S → V)
    (h3 : ∀ pi i k j s p, (k ≠ pi ∨ j ≠ i) → view k j (row pi i s p).1 = view k j s)
    (pi k j : Nat) :
    ∀ (l : List Nat) (s : S) (p : LookupParameterStorage R), (k ≠ pi ∨ j ∉ l) →
      view k j (l.foldl (fun sp i => row pi i sp.1 sp.2) (s, p)).1 = view k j s
  | [], _, _, _ => rfl
  | i :: l, s, p, h => by
    simp only [List.foldl_cons]
    rw [foldl_rows_frame row view h3 pi k j l _ _
      (h.imp id (fun hn hm => hn (List.mem_cons_of_mem _ hm)))]
    exact h3 pi i k j s p (h.imp id (fun hn hm => hn (hm ▸ List.mem_cons_self _ _)))

theorem foldl_rows_state [LinearOrderedField R]
    (row : Nat → Nat → S → LookupParameterStorage R → S × LookupParameterStorage R)
    (view : Nat → Nat → S → V) (nv : Nat → Nat → V → Tensor R → Tensor R → V)
    (hval : ∀ pi i s p j, j ≠ i → (row pi i s p).2.values.getD j [] = p.values.getD j [])
    (h2 : ∀ pi i s p, (row pi i s p).2.grads = p.grads)
    (h3 : ∀ pi i k j s p, (k ≠ pi ∨ j ≠ i) → view k j (row pi i s p).1 = view k j s)
    (hnv : ∀ pi i s p, view pi i (row pi i s p).1 =
      nv pi i (view pi i s) (p.values.getD i []) (p.grads.getD i []))
    (pi : Nat) :
    ∀ (l : List Nat) (s : S) (p : LookupParameterStorage R), l.Nodup → ∀ j, j ∈ l →
      view pi j (l.foldl (fun sp i => row pi i sp.1 sp.2) (s, p)).1 =
        nv pi j (view pi j s) (p.values.getD j []) (p.grads.getD j [])
  | [], _, _, _, _, hj => by simp at hj
  | i :: l, s, p, hnd, j, hj => by
    have hnd2 := List.nodup_cons.mp hnd
    simp only [List.foldl_cons]
    rcases List.mem_cons.mp hj with hji | hjl
    · subst hji
      rw [foldl_rows_frame row view h3 pi pi j l _ _ (Or.inr hnd2.1), hnv]
    · have hji : j ≠ i := fun hm => hnd2.1 (hm ▸ hjl)
      rw [foldl_rows_state row view nv hval h2 h3 hnv pi l _ _ hnd2.2 j hjl,
        h3 pi i pi j s p (Or.inr hji), hval pi i s p j hji, h2]

/-- What the loop over the lookup parameters leaves in the state for a row `j`
in `non_zero_grads` of the `k`-th lookup parameter. -/
theorem forLookupParams_state [LinearOrderedField R]
    (row : Nat → Nat → S → LookupParameterStorage R → S × LookupParameterStorage R)
    (view : Nat → Nat → S → V) (nv : Nat → Nat → V → Tensor R → Tensor R → V)
    (hval : ∀ pi i s p j, j ≠ i → (row pi i s p).2.values.getD j [] = p.values.getD j [])
    (h2 : ∀ pi i s p, (row pi i s p).2.grads = p.grads)
    (h3 : ∀ pi i k j s p, (k ≠ pi ∨ j ≠ i) → view k j (row pi i s p).1 = view k j s)
    (hnv : ∀ pi i s p, view pi i (row pi i s p).1 =
      nv pi i (view pi i s) (p.values.getD i []) (p.grads.getD i [])) :
    ∀ (ps : List (LookupParameterStorage R)) (pi : Nat) (s : S) (k : Nat)
      (p : LookupParameterStorage R), ps[k]? = some p → p.non_zero_grads.Nodup →
      ∀ j, j ∈ p.non_zero_grads →
      view (pi + k) j (forLookupParams row pi s ps).1 =
        nv (pi + k) j (view (pi + k) j s) (p.values.getD j []) (p.grads.getD j [])
  | [], _, _, _, _, h, _, _, _ => by simp at h
  | q :: ps, pi, s, 0, p, h, hnd, j, hj => by
    simp only [List.getElem?_cons_zero, Option.some.injEq] at h
    subst h
    simp only [forLookupParams, Nat.add_zero]
    rw [forLookupParams_frame row view h3 pi j ps (pi + 1) _ (fun _ hle _ => by omega),
      foldl_rows_state row view nv hval h2 h3 hnv pi _ s q hnd j hj]
  | q :: ps, pi, s, k + 1, p, h, hnd, j, hj => by
    simp only [List.getElem?_cons_succ] at h
    have ih := forLookupParams_state row view nv hval h2 h3 hnv ps (pi + 1)
      (q.non_zero_grads.foldl (fun sp i => row pi i sp.1 sp.2) (s, q)).1 k p h hnd j hj
    have e : pi + (k + 1) = pi + 1 + k := by omega
    simp only [forLookupParams]
    rw [e, ih, foldl_rows_frame row view h3 pi (pi + 1 + k) j _ s q (Or.inl (by omega))]

end LoopState

/-! ## `MomentumSGDTrainer`: velocity and value -/

section Momentum

variable [LinearOrderedField R]

theorem MomentumSGDTrainer.momentum_update_impl_vp (l2 : Model R → FloatVal R)
    (tr0 tr1 : MomentumSGDTrainer R) (scale gscale : R) (b : Trainer R)
    (h : tr0.update_impl l2 scale = .ok tr1)
    (hc : tr0.toTrainer.clip_gradients l2 = .ok (gscale, b)) :
    tr1.vp = (forParams
        (MomentumSGDTrainer.dense_body tr0.eta tr0.momentum scale gscale
          tr0.global_weight_decay.CurrentWeightDecay)
        0 tr0.allocate.vp tr0.model.parameters_list).1 ∧
      tr1.momentum = tr0.momentum := by
  unfold MomentumSGDTrainer.update_impl at h
  dsimp only at h
  obtain ⟨ha, hm⟩ := tr0.momentum_allocate_toTrainer
  rw [ha, hc] at h
  cases h
  obtain ⟨h1, h2, h3, _⟩ := clip_gradients_ok_fields l2 _ _ _ hc
  exact ⟨by simp only [h1, h2, h3, hm], hm⟩

theorem MomentumSGDTrainer.momentum_dense_state (eta momentum scale gscale wd : R)
    (s0 : List (Tensor R)) (ps : List (ParameterStorage R)) (j : Nat) (p : ParameterStorage R)
    (v : Tensor R) (hp : ps[j]? = some p) (hv : s0[j]? = some v) :
    (forParams (MomentumSGDTrainer.dense_body eta momentum scale gscale wd) 0 s0 ps).1[j]? =
      some (MomentumSGDTrainer.step eta momentum scale gscale wd v p.g p.values).1 := by
  have h := forParams_state (MomentumSGDTrainer.dense_body eta momentum scale gscale wd)
    (fun pi s => s[pi]?)
    (fun _ o q => o.map (fun v => (MomentumSGDTrainer.step eta momentum scale gscale wd v
      q.g q.values).1))
    (fun pi s q => by
      simp only [MomentumSGDTrainer.dense_body]
      rw [getElem?_set_self_map]
      cases hs : s[pi]? with
      | none => rfl
      | some w => simp [List.getD_eq_getElem?_getD, hs])
    (fun pi pj s q hne => by
      simp only [MomentumSGDTrainer.dense_body]
      exact List.getElem?_set_ne (Ne.symm hne))
    ps 0 s0 j p hp
  simp only [Nat.zero_add] at h
  rw [h, hv]
  rfl

theorem MomentumSGDTrainer.momentum_lookup_state (eta momentum scale gscale wd : R)
    (s0 : List (List (Tensor R))) (ps : List (LookupParameterStorage R)) (k i : Nat)
    (p : LookupParameterStorage R) (v : Tensor R) (hp : ps[k]? = some p)
    (hnd : p.non_zero_grads.Nodup) (hi : i ∈ p.non_zero_grads) (hv : entry s0 k i = some v) :
    entry (forLookupParams (MomentumSGDTrainer.row_body eta momentum scale gscale wd)
        0 s0 ps).1 k i =
      some (MomentumSGDTrainer.step eta momentum scale gscale wd v
        (p.grads.getD i []) (p.values.getD i [])).1 := by
  have h := forLookupParams_state (MomentumSGDTrainer.row_body eta momentum scale gscale wd)
    (fun k j s => entry s k j)
    (fun _ _ o x r => o.map (fun v => (MomentumSGDTrainer.step eta momentum scale gscale wd v
      r x).1))
    (fun pi i s q j hne => by
      simp only [MomentumSGDTrainer.row_body]
      exact getD_set_ne _ _ _ _ _ hne)
    (fun _ _ _ _ => rfl)
    (fun pi i k j s q hne => entry_setRowAt_ne _ _ _ _ _ _ hne)
    (fun pi i s q => by
      simp only [MomentumSGDTrainer.row_body]
      rw [entry_setRowAt_self]
      cases hs : entry s pi i with
      | none => rfl
      | some w => simp [rowAt_of_entry _ _ _ _ _ hs])
    ps 0 s0 k p hp hnd i hi
  simp only [Nat.zero_add] at h
  rw [h, hv]
  rfl

/-- C14. After a call of `MomentumSGDTrainer::update_impl` that returns, with
`gscale` the clip scale and `c` the weight-decay scale: for a dense parameter
with prior velocity `v`, gradient `r` and value `x`, the stored velocity is
`v1 = momentum * v - eta * (scale * gscale * r)` and the stored value is
`x + v1 / c`, coefficient by coefficient; the same holds for every row in
`non_zero_grads`. The allocated-flag is set, so the next call starts from the
velocities stored here. -/
theorem momentum_velocity_and_value (l2 : Model R → FloatVal R)
    (tr tr1 : MomentumSGDTrainer R) (scale : R) (h : tr.update_impl l2 scale = .ok tr1) :
    ∃ gscale b, tr.toTrainer.clip_gradients l2 = .ok (gscale, b) ∧
      (∀ (j : Nat) (p : ParameterStorage R) (v : Tensor R),
        tr.model.parameters_list[j]? = some p → tr.allocate.vp[j]? = some v →
        tr1.vp[j]? = some (List.zipWith
          (fun a r => tr.momentum * a - tr.eta * (scale * gscale * r)) v p.g) ∧
        ∃ p1 : ParameterStorage R, tr1.model.parameters_list[j]? = some p1 ∧
          p1.values = List.zipWith
            (fun a v1 => a + v1 / tr.global_weight_decay.CurrentWeightDecay) p.values
            (List.zipWith (fun a r => tr.momentum * a - tr.eta * (scale * gscale * r)) v p.g)) ∧
      (∀ (k : Nat) (p : LookupParameterStorage R) (i : Nat) (x r v : Tensor R),
        tr.model.lookup_parameters_list[k]? = some p → p.non_zero_grads.Nodup →
        i ∈ p.non_zero_grads → p.values[i]? = some x → p.grads[i]? = some r →
        entry tr.allocate.vlp k i = some v →
        entry tr1.vlp k i = some (List.zipWith
          (fun a r => tr.momentum * a - tr.eta * (scale * gscale * r)) v r) ∧
        ∃ p1 : LookupParameterStorage R, tr1.model.lookup_parameters_list[k]? = some p1 ∧
          p1.values[i]? = some (List.zipWith
            (fun a v1 => a + v1 / tr.global_weight_decay.CurrentWeightDecay) x
            (List.zipWith (fun a r => tr.momentum * a - tr.eta * (scale * gscale * r)) v r))) ∧
      tr1.velocity_allocated = true ∧ tr1.allocate = tr1 ∧ tr1.momentum = tr.momentum := by
  obtain ⟨gscale, b, hc, hps, hl, hvlp⟩ :=
    MomentumSGDTrainer.momentum_update_impl_ok l2 tr tr1 scale h
  obtain ⟨hvp, hmom⟩ := MomentumSGDTrainer.momentum_update_impl_vp l2 tr tr1 scale gscale b h hc
  have hflag := (MomentumSGDTrainer.momentum_update_impl_base l2 tr tr1 scale h).2.2
  have hfun : (fun (a r : R) => tr.momentum * a - tr.eta * scale * gscale * r) =
      (fun a r => tr.momentum * a - tr.eta * (scale * gscale * r)) := by
    funext a r
    ring
  refine ⟨gscale, b, hc, ?_, ?_, hflag,
    MomentumSGDTrainer.momentum_allocate_of_allocated tr1 hflag, hmom⟩
  · intro j p v hp hv
    have hst := MomentumSGDTrainer.momentum_dense_state tr.eta tr.momentum scale gscale
      tr.global_weight_decay.CurrentWeightDecay tr.allocate.vp _ j p v hp hv
    have hval := MomentumSGDTrainer.momentum_dense_value tr.eta tr.momentum scale gscale
      tr.global_weight_decay.CurrentWeightDecay tr.allocate.vp _ j p hp
    rw [← hvp] at hst
    rw [← hps] at hval
    refine ⟨?_, _, hval, ?_⟩
    · rw [hst]
      simp only [MomentumSGDTrainer.step, hfun]
    · simp only [ParameterStorage.clear, MomentumSGDTrainer.step, hfun,
        List.getD_eq_getElem?_getD, hv, Option.getD_some]
  · intro k p i x r v hp hnd hi hx hr hv
    have hst := MomentumSGDTrainer.momentum_lookup_state tr.eta tr.momentum scale gscale
      tr.global_weight_decay.CurrentWeightDecay tr.allocate.vlp _ k i p v hp hnd hi hv
    obtain ⟨p1, e1, _, _, e4⟩ := MomentumSGDTrainer.momentum_lookup_rows tr.eta tr.momentum
      scale gscale tr.global_weight_decay.CurrentWeightDecay tr.allocate.vlp _ k p hp
    have hlt : i < p.values.length := by
      by_contra hge
      rw [List.getElem?_eq_none (not_lt.mp hge)] at hx
      cases hx
    rw [← hvlp] at hst
    rw [← hl] at e1
    refine ⟨?_, p1, e1, ?_⟩
    · rw [hst]
      simp only [MomentumSGDTrainer.step, hfun, List.getD_eq_getElem?_getD, hr,
        Option.getD_some]
    · rw [e4 hnd i hi hlt, rowAt_of_entry _ _ _ _ _ hv]
      simp only [MomentumSGDTrainer.step, hfun, List.getD_eq_getElem?_getD, hr, hx,
        Option.getD_some]

end Momentum

theorem momentumExample_direct :
    momentumExample.update_impl (fun _ => .finite 10) 1 = .ok momentumAfter := by
  norm_num [MomentumSGDTrainer.update_impl,
    MomentumSGDTrainer.allocate, momentumExample, momentumAfter, Trainer.clip_gradients,
    baseTrainer, mixedModel, denseModel, lookupModel, FloatVal.isnan, FloatVal.isinf,
    FloatVal.val, AllocateShadowParameters, AllocateShadowLookupParameters, Tensor.Zero,
    forParams, forLookupParams, MomentumSGDTrainer.dense_body, MomentumSGDTrainer.row_body,
    MomentumSGDTrainer.step, rowAt, setRowAt, ParameterStorage.clear,
    LookupParameterStorage.clear, L2WeightDecay.CurrentWeightDecay]

theorem momentum_velocity_and_value_witness :
    momentumExample.update_impl (fun _ => .finite 10) 1 = .ok momentumAfter ∧
      ∃ gscale b, momentumExample.toTrainer.clip_gradients (fun _ => .finite 10) =
          .ok (gscale, b) ∧
        momentumAfter.vp[0]? = some (List.zipWith
          (fun a r => momentumExample.momentum * a - momentumExample.eta * (1 * gscale * r))
          [0] [2]) ∧
        momentumAfter.velocity_allocated = true ∧ momentumAfter.allocate = momentumAfter := by
  obtain ⟨gscale, b, hc, hd, _, hf, ha, _⟩ :=
    momentum_velocity_and_value (fun _ => .finite 10) momentumExample momentumAfter 1
      momentumExample_direct
  exact ⟨momentumExample_direct, gscale, b, hc,
    (hd 0 { values := [1], g := [2] } [0] rfl rfl).1, hf, ha⟩

/-! ## `AdamTrainer`: the step count -/

theorem iterate_incr_mod (N : Nat) :
    ∀ (m t : Nat), t < N → (fun t => (t + 1) % N)^[m] t = (t + m) % N
  | 0, t, h => by simp [Nat.mod_eq_of_lt h]
  | m + 1, t, h => by
    have hN : 0 < N := by omega
    rw [Function.iterate_succ_apply, iterate_incr_mod N m _ (Nat.mod_lt _ hN), Nat.mod_add_mod]
    congr 1
    omega

section AdamCount

variable [LinearOrderedField R]

theorem AdamTrainer.adam_dense_count (sqrt : R → R) (eta beta_1 beta_2 eps scale gscale wd : R) :
    ∀ (ps : List (ParameterStorage R)) (pi : Nat) (s0 : List (Tensor R) × List (Tensor R) × Nat),
      (forParams (AdamTrainer.dense_body sqrt eta beta_1 beta_2 eps scale gscale wd)
          pi s0 ps).1.2.2 =
        (fun t => (t + 1) % 4294967296)^[ps.length] s0.2.2
  | [], _, _ => rfl
  | q :: ps, pi, s0 => by
    simp only [forParams, List.length_cons, Function.iterate_succ_apply]
    rw [AdamTrainer.adam_dense_count sqrt eta beta_1 beta_2 eps scale gscale wd ps]
    rfl

theorem AdamTrainer.adam_allocate_t (tr : AdamTrainer R) : tr.allocate.t = tr.t := by
  unfold AdamTrainer.allocate
  split_ifs <;> rfl

theorem AdamTrainer.adam_update_impl_t (sqrt : R → R) (l2 : Model R → FloatVal R)
    (tr0 tr1 : AdamTrainer R) (scale : R) (h : tr0.update_impl sqrt l2 scale = .ok tr1) :
    tr1.t = (fun t => (t + 1) % 4294967296)^[tr0.model.parameters_list.length] tr0.t ∧
      tr1.model.parameters_list.length = tr0.model.parameters_list.length := by
  unfold AdamTrainer.update_impl at h
  dsimp only at h
  rcases hc : tr0.allocate.toTrainer.clip_gradients l2 with b | ⟨gscale, b⟩
  · rw [hc] at h
    cases h
  · rw [hc] at h
    cases h
    rw [(tr0.adam_allocate_toTrainer).1] at hc
    obtain ⟨_, h2, _, _⟩ := clip_gradients_ok_fields l2 _ _ _ hc
    refine ⟨?_, ?_⟩
    · show (forParams _ 0 (tr0.allocate.m, tr0.allocate.v, tr0.allocate.t)
        b.model.parameters_list).1.2.2 = _
      rw [AdamTrainer.adam_dense_count, h2, tr0.adam_allocate_t]
    · show (forParams _ 0 (tr0.allocate.m, tr0.allocate.v, tr0.allocate.t)
        b.model.parameters_list).2.length = _
      rw [forParams_length, h2]

/-- C18, amended. In the `k`-th call (`k ≥ 1`) on a model with `n` dense
parameters, the static `t` having started at 0 and so standing at
`(k - 1) * n mod 2^32`: the `j`-th dense parameter (counted from 0 here) is
corrected with step count `((k - 1) * n + (j + 1)) mod 2^32`, every lookup row
with `k * n mod 2^32`, and the call leaves `t = k * n mod 2^32` with `n` dense
parameters. While `k * n < 2^32` the counts are `(k - 1) * n + (j + 1)` and
`k * n`. For `n = 0` the count for the lookup rows is 0 and both denominators
`1 - beta_1 ^ t`, `1 - beta_2 ^ t` are 0. -/
theorem adam_step_counts (sqrt : R → R) (l2 : Model R → FloatVal R)
    (tr tr1 : AdamTrainer R) (scale : R) (n k : Nat) (hk : 1 ≤ k)
    (hn : tr.model.parameters_list.length = n)
    (ht : tr.t = ((k - 1) * n) % 4294967296)
    (h : tr.update_impl sqrt l2 scale = .ok tr1) :
    ∃ gscale b, tr.toTrainer.clip_gradients l2 = .ok (gscale, b) ∧
      (∀ (j : Nat) (p : ParameterStorage R), tr.model.parameters_list[j]? = some p →
        tr1.model.parameters_list[j]? = some (({ p with values :=
          (AdamTrainer.step sqrt tr.eta tr.beta_1 tr.beta_2 tr.eps scale gscale
            tr.global_weight_decay.CurrentWeightDecay (((k - 1) * n + (j + 1)) % 4294967296)
            (tr.allocate.m.getD j []) (tr.allocate.v.getD j []) p.g p.values).2.2 }).clear)) ∧
      (∀ (i : Nat) (p : LookupParameterStorage R), tr.model.lookup_parameters_list[i]? = some p →
        p.non_zero_grads.Nodup → ∀ r, r ∈ p.non_zero_grads → r < p.values.length →
        ∃ p1 : LookupParameterStorage R, tr1.model.lookup_parameters_list[i]? = some p1 ∧
          p1.values[r]? = some
            (AdamTrainer.step sqrt tr.eta tr.beta_1 tr.beta_2 tr.eps scale gscale
              tr.global_weight_decay.CurrentWeightDecay ((k * n) % 4294967296)
              (rowAt tr.allocate.lm i r []) (rowAt tr.allocate.lv i r [])
              (p.grads.getD r []) (p.values.getD r [])).2.2) ∧
      tr1.t = (k * n) % 4294967296 ∧ tr1.model.parameters_list.length = n ∧
      (k * n < 4294967296 → (k * n) % 4294967296 = k * n ∧
        ∀ j, j < n → ((k - 1) * n + (j + 1)) % 4294967296 = (k - 1) * n + (j + 1)) ∧
      (n = 0 → (k * n) % 4294967296 = 0 ∧ 1 - tr.beta_1 ^ ((k * n) % 4294967296) = 0 ∧
        1 - tr.beta_2 ^ ((k * n) % 4294967296) = 0) := by
  obtain ⟨gscale, b, hc, hps, hl, _, _⟩ := AdamTrainer.adam_update_impl_ok sqrt l2 tr tr1 scale h
  obtain ⟨hT, hlen⟩ := AdamTrainer.adam_update_impl_t sqrt l2 tr tr1 scale h
  have hlt : tr.t < 4294967296 := by
    rw [ht]
    exact Nat.mod_lt _ (by norm_num)
  have hkn : (k - 1) * n + n = k * n := by
    obtain ⟨k', rfl⟩ : ∃ k', k = k' + 1 := ⟨k - 1, by omega⟩
    simp only [Nat.add_sub_cancel]
    ring
  have hT2 : tr1.t = (k * n) % 4294967296 := by
    rw [hT, hn, iterate_incr_mod _ _ _ hlt, ht, Nat.mod_add_mod, hkn]
  have hfin : (forParams (AdamTrainer.dense_body sqrt tr.eta tr.beta_1 tr.beta_2 tr.eps scale
      gscale tr.global_weight_decay.CurrentWeightDecay)
      0 (tr.allocate.m, tr.allocate.v, tr.allocate.t) tr.model.parameters_list).1.2.2 =
        (k * n) % 4294967296 := by
    rw [AdamTrainer.adam_dense_count, tr.adam_allocate_t, hn, iterate_incr_mod _ _ _ hlt, ht,
      Nat.mod_add_mod, hkn]
  refine ⟨gscale, b, hc, ?_, ?_, hT2, by rw [hlen, hn], ?_, ?_⟩
  · intro j p hp
    have hval := AdamTrainer.adam_dense_value sqrt tr.eta tr.beta_1 tr.beta_2 tr.eps scale gscale
      tr.global_weight_decay.CurrentWeightDecay (tr.allocate.m, tr.allocate.v, tr.allocate.t)
      _ j p hp
    rw [← hps] at hval
    rw [hval]
    simp only [tr.adam_allocate_t]
    rw [iterate_incr_mod _ _ _ hlt, ht, Nat.mod_add_mod]
  · intro i p hp hnd r hr hrl
    obtain ⟨p1, e1, _, _, e4⟩ := AdamTrainer.adam_lookup_rows sqrt tr.eta tr.beta_1 tr.beta_2
      tr.eps scale gscale tr.global_weight_decay.CurrentWeightDecay
      (forParams (AdamTrainer.dense_body sqrt tr.eta tr.beta_1 tr.beta_2 tr.eps scale
        gscale tr.global_weight_decay.CurrentWeightDecay)
        0 (tr.allocate.m, tr.allocate.v, tr.allocate.t) tr.model.parameters_list).1.2.2
      (tr.allocate.lm, tr.allocate.lv) _ i p hp
    rw [← hl] at e1
    refine ⟨p1, e1, ?_⟩
    rw [e4 hnd r hr hrl, hfin]
  · intro hb
    refine ⟨Nat.mod_eq_of_lt hb, fun j hj => Nat.mod_eq_of_lt ?_⟩
    omega
  · intro h0
    subst h0
    simp

end AdamCount

theorem adamExample_run : adamExample.update_impl qsqrt (fun _ => .nan) 1 = .ok adamAfter := by
  have hs1 : qsqrt 1 = 1 := by norm_num [qsqrt]
  have hs2 : qsqrt (16 / 25) = 4 / 5 := by norm_num [qsqrt, Int.toNat]
  norm_num [AdamTrainer.update_impl, AdamTrainer.allocate, adamExample, adamAfter,
    Trainer.clip_gradients, baseTrainer, AllocateShadowParameters,
    AllocateShadowLookupParameters, Tensor.Zero, forParams, forLookupParams,
    AdamTrainer.dense_body, AdamTrainer.step, ParameterStorage.clear,
    L2WeightDecay.CurrentWeightDecay, hs1, hs2]

theorem adam_step_counts_witness :
    adamExample.update_impl qsqrt (fun _ => .nan) 1 = .ok adamAfter ∧
      adamExample.t = ((1 - 1) * 2) % 4294967296 ∧
      adamAfter.t = (1 * 2) % 4294967296 ∧ adamAfter.model.parameters_list.length = 2 :=
  match adam_step_counts qsqrt (fun _ => .nan) adamExample adamAfter 1 2 1 (le_refl 1) rfl rfl
    adamExample_run with
  | ⟨_, _, _, _, _, ht, hl, _, _⟩ => ⟨adamExample_run, rfl, ht, hl⟩

/-- C18 as stated fails: with one dense parameter, the call number `2^32` starts
from `t = 2^32 - 1` and leaves `t = 0`, the count it corrected the parameter
with, where the claim has `(k - 1) * n + 1 = k * n = 2^32`. -/
theorem adam_step_count_wraps :
    adamWrapExample.model.parameters_list.length = 1 ∧
      adamWrapExample.t = (4294967296 - 1) * 1 ∧
      (adamWrapExample.update_impl qsqrt (fun _ => .nan) 1).map (fun a => a.t) = .ok 0 ∧
      (0 : Nat) ≠ 4294967296 * 1 := by
  refine ⟨rfl, rfl, ?_, by norm_num⟩
  norm_num [AdamTrainer.update_impl, AdamTrainer.allocate, adamWrapExample,
    Trainer.clip_gradients, baseTrainer, forParams, forLookupParams,
    AdamTrainer.dense_body, Except.map]

/-! ## `MomentumSGDTrainer` with momentum 0 and `SimpleSGDTrainer` -/

section MomentumZero

variable [LinearOrderedField R]

theorem MomentumSGDTrainer.momentum_step_no_momentum (eta scale gscale wd : R) :
    ∀ (x v r : Tensor R), v.length = x.length →
      (MomentumSGDTrainer.step eta 0 scale gscale wd v r x).2 =
        List.zipWith (fun a g => a - (eta * scale * gscale) * g / wd) x r
  | [], _, _, _ => by simp [MomentumSGDTrainer.step]
  | a :: x, [], _, h => by simp at h
  | a :: x, b :: v, [], _ => by simp [MomentumSGDTrainer.step]
  | a :: x, b :: v, c :: r, h => by
    have ih := MomentumSGDTrainer.momentum_step_no_momentum eta scale gscale wd x v r
      (by simpa using h)
    simp only [MomentumSGDTrainer.step] at ih ⊢
    simp only [List.zipWith_cons_cons, ih, List.cons.injEq, and_true]
    ring

theorem MomentumSGDTrainer.momentum_row_no_momentum (eta scale gscale wd : R)
    (x v r : Tensor R) (h : v.length = x.length) :
    (MomentumSGDTrainer.step eta 0 scale gscale wd v r x).2 =
      List.zipWith (fun a g => a - g * (eta * scale * gscale) / wd) x r := by
  rw [MomentumSGDTrainer.momentum_step_no_momentum eta scale gscale wd x v r h]
  congr 1
  funext a g
  ring

theorem MomentumSGDTrainer.momentum_dense_no_momentum (eta scale gscale wd : R) :
    ∀ (ps : List (ParameterStorage R)) (pi : Nat) (vp : List (Tensor R)),
      (∀ (j : Nat) (p : ParameterStorage R), ps[j]? = some p →
        ∃ v : Tensor R, vp[pi + j]? = some v ∧ v.length = p.values.length) →
      (forParams (MomentumSGDTrainer.dense_body eta 0 scale gscale wd) pi vp ps).2 =
        (forParams (SimpleSGDTrainer.dense_body eta scale gscale wd) pi () ps).2
  | [], _, _, _ => rfl
  | q :: ps, pi, vp, H => by
    obtain ⟨v, hv, hl⟩ := H 0 q (by simp)
    have ih := MomentumSGDTrainer.momentum_dense_no_momentum eta scale gscale wd ps (pi + 1)
      (MomentumSGDTrainer.dense_body eta 0 scale gscale wd pi vp q).1
      (fun j p hp => by
        obtain ⟨w, hw, hwl⟩ := H (j + 1) p (by simpa using hp)
        refine ⟨w, ?_, hwl⟩
        simp only [MomentumSGDTrainer.dense_body]
        rw [List.getElem?_set_ne (by omega)]
        have e : pi + 1 + j = pi + (j + 1) := by omega
        rw [e]
        exact hw)
    simp only [forParams, ih, List.cons.injEq, and_true]
    simp only [MomentumSGDTrainer.dense_body, SimpleSGDTrainer.dense_body,
      List.getD_eq_getElem?_getD]
    simp only [Nat.add_zero] at hv
    rw [hv, Option.getD_some,
      MomentumSGDTrainer.momentum_step_no_momentum eta scale gscale wd q.values v q.g hl]

theorem MomentumSGDTrainer.momentum_fold_no_momentum (eta scale gscale wd : R) (pi : Nat) :
    ∀ (l : List Nat) (vlp : List (List (Tensor R))) (p : LookupParameterStorage R), l.Nodup →
      (∀ i, i ∈ l → ∃ v : Tensor R,
        entry vlp pi i = some v ∧ v.length = (p.values.getD i []).length) →
      (l.foldl (fun sp i => MomentumSGDTrainer.row_body eta 0 scale gscale wd pi i sp.1 sp.2)
          (vlp, p)).2 =
        (l.foldl (fun sp i => SimpleSGDTrainer.row_body eta scale gscale wd pi i sp.1 sp.2)
          ((), p)).2
  | [], _, _, _, _ => rfl
  | i :: l, vlp, p, hnd, H => by
    have hnd2 := List.nodup_cons.mp hnd
    obtain ⟨v, hv, hl⟩ := H i (List.mem_cons_self _ _)
    have hstep : (MomentumSGDTrainer.row_body eta 0 scale gscale wd pi i vlp p).2 =
        (SimpleSGDTrainer.row_body eta scale gscale wd pi i () p).2 := by
      simp only [MomentumSGDTrainer.row_body, SimpleSGDTrainer.row_body]
      rw [rowAt_of_entry _ _ _ _ _ hv,
        MomentumSGDTrainer.momentum_row_no_momentum eta scale gscale wd _ v _ hl]
    have ih := MomentumSGDTrainer.momentum_fold_no_momentum eta scale gscale wd pi l
      (MomentumSGDTrainer.row_body eta 0 scale gscale wd pi i vlp p).1
      (MomentumSGDTrainer.row_body eta 0 scale gscale wd pi i vlp p).2 hnd2.2
      (fun j hj => by
        have hji : j ≠ i := fun hm => hnd2.1 (hm ▸ hj)
        obtain ⟨w, hw, hwl⟩ := H j (List.mem_cons_of_mem _ hj)
        refine ⟨w, ?_, ?_⟩
        · simp only [MomentumSGDTrainer.row_body]
          rw [entry_setRowAt_ne _ _ _ _ _ _ (Or.inr hji)]
          exact hw
        · simp only [MomentumSGDTrainer.row_body]
          rw [getD_set_ne _ _ _ _ _ hji]
          exact hwl)
    have hpair : SimpleSGDTrainer.row_body eta scale gscale wd pi i () p =
        ((), (MomentumSGDTrainer.row_body eta 0 scale gscale wd pi i vlp p).2) :=
      Prod.ext rfl hstep.symm
    simp only [List.foldl_cons]
    rw [hpair]
    exact ih

theorem MomentumSGDTrainer.momentum_lookup_no_momentum (eta scale gscale wd : R) :
    ∀ (ps : List (LookupParameterStorage R)) (pi : Nat) (vlp : List (List (Tensor R))),
      (∀ (k : Nat) (p : LookupParameterStorage R), ps[k]? = some p →
        p.non_zero_grads.Nodup ∧ ∀ i, i ∈ p.non_zero_grads → ∃ v : Tensor R,
          entry vlp (pi + k) i = some v ∧ v.length = (p.values.getD i []).length) →
      (forLookupParams (MomentumSGDTrainer.row_body eta 0 scale gscale wd) pi vlp ps).2 =
        (forLookupParams (SimpleSGDTrainer.row_body eta scale gscale wd) pi () ps).2
  | [], _, _, _ => rfl
  | q :: ps, pi, vlp, H => by
    obtain ⟨hnd, Hq⟩ := H 0 q (by simp)
    have hfold := MomentumSGDTrainer.momentum_fold_no_momentum eta scale gscale wd pi
      q.non_zero_grads vlp q hnd (by simpa using Hq)
    have ih := MomentumSGDTrainer.momentum_lookup_no_momentum eta scale gscale wd ps (pi + 1)
      (q.non_zero_grads.foldl
        (fun sp i => MomentumSGDTrainer.row_body eta 0 scale gscale wd pi i sp.1 sp.2)
        (vlp, q)).1
      (fun k p hp => by
        obtain ⟨hndp, Hp⟩ := H (k + 1) p (by simpa using hp)
        refine ⟨hndp, fun i hi => ?_⟩
        obtain ⟨w, hw, hwl⟩ := Hp i hi
        have hfr := foldl_rows_frame (MomentumSGDTrainer.row_body eta 0 scale gscale wd)
          (fun k j s => entry s k j)
          (fun pi i k j s p hne => entry_setRowAt_ne _ _ _ _ _ _ hne)
          pi (pi + 1 + k) i q.non_zero_grads vlp q (Or.inl (by omega))
        refine ⟨w, Eq.trans hfr ?_, hwl⟩
        have e : pi + 1 + k = pi + (k + 1) := by omega
        show entry vlp (pi + 1 + k) i = some w
        rw [e]
        exact hw)
    simp only [forLookupParams, ih, hfold]

/-- C19. With `momentum = 0`, velocities of the shape of their parameter and
`non_zero_grads` free of duplicates, `MomentumSGDTrainer::update_impl` and
`SimpleSGDTrainer::update_params` on the same trainer base and model abort
together, and when they return they leave the same dense parameters and the
same lookup parameters (values, cleared gradients, emptied `non_zero_grads`)
and the same `updates` and `clips`. -/
theorem momentum_zero_is_simple_sgd (l2 : Model R → FloatVal R) (tr : MomentumSGDTrainer R)
    (scale : R) (hm : tr.momentum = 0)
    (hc : tr.global_weight_decay.CurrentWeightDecay ≠ 0)
    (hdense : ∀ (j : Nat) (p : ParameterStorage R), tr.model.parameters_list[j]? = some p →
      ∃ v : Tensor R, tr.allocate.vp[j]? = some v ∧ v.length = p.values.length)
    (hrows : ∀ (k : Nat) (p : LookupParameterStorage R),
      tr.model.lookup_parameters_list[k]? = some p →
      p.non_zero_grads.Nodup ∧ ∀ i, i ∈ p.non_zero_grads → ∃ v : Tensor R,
        entry tr.allocate.vlp k i = some v ∧ v.length = (p.values.getD i []).length) :
    (∀ e, tr.update_impl l2 scale = .error e →
      ∃ e1, SimpleSGDTrainer.update_params l2 { toTrainer := tr.toTrainer }
          tr.model.lookup_parameters_list tr.model.parameters_list scale = .error e1 ∧
        e1.toTrainer = e.toTrainer) ∧
    (∀ a, tr.update_impl l2 scale = .ok a →
      ∃ b ls ps, SimpleSGDTrainer.update_params l2 { toTrainer := tr.toTrainer }
          tr.model.lookup_parameters_list tr.model.parameters_list scale = .ok (b, ls, ps) ∧
        a.model.parameters_list = ps ∧ a.model.lookup_parameters_list = ls ∧
        a.updates = b.updates ∧ a.clips = b.clips ∧ a.toTrainer = { b.toTrainer with
          model := { parameters_list := ps, lookup_parameters_list := ls } }) := by
  have _ := hc
  obtain ⟨ha, hmom⟩ := tr.momentum_allocate_toTrainer
  constructor
  · intro e he
    unfold MomentumSGDTrainer.update_impl at he
    dsimp only at he
    rw [ha] at he
    unfold SimpleSGDTrainer.update_params
    dsimp only
    rcases hcl : tr.toTrainer.clip_gradients l2 with b | ⟨gscale, b⟩
    · rw [hcl] at he
      cases he
      exact ⟨_, rfl, rfl⟩
    · rw [hcl] at he
      cases he
  · intro a hok
    unfold MomentumSGDTrainer.update_impl at hok
    dsimp only at hok
    rw [ha] at hok
    unfold SimpleSGDTrainer.update_params
    dsimp only
    rcases hcl : tr.toTrainer.clip_gradients l2 with b | ⟨gscale, b⟩
    · rw [hcl] at hok
      cases hok
    · rw [hcl] at hok
      cases hok
      obtain ⟨_, h2, _, _⟩ := clip_gradients_ok_fields l2 _ _ _ hcl
      have hd := MomentumSGDTrainer.momentum_dense_no_momentum b.eta scale gscale
        b.global_weight_decay.CurrentWeightDecay tr.model.parameters_list 0 tr.allocate.vp
        (fun j p hp => by simpa using hdense j p hp)
      have hl := MomentumSGDTrainer.momentum_lookup_no_momentum b.eta scale gscale
        b.global_weight_decay.CurrentWeightDecay tr.model.lookup_parameters_list 0
        tr.allocate.vlp (fun k p hp => by simpa using hrows k p hp)
      refine ⟨_, _, _, rfl, ?_, ?_, rfl, rfl, ?_⟩
      · show (forParams _ 0 tr.allocate.vp b.model.parameters_list).2 = _
        rw [hmom, hm, h2, hd]
      · show (forLookupParams _ 0 tr.allocate.vlp b.model.lookup_parameters_list).2 = _
        rw [hmom, hm, h2, hl]
      · show ({ b with
          model := { parameters_list := (forParams _ 0 tr.allocate.vp b.model.parameters_list).2
                     lookup_parameters_list :=
                      (forLookupParams _ 0 tr.allocate.vlp b.model.lookup_parameters_list).2 }
          updates := b.updates + 1 } : Trainer R) = _
        rw [hmom, hm, h2, hd, hl]

end MomentumZero

theorem noMomentumExample_run :
    noMomentumExample.update_impl (fun _ => .finite 10) 1 = .ok noMomentumAfter := by
  norm_num [MomentumSGDTrainer.update_impl, noMomentumExample, noMomentumAfter,
    MomentumSGDTrainer.allocate, momentumExample, momentumAfter, Trainer.clip_gradients,
    baseTrainer, mixedModel, denseModel, lookupModel, FloatVal.isnan, FloatVal.isinf,
    FloatVal.val, AllocateShadowParameters, AllocateShadowLookupParameters, Tensor.Zero,
    forParams, forLookupParams, MomentumSGDTrainer.dense_body, MomentumSGDTrainer.row_body,
    MomentumSGDTrainer.step, rowAt, setRowAt, ParameterStorage.clear,
    LookupParameterStorage.clear, L2WeightDecay.CurrentWeightDecay]

theorem momentum_zero_is_simple_sgd_witness :
    noMomentumExample.momentum = 0 ∧
      noMomentumExample.global_weight_decay.CurrentWeightDecay ≠ 0 ∧
      noMomentumExample.update_impl (fun _ => .finite 10) 1 = .ok noMomentumAfter ∧
      ∃ b ls ps, SimpleSGDTrainer.update_params (fun _ => .finite 10)
          { toTrainer := noMomentumExample.toTrainer }
          noMomentumExample.model.lookup_parameters_list
          noMomentumExample.model.parameters_list 1 = .ok (b, ls, ps) ∧
        noMomentumAfter.model.parameters_list = ps ∧
        noMomentumAfter.model.lookup_parameters_list = ls ∧
        noMomentumAfter.updates = b.updates ∧ noMomentumAfter.clips = b.clips := by
  have hc : noMomentumExample.global_weight_decay.CurrentWeightDecay ≠ 0 := by
    norm_num [noMomentumExample, momentumExample, baseTrainer, L2WeightDecay.CurrentWeightDecay]
  have h := momentum_zero_is_simple_sgd (fun _ => .finite 10) noMomentumExample 1 rfl hc
    (fun j p hp => by
      cases j with
      | zero =>
        have e : p = { values := [1], g := [2] } := (Option.some.inj hp).symm
        subst e
        exact ⟨[0], rfl, rfl⟩
      | succ j =>
        simp [noMomentumExample, momentumExample, baseTrainer, mixedModel, denseModel] at hp)
    (fun k p hp => by
      cases k with
      | zero =>
        have e : p = { values := [[1], [3]], grads := [[2], [0]], non_zero_grads := [0] } :=
          (Option.some.inj hp).symm
        subst e
        refine ⟨by simp, fun i hi => ?_⟩
        have e0 : i = 0 := by simpa using hi
        subst e0
        exact ⟨[0], rfl, rfl⟩
      | succ k =>
        simp [noMomentumExample, momentumExample, baseTrainer, mixedModel, lookupModel] at hp)
  obtain ⟨b, ls, ps, h1, h2, h3, h4, h5, _⟩ := h.2 noMomentumAfter noMomentumExample_run
  exact ⟨rfl, hc, noMomentumExample_run, b, ls, ps, h1, h2, h3, h4, h5⟩

end cnn
